import Mathlib

/-!
# PeerConnectionMedia: media-transport negotiation core

A shallow embedding of
`media/webrtc/signaling/src/peerconnection/PeerConnectionMedia.cpp`.

Conventions of the embedding

* `std::string`, `nsCString` and `nsString` values are Lean `String`s; positions
  are indices into the list of characters.
* An `nsresult` is a 32-bit code; it is a failure when bit 31 is set.
* The two event targets (network thread "STS" and main thread) are logs: a
  dispatch appends the runnable, with its bound arguments, at the end.  Where
  the source ignores the result of `Dispatch` the runnable is recorded; where the
  source checks it, the result is an input and a failed dispatch records nothing.
* `MOZ_ASSERT` is compiled out (release build) and is not modelled.
* `new` of an object whose identity matters draws a fresh number from a counter.
-/

namespace mozilla

/-! ## nsresult -/

/-- The 32-bit result code of XPCOM. -/
abbrev nsresult := Nat

/-- Success. -/
def NS_OK : nsresult := 0

/-- The generic failure code. -/
def NS_ERROR_FAILURE : nsresult := 0x80004005

/-- The failure code of `NS_ENSURE_STATE`. -/
def NS_ERROR_UNEXPECTED : nsresult := 0x8000FFFF

/-- The failure code of the URL parsers. -/
def NS_ERROR_MALFORMED_URI : nsresult := 0x804B000A

/-- Embeds `NS_FAILED(rv)`: the severity bit (bit 31) of the 32-bit code is set. -/
def NS_FAILED (rv : nsresult) : Bool := decide (2 ^ 31 ≤ rv % 2 ^ 32)

/-- Embeds `NS_SUCCEEDED(rv)`. -/
def NS_SUCCEEDED (rv : nsresult) : Bool := !NS_FAILED rv

/-! ## Data carried across the thread boundary -/

/-- Embeds `JsepDtlsTransport::Role`. -/
inductive JsepDtlsRole where
  | kJsepDtlsClient
  | kJsepDtlsServer
  | kJsepDtlsInvalidRole
  deriving DecidableEq, Repr

/-- Embeds `TransportLayerDtls::Role`. -/
inductive DtlsRole where
  | CLIENT
  | SERVER
  deriving DecidableEq, Repr

/-- One entry of `SdpFingerprintAttributeList::mFingerprints`. -/
structure SdpFingerprint where
  hashFunc : String
  fingerprint : List Nat
  deriving DecidableEq, Repr

/-- Embeds `JsepIceTransport`: the remote ICE parameters. -/
structure JsepIceTransport where
  ufrag : String
  pwd : String
  candidates : List String
  deriving DecidableEq, Repr

/-- Embeds `JsepDtlsTransport`: the negotiated DTLS role and fingerprints. -/
structure JsepDtlsTransport where
  role : JsepDtlsRole
  fingerprints : List SdpFingerprint
  deriving DecidableEq, Repr

/-- Embeds `JsepTransport`, the transport descriptor of one transceiver. -/
structure JsepTransport where
  mTransportId : String
  mComponents : Nat
  mLocalUfrag : String
  mLocalPwd : String
  mIce : JsepIceTransport
  mDtls : JsepDtlsTransport
  deriving DecidableEq, Repr

/-- Embeds `JsepTransceiver`, the members `PeerConnectionMedia` reads. -/
structure JsepTransceiver where
  mTransport : JsepTransport
  level : Nat
  hasOwnTransport : Bool
  deriving DecidableEq, Repr

/-- The SRTP protection profiles named in `UpdateTransportFlow`. -/
inductive SrtpCipher where
  | kDtlsSrtpAeadAes256Gcm
  | kDtlsSrtpAeadAes128Gcm
  | kDtlsSrtpAes128CmHmacSha1_80
  | kDtlsSrtpAes128CmHmacSha1_32
  deriving DecidableEq, Repr

/-- The DTLS layer as configured by `UpdateTransportFlow` before it is handed
to the network thread. -/
structure TransportLayerDtls where
  role : DtlsRole
  identity : Option Nat
  digests : List SdpFingerprint
  srtpCiphers : List SrtpCipher
  alpn : List String
  alpnDefault : String
  deriving DecidableEq, Repr

/-- Embeds `TransportFlow`: `object` is the identity of the heap object, `id` the
string given to the constructor. -/
structure TransportFlow where
  object : Nat
  id : String
  deriving DecidableEq, Repr

/-- Embeds `NrIceProxyServer(host, port, alpn)`. -/
structure NrIceProxyServer where
  host : String
  port : Nat
  alpn : String
  deriving DecidableEq, Repr

/-- One element of `NrIceStunAddrArray`. -/
structure NrIceStunAddr where
  addr : String
  deriving DecidableEq, Repr

/-- Embeds `nsIProxyInfo`, seen through `GetHost` and `GetPort`. -/
structure nsIProxyInfo where
  GetHost : Except nsresult String
  GetPort : Except nsresult Int

/-- Runnables the source posts to the network (STS) thread, each with the
arguments bound by `WrapRunnable`. -/
inductive STSRunnable where
  | EnsureTransport_s (aTransportId aUfrag aPwd : String) (aComponentCount : Nat)
  | ActivateTransport_s (aTransportId aLocalUfrag aLocalPwd : String)
      (aComponentCount : Nat) (aUfrag aPassword : String) (aCandidateList : List String)
  | RemoveTransportsExcept_s (aIds : List String)
  | FinalizeTransportFlow_s (aFlow : TransportFlow) (aId : String) (aIsRtcp : Bool)
      (aDtlsLayer : TransportLayerDtls)
  | ConnectDtlsListener_s (aFlow : TransportFlow)
  | StartIceChecks_s (aIsControlling aIsOfferer aIsIceLite : Bool)
      (aIceOptionsList : List String)
  | EnsureIceGathering_s (aDefaultRouteOnly aProxyOnly : Bool)
  | AddIceCandidate_s (aCandidate aTransportId : String)
  | UpdateNetworkState_s (online : Bool)
  | ShutdownMediaTransport_s
  | ProxyRelease (aFlow : TransportFlow)
  deriving DecidableEq, Repr

/-- Embeds `dom::PCImplIceConnectionState`. -/
inductive PCImplIceConnectionState where
  | New | Checking | Connected | Completed | Failed | Disconnected | Closed
  deriving DecidableEq, Repr

/-- Embeds `dom::PCImplIceGatheringState`. -/
inductive PCImplIceGatheringState where
  | New | Gathering | Complete
  deriving DecidableEq, Repr

/-- Signals `PeerConnectionMedia` emits to its observers on the main thread. -/
inductive PCMSignal where
  | SignalIceGatheringStateChange (state : PCImplIceGatheringState)
  | SignalIceConnectionStateChange (state : PCImplIceConnectionState)
  | SignalCandidate (aCandidateLine aTransportId : String)
  | SignalUpdateDefaultCandidate (aDefaultAddr : String) (aDefaultPort : Nat)
      (aDefaultRtcpAddr : String) (aDefaultRtcpPort : Nat) (aTransportId : String)
  | SignalEndOfLocalCandidates (aTransportId : String)
  deriving DecidableEq, Repr

/-- Modelled from the spec: `NrIceStunServer`, holding the arguments it was
created with. -/
structure NrIceStunServer where
  host : String
  port : Nat
  transport : String
  deriving DecidableEq, Repr

/-- Modelled from the spec: `NrIceTurnServer`, holding the arguments it was
created with. -/
structure NrIceTurnServer where
  host : String
  port : Nat
  username : String
  password : String
  transport : String
  deriving DecidableEq, Repr

/-- Embeds `NrIceCtx::GatheringState`. -/
inductive NrIceCtx.GatheringState where
  | ICE_CTX_GATHER_INIT
  | ICE_CTX_GATHER_STARTED
  | ICE_CTX_GATHER_COMPLETE
  deriving DecidableEq, Repr

/-- Embeds `NrIceCtx::ConnectionState`. -/
inductive NrIceCtx.ConnectionState where
  | ICE_CTX_INIT
  | ICE_CTX_CHECKING
  | ICE_CTX_CONNECTED
  | ICE_CTX_COMPLETED
  | ICE_CTX_FAILED
  | ICE_CTX_DISCONNECTED
  | ICE_CTX_CLOSED
  deriving DecidableEq, Repr

/-- Embeds `NrIceCtx::Controlling`, the two values `StartIceChecks_s` passes. -/
inductive NrIceCtx.Controlling where
  | ICE_CONTROLLING
  | ICE_CONTROLLED
  deriving DecidableEq, Repr

/-- Embeds `NrIceCtx::Policy`. -/
inductive NrIceCtx.Policy where
  | ICE_POLICY_RELAY
  | ICE_POLICY_NO_HOST
  | ICE_POLICY_ALL
  deriving DecidableEq, Repr

/-- Embeds `NrIceAddr`, the two members read here. -/
structure NrIceAddr where
  host : String := ""
  port : Nat := 0
  deriving DecidableEq, Repr

/-- Embeds `NrIceCandidate`, the member read here. -/
structure NrIceCandidate where
  cand_addr : NrIceAddr := {}
  deriving DecidableEq, Repr

/-- Runnables the source posts to the main thread, each with its bound
arguments; `ctx` is the identity of the `NrIceCtx` the event came from. -/
inductive MainRunnable where
  | IceGatheringStateChange_m (ctx : Nat) (state : NrIceCtx.GatheringState)
  | IceConnectionStateChange_m (ctx : Nat) (state : NrIceCtx.ConnectionState)
  | OnCandidateFound_m (aCandidateLine aDefaultAddr : String) (aDefaultPort : Nat)
      (aDefaultRtcpAddr : String) (aDefaultRtcpPort : Nat) (aTransportId : String)
  | EndOfLocalCandidates_m (aDefaultAddr : String) (aDefaultPort : Nat)
      (aDefaultRtcpAddr : String) (aDefaultRtcpPort : Nat) (aTransportId : String)
  | DtlsConnected_m (aParentHandle : String) (aPrivacyRequested : Bool)
  | SelfDestruct_m
  deriving DecidableEq, Repr

/-! ## Strings -/

/-- Whether the characters of `needle` stand at the front of `s`. -/
def startsWith : List Char → List Char → Bool
  | _, [] => true
  | [], _ :: _ => false
  | c :: s, d :: needle => c == d && startsWith s needle

/-- Embeds `NrIceMediaStream`, with the part of its state that `PeerConnectionMedia`
drives: identity, the constructor arguments, the local credentials, the two
signal connections, the arguments of the last `ConnectToPeer` that was
accepted, the components disabled so far, oldest first, the default
candidate the engine currently has for each component that has one, and the
trickle candidates accepted so far, oldest first. -/
structure NrIceMediaStream where
  object : Nat
  id : String
  name : String
  components : Nat
  ufrag : String := ""
  pwd : String := ""
  signalReadyConnected : Bool := false
  signalCandidateConnected : Bool := false
  peer : Option (String × String × List String) := none
  disabledComponents : List Nat := []
  defaultCandidates : List (Nat × NrIceCandidate) := []
  trickleCandidates : List String := []
  deriving DecidableEq, Repr

/-- Embeds `NrIceCtx`, seen as the keyed store of its streams (`streams_`), the
counter from which stream objects take their identity, and what
`PeerConnectionMedia` sets on it or reads from it: the identity of the context
object, its name and policy, the server lists and resolver once installed,
whether `PeerConnectionMedia` is connected to its two state signals, the proxy
server, flags and local addresses handed over before gathering, the streams
for which gathering was started, the two states, the global attributes last
accepted, the role and the checks once set and started, and whether the
context was destroyed. -/
structure NrIceCtx where
  streams : List NrIceMediaStream := []
  nextObject : Nat := 0
  ctxId : Nat := 0
  name : String := ""
  policy : NrIceCtx.Policy := NrIceCtx.Policy.ICE_POLICY_ALL
  stunServers : Option (List NrIceStunServer) := none
  turnServers : Option (List NrIceTurnServer) := none
  resolverSet : Bool := false
  gatheringSignalConnected : Bool := false
  connectionSignalConnected : Bool := false
  proxyServer : Option NrIceProxyServer := none
  ctxFlags : Option (Bool × Bool) := none
  stunAddrs : Option (List NrIceStunAddr) := none
  gatheringStarted : List String := []
  gatheringState : NrIceCtx.GatheringState := NrIceCtx.GatheringState.ICE_CTX_GATHER_INIT
  connectionState : NrIceCtx.ConnectionState := NrIceCtx.ConnectionState.ICE_CTX_INIT
  globalAttributes : Option (List String) := none
  controlling : Option NrIceCtx.Controlling := none
  checksStarted : Option Bool := none
  destroyed : Bool := false
  deriving DecidableEq, Repr

namespace NrIceCtx

/-- Modelled from the spec: `NrIceCtx::GetStream` (media/mtransport/nricectx.cpp
is not among the sources). The stream registered under the transport-id, if
there is one. -/
def GetStream (ctx : NrIceCtx) (id : String) : Option NrIceMediaStream :=
  ctx.streams.find? (fun s => s.id == id)

/-- Modelled from the spec: `NrIceCtx::GetStreams`. A snapshot of the streams
currently in the context. -/
def GetStreams (ctx : NrIceCtx) : List NrIceMediaStream :=
  ctx.streams

/-- Modelled from the spec: `NrIceCtx::CreateStream`. Creates the stream for a
transport-id that has none and stores it; there is at most one stream per
transport-id, so a second creation for an id yields no stream. -/
def CreateStream (ctx : NrIceCtx) (id name : String) (components : Nat) :
    Option NrIceMediaStream × NrIceCtx :=
  if ctx.streams.any (fun s => s.id == id) then
    (none, ctx)
  else
    let stream : NrIceMediaStream :=
      { object := ctx.nextObject, id := id, name := name, components := components }
    (some stream, { ctx with streams := ctx.streams ++ [stream],
                             nextObject := ctx.nextObject + 1 })

/-- Modelled from the spec: `NrIceCtx::DestroyStream`. Destroys the stream
registered under the transport-id. -/
def DestroyStream (ctx : NrIceCtx) (id : String) : NrIceCtx :=
  { ctx with streams := ctx.streams.filter (fun s => !(s.id == id)) }

/-- Writes back a stream that was mutated through the `RefPtr` obtained from
the context: the entry under the stream's transport-id takes the new contents. -/
def store (ctx : NrIceCtx) (stream : NrIceMediaStream) : NrIceCtx :=
  { ctx with streams :=
      ctx.streams.map (fun s => if s.id == stream.id then stream else s) }

/-- The transport-ids of the streams in the context, in store order. -/
def streamIds (ctx : NrIceCtx) : List String :=
  ctx.streams.map (fun s => s.id)

/-- Position of a gathering state in the order Init, Gathering, Complete. -/
def GatheringState.rank : GatheringState → Nat
  | .ICE_CTX_GATHER_INIT => 0
  | .ICE_CTX_GATHER_STARTED => 1
  | .ICE_CTX_GATHER_COMPLETE => 2

/-- Modelled from the spec: `NrIceCtx::SetGatheringState`. The gathering state
is monotonic: it only moves forward in Init, Gathering, Complete, and each move
is signalled once. The second component is what `SignalGatheringStateChange`
emits. -/
def SetGatheringState (ctx : NrIceCtx) (state : GatheringState) :
    NrIceCtx × List GatheringState :=
  if ctx.gatheringState.rank < state.rank then
    ({ ctx with gatheringState := state }, [state])
  else
    (ctx, [])

/-- Modelled from the spec: `NrIceCtx::SetProxyServer`. -/
def SetProxyServer (ctx : NrIceCtx) (proxy : NrIceProxyServer) : NrIceCtx :=
  { ctx with proxyServer := some proxy }

/-- Modelled from the spec: `NrIceCtx::SetCtxFlags`. -/
def SetCtxFlags (ctx : NrIceCtx) (defaultRouteOnly proxyOnly : Bool) : NrIceCtx :=
  { ctx with ctxFlags := some (defaultRouteOnly, proxyOnly) }

/-- Modelled from the spec: `NrIceCtx::SetStunAddrs`. -/
def SetStunAddrs (ctx : NrIceCtx) (addrs : List NrIceStunAddr) : NrIceCtx :=
  { ctx with stunAddrs := some addrs }

/-- Modelled from the spec: `NrIceCtx::StartGathering`. Begins gathering on the
streams that are not gathering yet (calling it again spawns no second
discovery for a stream) and moves the gathering state to Gathering. -/
def StartGathering (ctx : NrIceCtx) (defaultRouteOnly proxyOnly : Bool) :
    NrIceCtx × List GatheringState :=
  let ctx1 : NrIceCtx :=
    { ctx with
      ctxFlags := some (defaultRouteOnly, proxyOnly),
      gatheringStarted := ctx.gatheringStarted ++
        ctx.streamIds.filter (fun id => !(ctx.gatheringStarted.contains id)) }
  ctx1.SetGatheringState GatheringState.ICE_CTX_GATHER_STARTED

end NrIceCtx

/-- Modelled from the spec: `NrIceMediaStream::GetDefaultCandidate`. Writes the
default candidate of the component to the out-parameter; fails, leaving the
out-parameter as it was, when the component has none. -/
def NrIceMediaStream.GetDefaultCandidate (stream : NrIceMediaStream) (component : Nat)
    (out : NrIceCandidate) : nsresult × NrIceCandidate :=
  match stream.defaultCandidates.find? (fun kv => kv.1 == component) with
  | some kv => (NS_OK, kv.2)
  | none => (NS_ERROR_FAILURE, out)

/-- Modelled from the spec: `NrIceMediaStream::SetIceCredentials`
(media/mtransport/nricemediastream.cpp is not among the sources). Updates the
credentials of the stream in place. -/
def NrIceMediaStream.SetIceCredentials (stream : NrIceMediaStream)
    (ufrag pwd : String) : NrIceMediaStream :=
  { stream with ufrag := ufrag, pwd := pwd }

/-! ## ICE server URLs

`addNrIceServer` is a static function of the file. The string classes of
xpcom, `NS_NewURI`, the authority parser of necko and the server classes of
mtransport are not among the sources; what the function needs of them is
modelled below. Positions that can be `-1` (`kNotFound`) are integers. -/

/-- Modelled from the spec: the `nsIURI` that `NS_NewURI` returns for an ICE
server URL, seen through `SchemeIs`, `GetSpec` and `GetPathQueryRef`. `scheme`
is the scheme in lower case; the two getters return their status and value. -/
structure nsIURI where
  scheme : String
  GetSpec : nsresult × String
  GetPathQueryRef : nsresult × String

/-- Modelled from the spec: `nsIURI::SchemeIs`. -/
def nsIURI.SchemeIs (url : nsIURI) (scheme : String) : Bool :=
  url.scheme == scheme

/-- Embeds `OwningStringOrStringSequence`, the type of `RTCIceServer::mUrls`. -/
inductive OwningStringOrStringSequence where
  | string (value : String)
  | stringSequence (value : List String)
  deriving DecidableEq, Repr

/-- Embeds `dom::RTCIceServer`: the two members `addNrIceServer` reads and
`mUrls`, which is `none` when it was not passed. -/
structure RTCIceServer where
  mCredential : String := ""
  mUsername : String := ""
  mUrls : Option OwningStringOrStringSequence := none
  deriving DecidableEq, Repr

/-- Embeds `dom::RTCIceTransportPolicy`. -/
inductive RTCIceTransportPolicy where
  | Relay
  | All
  deriving DecidableEq, Repr

/-- Embeds `dom::RTCConfiguration`, the two members `Init` reads; `mIceServers`
is `none` when it was not passed. -/
structure RTCConfiguration where
  mIceServers : Option (List RTCIceServer) := none
  mIceTransportPolicy : RTCIceTransportPolicy := RTCIceTransportPolicy.All
  deriving DecidableEq, Repr

/-- Modelled from the spec: the transport name `kNrIceTransportUdp` of
nricectx.h, which is not among the sources. -/
def kNrIceTransportUdp : List Char := "udp".data

/-- Modelled from the spec: the transport name `kNrIceTransportTcp` of
nricectx.h. -/
def kNrIceTransportTcp : List Char := "tcp".data

/-- Modelled from the spec: the transport name `kNrIceTransportTls` of
nricectx.h. -/
def kNrIceTransportTls : List Char := "tls".data

/-- What `addNrIceServer` calls outside the file and cannot be read off the
URL: `NS_NewURI` (status and URI) and whether `NrIceStunServer::Create` /
`NrIceTurnServer::Create` yield a server for a host, port and transport. -/
structure IceServerEnv where
  NS_NewURI : String → nsresult × nsIURI
  createOk : String → Nat → String → Bool

/-- Modelled from the spec: `NrIceStunServer::Create`. -/
def NrIceStunServer.Create (env : IceServerEnv) (host : String) (port : Nat)
    (transport : String) : Option NrIceStunServer :=
  if env.createOk host port transport then
    some { host := host, port := port, transport := transport }
  else none

/-- Modelled from the spec: `NrIceTurnServer::Create`. -/
def NrIceTurnServer.Create (env : IceServerEnv) (host : String) (port : Nat)
    (username password transport : String) : Option NrIceTurnServer :=
  if env.createOk host port transport then
    some { host := host, port := port, username := username, password := password,
           transport := transport }
  else none

/-- Index of the first character satisfying `p`, counting the head of the list
as `pos`; `-1` when there is none. -/
def findCharFrom (p : Char → Bool) : List Char → Nat → Int
  | [], _ => -1
  | c :: s, pos => if p c then (pos : Int) else findCharFrom p s (pos + 1)

/-- Modelled from the spec: `nsCString::FindChar(c)`. -/
def FindChar (s : List Char) (c : Char) : Int :=
  findCharFrom (fun d => d == c) s 0

/-- Modelled from the spec: `nsCString::FindCharInSet(set, offset)`: the first
position at or after `offset` holding a character of `set`, else `-1`. -/
def FindCharInSet (s : List Char) (set : List Char) (offset : Nat) : Int :=
  if offset > s.length then -1 else findCharFrom (fun d => set.contains d) (s.drop offset) offset

/-- Conversion of an `int32_t` to the `uint32_t` parameter it is passed for. -/
def toUint32 (i : Int) : Nat := (i % 2 ^ 32).toNat

/-- Modelled from the spec: `Substring(str, startPos, length)` of
nsTDependentSubstring.h: `length` characters from `startPos`, both clamped to
the string. -/
def Substring (s : List Char) (startPos length : Nat) : List Char :=
  (s.drop startPos).take length

/-- Modelled from the spec: `ToLowerCase` on an ASCII string. -/
def ToLowerCase (s : List Char) : List Char :=
  s.map Char.toLower

/-- The loop of `addNrIceServer` over the fields of the query string:
`for (int32_t i = questionmark, endPos; i >= 0; i = endPos)`. `fuel` bounds the
number of iterations; `none` means the bound was reached with `i >= 0`. -/
def queryTransportLoop (path : List Char) : Nat → Int → List Char → Option (List Char)
  | 0, i, transport => if 0 ≤ i then none else some transport
  | fuel + 1, i, transport =>
    if 0 ≤ i then
      let endPos := FindCharInSet path ['&'] (i + 1).toNat
      let fieldvaluepair := Substring path (i + 1).toNat (toUint32 endPos)
      let transport1 :=
        if startsWith fieldvaluepair "transport=".data then
          ToLowerCase (Substring fieldvaluepair "transport=".length (toUint32 (-1)))
        else transport
      queryTransportLoop path fuel endPos transport1
    else some transport

/-- Index of the last occurrence of `c`. -/
def rfindChar (c : Char) : List Char → Option Nat
  | [] => none
  | d :: s =>
    match rfindChar c s with
    | some k => some (k + 1)
    | none => if d == c then some 0 else none

/-- Decimal value of a string of digits; `none` when a character is not a
digit. -/
def parsePort (s : List Char) : Option Nat :=
  if s.all Char.isDigit then some (s.foldl (fun n c => 10 * n + (c.toNat - 48)) 0) else none

/-- The out-parameters of `ParseAuthority` that `addNrIceServer` asks for. -/
structure AuthorityParse where
  hostPos : Nat
  hostLen : Int
  port : Int
  deriving DecidableEq, Repr

/-- Modelled from the spec: `nsAuthURLParser::ParseAuthority`
(netwerk/base/nsURLParsers.cpp is not among the sources). The authority is
`[user-info "@"] host [":" port]`: the host starts after the last `@`, the port
follows the last `:` of what remains and is `-1` when absent; a port that is
not a number below 65536 makes the URI malformed. -/
def ParseAuthority (auth : List Char) : nsresult × AuthorityParse :=
  let serverPos :=
    match rfindChar '@' auth with
    | some k => k + 1
    | none => 0
  let serverinfo := auth.drop serverPos
  match rfindChar ':' serverinfo with
  | none => (NS_OK, { hostPos := serverPos, hostLen := serverinfo.length, port := -1 })
  | some colon =>
    let portText := serverinfo.drop (colon + 1)
    if portText.isEmpty then
      (NS_OK, { hostPos := serverPos, hostLen := colon, port := -1 })
    else
      match parsePort portText with
      | none => (NS_ERROR_MALFORMED_URI, { hostPos := serverPos, hostLen := colon, port := -1 })
      | some p =>
        if p > 65535 then
          (NS_ERROR_MALFORMED_URI, { hostPos := serverPos, hostLen := colon, port := -1 })
        else
          (NS_OK, { hostPos := serverPos, hostLen := colon, port := p })

/-- Embeds `addNrIceServer`. The two output vectors are passed in and returned; the
result is `none` only if the query-string loop did not finish within its
bound of `path.length + 1` iterations. -/
def addNrIceServer (env : IceServerEnv) (aIceUrl : String) (aIceServer : RTCIceServer)
    (aStunServersOut : List NrIceStunServer) (aTurnServersOut : List NrIceTurnServer) :
    Option (nsresult × List NrIceStunServer × List NrIceTurnServer) :=
  let r := env.NS_NewURI aIceUrl
  if NS_FAILED r.1 then some (r.1, aStunServersOut, aTurnServersOut)
  else
    let url := r.2
    let isStun := url.SchemeIs "stun"
    let isStuns := url.SchemeIs "stuns"
    let isTurn := url.SchemeIs "turn"
    let isTurns := url.SchemeIs "turns"
    if !(isStun || isStuns || isTurn || isTurns) then
      some (NS_ERROR_FAILURE, aStunServersOut, aTurnServersOut)
    else if isStuns then
      some (NS_OK, aStunServersOut, aTurnServersOut)
    else if NS_FAILED url.GetSpec.1 then
      some (url.GetSpec.1, aStunServersOut, aTurnServersOut)
    else if NS_FAILED url.GetPathQueryRef.1 then
      some (url.GetPathQueryRef.1, aStunServersOut, aTurnServersOut)
    else
      let path0 := url.GetPathQueryRef.2.data
      let questionmark := FindChar path0 '?'
      let scanned : Option (List Char × List Char) :=
        if 0 ≤ questionmark then
          (queryTransportLoop path0 (path0.length + 1) questionmark []).map
            (fun transport => (transport, path0.take questionmark.toNat))
        else some ([], path0)
      match scanned with
      | none => none
      | some (transport0, path) =>
        let parsed := ParseAuthority path
        if NS_FAILED parsed.1 then some (parsed.1, aStunServersOut, aTurnServersOut)
        else if parsed.2.hostLen = 0 then
          some (NS_ERROR_FAILURE, aStunServersOut, aTurnServersOut)
        else if parsed.2.hostPos > 1 then
          some (NS_ERROR_FAILURE, aStunServersOut, aTurnServersOut)
        else
          let host := String.mk ((path.drop parsed.2.hostPos).take parsed.2.hostLen.toNat)
          let port : Int :=
            if parsed.2.port = -1 then (if isStuns || isTurns then 5349 else 3478)
            else parsed.2.port
          let transport1 := if isStuns || isTurns then kNrIceTransportTls else transport0
          let transport := if transport1.isEmpty then kNrIceTransportUdp else transport1
          if isTurn || isTurns then
            match NrIceTurnServer.Create env host (port % 65536).toNat aIceServer.mUsername
                aIceServer.mCredential (String.mk transport) with
            | none => some (NS_ERROR_FAILURE, aStunServersOut, aTurnServersOut)
            | some server => some (NS_OK, aStunServersOut, aTurnServersOut ++ [server])
          else
            match NrIceStunServer.Create env host (port % 65536).toNat (String.mk transport) with
            | none => some (NS_ERROR_FAILURE, aStunServersOut, aTurnServersOut)
            | some server => some (NS_OK, aStunServersOut ++ [server], aTurnServersOut)

/-! ## PeerConnectionMedia -/

/-- The state of a `PeerConnectionMedia`. `mProxyRequest` and
`mStunAddrsRequest` record whether the pointer is non-null; `identity` and
`privacyRequested` are what `mParent->Identity()` and
`mParent->PrivacyRequested()` return; `stsThread` and `mainSignals` are the
runnables posted to the network thread and the signals emitted, oldest first. -/
structure PeerConnectionMedia where
  mParentHandle : String := ""
  mParentName : String := ""
  mIceCtx : Option NrIceCtx := none
  mProxyRequest : Bool := false
  mProxyResolveCompleted : Bool := false
  mProxyServer : Option NrIceProxyServer := none
  mStunAddrsRequest : Bool := false
  mLocalAddrsCompleted : Bool := false
  mStunAddrs : List NrIceStunAddr := []
  mQueuedIceCtxOperations : List STSRunnable := []
  mTransportFlows : List (String × TransportFlow) := []
  mRtcpTransportFlows : List (String × TransportFlow) := []
  identity : Option Nat := none
  privacyRequested : Bool := false
  nextFlowObject : Nat := 0
  stsThread : List STSRunnable := []
  mainSignals : List PCMSignal := []
  deriving DecidableEq, Repr

namespace PeerConnectionMedia

/-- Embeds `GetSTSThread()->Dispatch(runnable, NS_DISPATCH_NORMAL)` with the result
ignored. -/
def DispatchSTS (pcm : PeerConnectionMedia) (runnable : STSRunnable) :
    PeerConnectionMedia :=
  { pcm with stsThread := pcm.stsThread ++ [runnable] }

/-- Modelled from the spec: `IsIceCtxReady` is defined in PeerConnectionMedia.h,
which is not among the sources. The gate is open when both resolvers have
completed. -/
def IsIceCtxReady (pcm : PeerConnectionMedia) : Bool :=
  pcm.mProxyResolveCompleted && pcm.mLocalAddrsCompleted

/-- Embeds `PeerConnectionMedia::FlushIceCtxOperationQueueIfReady`. -/
def FlushIceCtxOperationQueueIfReady (pcm : PeerConnectionMedia) :
    PeerConnectionMedia :=
  if pcm.IsIceCtxReady then
    let pcm1 := pcm.mQueuedIceCtxOperations.foldl DispatchSTS pcm
    { pcm1 with mQueuedIceCtxOperations := [] }
  else
    pcm

/-- Embeds `PeerConnectionMedia::PerformOrEnqueueIceCtxOperation`. -/
def PerformOrEnqueueIceCtxOperation (pcm : PeerConnectionMedia)
    (runnable : STSRunnable) : PeerConnectionMedia :=
  if pcm.IsIceCtxReady then
    pcm.DispatchSTS runnable
  else
    { pcm with mQueuedIceCtxOperations := pcm.mQueuedIceCtxOperations ++ [runnable] }

/-- Embeds `PeerConnectionMedia::ProtocolProxyQueryHandler::SetProxyOnPcm`. -/
def SetProxyOnPcm (pcm : PeerConnectionMedia) (proxyinfo : nsIProxyInfo) :
    PeerConnectionMedia :=
  match proxyinfo.GetHost with
  | .error _ => pcm
  | .ok httpsProxyHost =>
    match proxyinfo.GetPort with
    | .error _ => pcm
    | .ok httpsProxyPort =>
      if pcm.mIceCtx.isSome then
        let server : NrIceProxyServer :=
          { host := httpsProxyHost, port := (httpsProxyPort % 65536).toNat,
            alpn := "webrtc,c-webrtc" }
        { pcm with mProxyServer := some server }
      else
        pcm

/-- Embeds `PeerConnectionMedia::ProtocolProxyQueryHandler::OnProxyAvailable`. -/
def OnProxyAvailable (pcm : PeerConnectionMedia) (proxyinfo : Option nsIProxyInfo)
    (result : nsresult) : PeerConnectionMedia :=
  if !pcm.mProxyRequest then
    pcm
  else
    let pcm1 :=
      match proxyinfo with
      | some info => if NS_SUCCEEDED result then pcm.SetProxyOnPcm info else pcm
      | none => pcm
    let pcm2 := { pcm1 with mProxyResolveCompleted := true, mProxyRequest := false }
    pcm2.FlushIceCtxOperationQueueIfReady

/-- Embeds `PeerConnectionMedia::StunAddrsHandler::OnStunAddrsAvailable`. The first
component is the handler member `pcm_` (true while it is non-null), the second
the `PeerConnectionMedia` it points to. -/
def OnStunAddrsAvailable (pcm_ : Bool) (pcm : PeerConnectionMedia)
    (addrs : List NrIceStunAddr) : Bool × PeerConnectionMedia :=
  if pcm_ then
    let pcm1 := { pcm with mStunAddrs := addrs, mLocalAddrsCompleted := true,
                           mStunAddrsRequest := false }
    let pcm2 := pcm1.FlushIceCtxOperationQueueIfReady
    let pcm3 :=
      if pcm2.mStunAddrs.length = 0 then
        { pcm2 with mainSignals := pcm2.mainSignals ++
            [PCMSignal.SignalIceConnectionStateChange PCImplIceConnectionState.Failed] }
      else
        pcm2
    (false, pcm3)
  else
    (pcm_, pcm)

/-! ### Transport flows -/

/-- The outcomes of the calls `UpdateTransportFlow` makes into code outside the
file and whose result it checks: the three `TransportLayerDtls` setters
(`SetVerificationDigest` is given the digests already set) and
`nsIEventTarget::Dispatch`. -/
structure FlowEnv where
  SetVerificationDigest : List SdpFingerprint → SdpFingerprint → nsresult
  SetSrtpCiphers : List SrtpCipher → nsresult
  SetAlpn : List String → String → nsresult
  Dispatch : STSRunnable → nsresult

/-- The registry selected by `aRtcp ? mRtcpTransportFlows : mTransportFlows`. -/
def flows (pcm : PeerConnectionMedia) (aRtcp : Bool) : List (String × TransportFlow) :=
  if aRtcp then pcm.mRtcpTransportFlows else pcm.mTransportFlows

/-- Assignment through the reference `flows`. -/
def setFlows (pcm : PeerConnectionMedia) (aRtcp : Bool)
    (newFlows : List (String × TransportFlow)) : PeerConnectionMedia :=
  if aRtcp then { pcm with mRtcpTransportFlows := newFlows }
  else { pcm with mTransportFlows := newFlows }

/-- Modelled from the spec: `GetTransportFlow` is defined in
PeerConnectionMedia.h, which is not among the sources. The flow registered
under the (transport-id, is-RTCP) key, if there is one. -/
def GetTransportFlow (pcm : PeerConnectionMedia) (aId : String) (aIsRtcp : Bool) :
    Option TransportFlow :=
  ((pcm.flows aIsRtcp).find? (fun kv => kv.1 == aId)).map (fun kv => kv.2)

/-- Embeds `PeerConnectionMedia::AddTransportFlow`. -/
def AddTransportFlow (pcm : PeerConnectionMedia) (aId : String) (aRtcp : Bool)
    (aFlow : TransportFlow) : PeerConnectionMedia :=
  if (pcm.flows aRtcp).any (fun kv => kv.1 == aId) then
    pcm
  else
    let pcm1 := pcm.setFlows aRtcp (pcm.flows aRtcp ++ [(aId, aFlow)])
    pcm1.DispatchSTS (.ConnectDtlsListener_s aFlow)

/-- Embeds `PeerConnectionMedia::RemoveTransportFlow`. `NS_ProxyRelease` hands the
flow to the network thread to be released there. -/
def RemoveTransportFlow (pcm : PeerConnectionMedia) (aId : String) (aRtcp : Bool) :
    PeerConnectionMedia :=
  match (pcm.flows aRtcp).find? (fun kv => kv.1 == aId) with
  | some it =>
    let pcm1 := pcm.DispatchSTS (.ProxyRelease it.2)
    pcm1.setFlows aRtcp ((pcm1.flows aRtcp).filter (fun kv => !(kv.1 == aId)))
  | none => pcm

/-- The loop of `UpdateTransportFlow` over the negotiated fingerprints: `set`
holds the digests accepted so far; the first rejected one ends the loop with
its error. -/
def setVerificationDigests (env : FlowEnv) :
    List SdpFingerprint → List SdpFingerprint → Except nsresult (List SdpFingerprint)
  | set, [] => .ok set
  | set, fingerprint :: rest =>
    let rv := env.SetVerificationDigest set fingerprint
    if NS_FAILED rv then .error rv else setVerificationDigests env (set ++ [fingerprint]) rest

/-- The flow object `UpdateTransportFlow` constructs for a key. -/
def newTransportFlow (pcm : PeerConnectionMedia) (aIsRtcp : Bool)
    (aTransport : JsepTransport) : TransportFlow :=
  { object := pcm.nextFlowObject,
    id := pcm.mParentHandle ++ ":" ++ aTransport.mTransportId ++ "," ++
            (if aIsRtcp then "rtcp" else "rtp") }

/-- Embeds `PeerConnectionMedia::UpdateTransportFlow`. -/
def UpdateTransportFlow (env : FlowEnv) (pcm : PeerConnectionMedia) (aIsRtcp : Bool)
    (aTransport : JsepTransport) : nsresult × PeerConnectionMedia :=
  if aIsRtcp && decide (aTransport.mComponents < 2) then
    (NS_OK, pcm.RemoveTransportFlow aTransport.mTransportId aIsRtcp)
  else if !aIsRtcp && decide (aTransport.mComponents = 0) then
    (NS_OK, pcm.RemoveTransportFlow aTransport.mTransportId aIsRtcp)
  else
    match pcm.GetTransportFlow aTransport.mTransportId aIsRtcp with
    | some _ => (NS_OK, pcm)
    | none =>
      let flow := pcm.newTransportFlow aIsRtcp aTransport
      let pcm1 := { pcm with nextFlowObject := pcm.nextFlowObject + 1 }
      let role :=
        if aTransport.mDtls.role = JsepDtlsRole.kJsepDtlsClient then DtlsRole.CLIENT
        else DtlsRole.SERVER
      match pcm1.identity with
      | none => (NS_ERROR_FAILURE, pcm1)
      | some pcid =>
        match setVerificationDigests env [] aTransport.mDtls.fingerprints with
        | .error rv => (rv, pcm1)
        | .ok digests =>
          let srtpCiphers :=
            [SrtpCipher.kDtlsSrtpAeadAes256Gcm, SrtpCipher.kDtlsSrtpAeadAes128Gcm,
             SrtpCipher.kDtlsSrtpAes128CmHmacSha1_80, SrtpCipher.kDtlsSrtpAes128CmHmacSha1_32]
          let rv := env.SetSrtpCiphers srtpCiphers
          if NS_FAILED rv then (rv, pcm1)
          else
            let alpn0 := ["c-webrtc"]
            let alpnDefault := if !pcm1.privacyRequested then "webrtc" else ""
            let alpn := if !pcm1.privacyRequested then alpn0 ++ [alpnDefault] else alpn0
            let rv := env.SetAlpn alpn alpnDefault
            if NS_FAILED rv then (rv, pcm1)
            else
              let dtls : TransportLayerDtls :=
                { role := role, identity := some pcid, digests := digests,
                  srtpCiphers := srtpCiphers, alpn := alpn, alpnDefault := alpnDefault }
              let runnable :=
                STSRunnable.FinalizeTransportFlow_s flow aTransport.mTransportId aIsRtcp dtls
              let rv := env.Dispatch runnable
              if NS_FAILED rv then (rv, pcm1)
              else
                let pcm2 := pcm1.DispatchSTS runnable
                (NS_OK, pcm2.AddTransportFlow aTransport.mTransportId aIsRtcp flow)

/-- Embeds `PeerConnectionMedia::UpdateTransportFlows`. -/
def UpdateTransportFlows (env : FlowEnv) (pcm : PeerConnectionMedia)
    (aTransceiver : JsepTransceiver) : nsresult × PeerConnectionMedia :=
  let r := pcm.UpdateTransportFlow env false aTransceiver.mTransport
  if NS_FAILED r.1 then
    r
  else
    r.2.UpdateTransportFlow env true aTransceiver.mTransport

end PeerConnectionMedia

/-! ## Network-thread operations on the ICE context

The `_s` member functions run on the network thread and work on `mIceCtx`;
they are given the context (and the members they read) and return the context
they leave behind. -/

/-- Embeds `PeerConnectionMedia::EnsureTransport_s`. -/
def EnsureTransport_s (mParentName : String) (mIceCtx : NrIceCtx)
    (aTransportId aUfrag aPwd : String) (aComponentCount : Nat) : NrIceCtx :=
  match mIceCtx.GetStream aTransportId with
  | some stream => mIceCtx.store (stream.SetIceCredentials aUfrag aPwd)
  | none =>
    match mIceCtx.CreateStream aTransportId
        (mParentName ++ " transport-id=" ++ aTransportId) aComponentCount with
    | (none, _) => mIceCtx
    | (some stream, ctx1) =>
      let connected : NrIceMediaStream :=
        { stream with signalReadyConnected := true, signalCandidateConnected := true }
      (ctx1.store connected).store (connected.SetIceCredentials aUfrag aPwd)

/-- Embeds `PeerConnectionMedia::RemoveTransportsExcept_s`. The `std::set` of ids to
keep is a list used through membership only. -/
def RemoveTransportsExcept_s (mIceCtx : NrIceCtx) (aIds : List String) : NrIceCtx :=
  mIceCtx.GetStreams.foldl
    (fun ctx stream => if !(aIds.contains stream.id) then ctx.DestroyStream stream.id else ctx)
    mIceCtx

/-- Modelled from the spec: `NrIceMediaStream::ConnectToPeer`
(media/mtransport/nricemediastream.cpp is not among the sources). Injects the
remote description attributes; `parse` is the verdict of the ICE engine on
them, and attributes it rejects leave the stream as it was. -/
def NrIceMediaStream.ConnectToPeer (stream : NrIceMediaStream)
    (parse : List String → nsresult) (ufrag pwd : String) (attrs : List String) :
    nsresult × NrIceMediaStream :=
  let rv := parse attrs
  if NS_FAILED rv then (rv, stream)
  else (rv, { stream with peer := some (ufrag, pwd, attrs) })

/-- Modelled from the spec: `NrIceMediaStream::DisableComponent`. Marks the
1-based component as disabled. -/
def NrIceMediaStream.DisableComponent (stream : NrIceMediaStream) (component : Nat) :
    NrIceMediaStream :=
  { stream with disabledComponents := stream.disabledComponents ++ [component] }

/-- The attribute list `ActivateTransport_s` builds for `ConnectToPeer`. -/
def peerAttributes (aUfrag aPassword : String) (aCandidateList : List String) :
    List String :=
  aCandidateList.map (fun candidate => "candidate:" ++ candidate) ++
    ["ice-ufrag:" ++ aUfrag, "ice-pwd:" ++ aPassword]

/-- Embeds `PeerConnectionMedia::ActivateTransport_s`; `parse` is the verdict of the
ICE engine on the attributes handed to `ConnectToPeer`. -/
def ActivateTransport_s (parse : List String → nsresult) (mIceCtx : NrIceCtx)
    (aTransportId aLocalUfrag aLocalPwd : String) (aComponentCount : Nat)
    (aUfrag aPassword : String) (aCandidateList : List String) : NrIceCtx :=
  match mIceCtx.GetStream aTransportId with
  | none => mIceCtx
  | some stream =>
    let attrs := peerAttributes aUfrag aPassword aCandidateList
    let r := stream.ConnectToPeer parse aLocalUfrag aLocalPwd attrs
    let stream1 :=
      (List.range' aComponentCount (r.2.components - aComponentCount)).foldl
        (fun s c => s.DisableComponent (c + 1)) r.2
    mIceCtx.store stream1

/-! ## Event relay -/

/-- Embeds `PeerConnectionMedia::GetDefaultCandidates`; the two candidates are
passed in and returned. -/
def GetDefaultCandidates (aStream : NrIceMediaStream)
    (aCandidate aRtcpCandidate : NrIceCandidate) : NrIceCandidate × NrIceCandidate :=
  let res := aStream.GetDefaultCandidate 1 aCandidate
  let rtcp := aStream.GetDefaultCandidate 2 aRtcpCandidate
  let rtcpCandidate : NrIceCandidate :=
    if NS_FAILED rtcp.1 then { rtcp.2 with cand_addr := { rtcp.2.cand_addr with host := "", port := 0 } }
    else rtcp.2
  let candidate : NrIceCandidate :=
    if NS_FAILED res.1 then { res.2 with cand_addr := { res.2.cand_addr with host := "", port := 0 } }
    else res.2
  (candidate, rtcpCandidate)

/-- Embeds `PeerConnectionMedia::EndOfLocalCandidates`: the runnable it posts to the
main thread. -/
def EndOfLocalCandidates (aDefaultAddr : String) (aDefaultPort : Nat)
    (aDefaultRtcpAddr : String) (aDefaultRtcpPort : Nat) (aTransportId : String) :
    List MainRunnable :=
  [MainRunnable.EndOfLocalCandidates_m aDefaultAddr aDefaultPort aDefaultRtcpAddr
    aDefaultRtcpPort aTransportId]

/-- Embeds `PeerConnectionMedia::IceGatheringStateChange_s`: the runnables it posts
to the main thread, in order. -/
def IceGatheringStateChange_s (ctx : NrIceCtx) (state : NrIceCtx.GatheringState) :
    List MainRunnable :=
  let posted : List MainRunnable :=
    if state = NrIceCtx.GatheringState.ICE_CTX_GATHER_COMPLETE then
      ctx.GetStreams.foldl
        (fun posted stream =>
          let r := GetDefaultCandidates stream {} {}
          posted ++ EndOfLocalCandidates r.1.cand_addr.host r.1.cand_addr.port
            r.2.cand_addr.host r.2.cand_addr.port stream.id)
        []
    else []
  posted ++ [MainRunnable.IceGatheringStateChange_m ctx.ctxId state]

/-- Embeds `PeerConnectionMedia::IceConnectionStateChange_s`: the runnable it posts
to the main thread. -/
def IceConnectionStateChange_s (ctx : NrIceCtx) (state : NrIceCtx.ConnectionState) :
    List MainRunnable :=
  [MainRunnable.IceConnectionStateChange_m ctx.ctxId state]

/-- Embeds `PeerConnectionMedia::OnCandidateFound_s`: the runnable it posts to the
main thread. `mIceCtx` tells whether the member is non-null; the release
assertion on it aborts, which is `none`. -/
def OnCandidateFound_s (mIceCtx : Bool) (aStream : NrIceMediaStream)
    (aCandidateLine : String) : Option (List MainRunnable) :=
  if !mIceCtx then none
  else
    let r := GetDefaultCandidates aStream {} {}
    some [MainRunnable.OnCandidateFound_m aCandidateLine r.1.cand_addr.host r.1.cand_addr.port
      r.2.cand_addr.host r.2.cand_addr.port aStream.id]

/-- Embeds `toDomIceConnectionState`. -/
def toDomIceConnectionState : NrIceCtx.ConnectionState → PCImplIceConnectionState
  | .ICE_CTX_INIT => PCImplIceConnectionState.New
  | .ICE_CTX_CHECKING => PCImplIceConnectionState.Checking
  | .ICE_CTX_CONNECTED => PCImplIceConnectionState.Connected
  | .ICE_CTX_COMPLETED => PCImplIceConnectionState.Completed
  | .ICE_CTX_FAILED => PCImplIceConnectionState.Failed
  | .ICE_CTX_DISCONNECTED => PCImplIceConnectionState.Disconnected
  | .ICE_CTX_CLOSED => PCImplIceConnectionState.Closed

/-- Embeds `toDomIceGatheringState`. -/
def toDomIceGatheringState : NrIceCtx.GatheringState → PCImplIceGatheringState
  | .ICE_CTX_GATHER_INIT => PCImplIceGatheringState.New
  | .ICE_CTX_GATHER_STARTED => PCImplIceGatheringState.Gathering
  | .ICE_CTX_GATHER_COMPLETE => PCImplIceGatheringState.Complete

namespace PeerConnectionMedia

/-- Emission of a signal to the observers on the main thread. -/
def emit (pcm : PeerConnectionMedia) (signal : PCMSignal) : PeerConnectionMedia :=
  { pcm with mainSignals := pcm.mainSignals ++ [signal] }

/-- Embeds `PeerConnectionMedia::IceGatheringStateChange_m`. -/
def IceGatheringStateChange_m (pcm : PeerConnectionMedia) (_ctx : Nat)
    (state : NrIceCtx.GatheringState) : PeerConnectionMedia :=
  pcm.emit (PCMSignal.SignalIceGatheringStateChange (toDomIceGatheringState state))

/-- Embeds `PeerConnectionMedia::IceConnectionStateChange_m`. -/
def IceConnectionStateChange_m (pcm : PeerConnectionMedia) (_ctx : Nat)
    (state : NrIceCtx.ConnectionState) : PeerConnectionMedia :=
  pcm.emit (PCMSignal.SignalIceConnectionStateChange (toDomIceConnectionState state))

/-- Embeds `PeerConnectionMedia::OnCandidateFound_m`. -/
def OnCandidateFound_m (pcm : PeerConnectionMedia) (aCandidateLine aDefaultAddr : String)
    (aDefaultPort : Nat) (aDefaultRtcpAddr : String) (aDefaultRtcpPort : Nat)
    (aTransportId : String) : PeerConnectionMedia :=
  let pcm1 :=
    if !aDefaultAddr.isEmpty then
      pcm.emit (PCMSignal.SignalUpdateDefaultCandidate aDefaultAddr aDefaultPort
        aDefaultRtcpAddr aDefaultRtcpPort aTransportId)
    else pcm
  pcm1.emit (PCMSignal.SignalCandidate aCandidateLine aTransportId)

/-- Embeds `PeerConnectionMedia::EndOfLocalCandidates_m`. -/
def EndOfLocalCandidates_m (pcm : PeerConnectionMedia) (aDefaultAddr : String)
    (aDefaultPort : Nat) (aDefaultRtcpAddr : String) (aDefaultRtcpPort : Nat)
    (aTransportId : String) : PeerConnectionMedia :=
  let pcm1 :=
    if !aDefaultAddr.isEmpty then
      pcm.emit (PCMSignal.SignalUpdateDefaultCandidate aDefaultAddr aDefaultPort
        aDefaultRtcpAddr aDefaultRtcpPort aTransportId)
    else pcm
  pcm1.emit (PCMSignal.SignalEndOfLocalCandidates aTransportId)

/-- The main thread running one of the relay runnables posted to it; the other
runnables do not emit signals and are not followed here. -/
def runMain (pcm : PeerConnectionMedia) : MainRunnable → PeerConnectionMedia
  | .IceGatheringStateChange_m ctx state => pcm.IceGatheringStateChange_m ctx state
  | .IceConnectionStateChange_m ctx state => pcm.IceConnectionStateChange_m ctx state
  | .OnCandidateFound_m line addr port rtcpAddr rtcpPort id =>
      pcm.OnCandidateFound_m line addr port rtcpAddr rtcpPort id
  | .EndOfLocalCandidates_m addr port rtcpAddr rtcpPort id =>
      pcm.EndOfLocalCandidates_m addr port rtcpAddr rtcpPort id
  | .DtlsConnected_m _ _ => pcm
  | .SelfDestruct_m => pcm

end PeerConnectionMedia

/-- The slot of `PeerConnectionMedia` on `SignalGatheringStateChange`: each
emitted state reaches `IceGatheringStateChange_s` while the signal is
connected. -/
def deliverGatheringStates (ctx : NrIceCtx) (emitted : List NrIceCtx.GatheringState) :
    List MainRunnable :=
  if ctx.gatheringSignalConnected then
    emitted.foldl (fun posted state => posted ++ IceGatheringStateChange_s ctx state) []
  else []

/-- The slot of `PeerConnectionMedia` on `SignalConnectionStateChange`. -/
def deliverConnectionStates (ctx : NrIceCtx) (emitted : List NrIceCtx.ConnectionState) :
    List MainRunnable :=
  if ctx.connectionSignalConnected then
    emitted.foldl (fun posted state => posted ++ IceConnectionStateChange_s ctx state) []
  else []

/-- Embeds `PeerConnectionMedia::ConnectSignals`: the new context, the old context
if one was given, and the runnables posted to the main thread by the signals
it fires on the new context. -/
def ConnectSignals (aCtx : NrIceCtx) (aOldCtx : Option NrIceCtx) :
    NrIceCtx × Option NrIceCtx × List MainRunnable :=
  let ctx1 : NrIceCtx :=
    { aCtx with gatheringSignalConnected := true, connectionSignalConnected := true }
  match aOldCtx with
  | none => (ctx1, none, [])
  | some old =>
    let old1 : NrIceCtx :=
      { old with gatheringSignalConnected := false, connectionSignalConnected := false }
    let posted1 :=
      if old1.connectionState ≠ ctx1.connectionState ∧
          ctx1.connectionState ≠ NrIceCtx.ConnectionState.ICE_CTX_INIT then
        deliverConnectionStates ctx1 [ctx1.connectionState]
      else []
    let posted2 :=
      if old1.gatheringState ≠ ctx1.gatheringState ∧
          ctx1.gatheringState ≠ NrIceCtx.GatheringState.ICE_CTX_GATHER_INIT then
        deliverGatheringStates ctx1 [ctx1.gatheringState]
      else []
    (ctx1, some old1, posted1 ++ posted2)

/-! ## Gathering -/

/-- Embeds `PeerConnectionMedia::EnsureIceGathering_s`: the context it leaves and the
runnables posted to the main thread. `isContentProcess` is
`XRE_IsContentProcess()`; `pcm` supplies `mProxyServer` and `mStunAddrs`. -/
def EnsureIceGathering_s (isContentProcess : Bool) (pcm : PeerConnectionMedia)
    (mIceCtx : NrIceCtx) (aDefaultRouteOnly aProxyOnly : Bool) :
    NrIceCtx × List MainRunnable :=
  let afterProxy : NrIceCtx → NrIceCtx × List MainRunnable := fun ctx1 =>
    if pcm.mStunAddrs.length = 0 && isContentProcess then
      (ctx1, [])
    else
      let ctx2 := ctx1.SetCtxFlags aDefaultRouteOnly aProxyOnly
      let ctx3 := if pcm.mStunAddrs.length ≠ 0 then ctx2.SetStunAddrs pcm.mStunAddrs else ctx2
      if !ctx3.GetStreams.isEmpty then
        let r := ctx3.StartGathering aDefaultRouteOnly aProxyOnly
        (r.1, deliverGatheringStates r.1 r.2)
      else
        (ctx3, IceGatheringStateChange_s ctx3 NrIceCtx.GatheringState.ICE_CTX_GATHER_COMPLETE)
  match pcm.mProxyServer with
  | some proxy => afterProxy (mIceCtx.SetProxyServer proxy)
  | none =>
    if aProxyOnly then
      (mIceCtx, IceGatheringStateChange_s mIceCtx NrIceCtx.GatheringState.ICE_CTX_GATHER_COMPLETE)
    else afterProxy mIceCtx

/-! ## Initialisation -/

/-- What `Init` reads from preferences and gets back from calls that leave the
file: the three `media.peerconnection.*` preferences, `XRE_IsContentProcess()`,
the results of `do_GetService`, `NS_NewChannel` and `AsyncResolve` in
`InitProxy`, whether `NrIceCtx::Create` yields a context, and the results of
`SetStunServers`, `SetTurnServers`, `mDNSResolver->Init()` and `SetResolver`.
`ice` serves `addNrIceServer` and the `NS_NewURI` of `InitProxy`. -/
structure InitEnv where
  ice : IceServerEnv
  disable_http_proxy : Bool := false
  ice_no_host : Bool := false
  turn_disable : Bool := false
  isContentProcess : Bool := false
  proxyService : nsresult := NS_OK
  newChannel : nsresult := NS_OK
  asyncResolve : nsresult := NS_OK
  createCtx : Bool := true
  setStunServers : List NrIceStunServer → nsresult := fun _ => NS_OK
  setTurnServers : List NrIceTurnServer → nsresult := fun _ => NS_OK
  dnsResolverInit : nsresult := NS_OK
  setResolver : nsresult := NS_OK

/-- Modelled from the spec: `NrIceCtx::Create` (media/mtransport/nricectx.cpp
is not among the sources). A fresh context with the name and policy given, in
its initial states, with no server list, no resolver and no slot connected;
no context when creation fails. -/
def NrIceCtx.Create (ok : Bool) (name : String) (policy : NrIceCtx.Policy) :
    Option NrIceCtx :=
  if ok then some { name := name, policy := policy } else none

/-- Modelled from the spec: `NrIceCtx::SetStunServers`. Installs the list
unless the engine refuses it. -/
def NrIceCtx.SetStunServers (ctx : NrIceCtx) (rv : nsresult)
    (servers : List NrIceStunServer) : nsresult × NrIceCtx :=
  if NS_FAILED rv then (rv, ctx) else (rv, { ctx with stunServers := some servers })

/-- Modelled from the spec: `NrIceCtx::SetTurnServers`. -/
def NrIceCtx.SetTurnServers (ctx : NrIceCtx) (rv : nsresult)
    (servers : List NrIceTurnServer) : nsresult × NrIceCtx :=
  if NS_FAILED rv then (rv, ctx) else (rv, { ctx with turnServers := some servers })

/-- Modelled from the spec: `NrIceCtx::SetResolver`. -/
def NrIceCtx.SetResolver (ctx : NrIceCtx) (rv : nsresult) : nsresult × NrIceCtx :=
  if NS_FAILED rv then (rv, ctx) else (rv, { ctx with resolverSet := true })

/-- Embeds `PeerConnectionMedia::InitProxy`. -/
def PeerConnectionMedia.InitProxy (env : InitEnv) (pcm : PeerConnectionMedia) :
    nsresult × PeerConnectionMedia :=
  if env.disable_http_proxy then
    (NS_OK, { pcm with mProxyResolveCompleted := true })
  else if NS_FAILED env.proxyService then (NS_ERROR_FAILURE, pcm)
  else if NS_FAILED (env.ice.NS_NewURI "https://example.com").1 then (NS_ERROR_FAILURE, pcm)
  else if NS_FAILED env.newChannel then (NS_ERROR_FAILURE, pcm)
  else if NS_FAILED env.asyncResolve then (NS_ERROR_FAILURE, pcm)
  else (NS_OK, { pcm with mProxyRequest := true })

/-- Embeds `PeerConnectionMedia::InitLocalAddrs`. -/
def PeerConnectionMedia.InitLocalAddrs (isContentProcess : Bool)
    (pcm : PeerConnectionMedia) : PeerConnectionMedia :=
  if isContentProcess then { pcm with mStunAddrsRequest := true }
  else { pcm with mLocalAddrsCompleted := true }

/-- Embeds `toNrIcePolicy`; `ice_no_host` is the preference
`media.peerconnection.ice.no_host`. -/
def toNrIcePolicy (ice_no_host : Bool) : RTCIceTransportPolicy → NrIceCtx.Policy
  | .Relay => NrIceCtx.Policy.ICE_POLICY_RELAY
  | .All =>
    if ice_no_host then NrIceCtx.Policy.ICE_POLICY_NO_HOST
    else NrIceCtx.Policy.ICE_POLICY_ALL

/-- The inner loop of `Init` over the URLs of one ICE server. The first
component is the failure that makes `Init` return, if there is one; `calls`
lists the calls of `addNrIceServer` made so far with their results, oldest
first. -/
def addIceUrls (env : IceServerEnv) (iceServer : RTCIceServer) :
    List String → List NrIceStunServer → List NrIceTurnServer → List (String × nsresult) →
    Option (Option nsresult × List NrIceStunServer × List NrIceTurnServer ×
      List (String × nsresult))
  | [], stunServers, turnServers, calls => some (none, stunServers, turnServers, calls)
  | iceUrl :: rest, stunServers, turnServers, calls =>
    match addNrIceServer env iceUrl iceServer stunServers turnServers with
    | none => none
    | some (rv, stunServers1, turnServers1) =>
      if NS_FAILED rv then
        some (some rv, stunServers1, turnServers1, calls ++ [(iceUrl, rv)])
      else
        addIceUrls env iceServer rest stunServers1 turnServers1 (calls ++ [(iceUrl, rv)])

/-- The outer loop of `Init` over the ICE servers of the configuration, with
the two `NS_ENSURE_STATE` checks on `mUrls`. -/
def addIceServers (env : IceServerEnv) :
    List RTCIceServer → List NrIceStunServer → List NrIceTurnServer →
    List (String × nsresult) →
    Option (Option nsresult × List NrIceStunServer × List NrIceTurnServer ×
      List (String × nsresult))
  | [], stunServers, turnServers, calls => some (none, stunServers, turnServers, calls)
  | iceServer :: rest, stunServers, turnServers, calls =>
    match iceServer.mUrls with
    | none => some (some NS_ERROR_UNEXPECTED, stunServers, turnServers, calls)
    | some (.string _) => some (some NS_ERROR_UNEXPECTED, stunServers, turnServers, calls)
    | some (.stringSequence urls) =>
      match addIceUrls env iceServer urls stunServers turnServers calls with
      | none => none
      | some (some rv, stunServers1, turnServers1, calls1) =>
        some (some rv, stunServers1, turnServers1, calls1)
      | some (none, stunServers1, turnServers1, calls1) =>
        addIceServers env rest stunServers1 turnServers1 calls1

/-- What a call of `Init` yields: the value returned, the object as it is left,
and the calls of `addNrIceServer` made, with their results. -/
structure InitResult where
  rv : nsresult
  pcm : PeerConnectionMedia
  calls : List (String × nsresult)
  deriving DecidableEq, Repr

/-- Embeds `PeerConnectionMedia::Init`. `NrIceCtx::InitializeGlobals` sets process
globals of the engine that nothing here reads and is left out. The result is
`none` only if a call of `addNrIceServer` did not finish within its bound. -/
def PeerConnectionMedia.Init (env : InitEnv) (pcm : PeerConnectionMedia)
    (aConfiguration : RTCConfiguration) : Option InitResult :=
  let proxy := pcm.InitProxy env
  if NS_FAILED proxy.1 then some { rv := proxy.1, pcm := proxy.2, calls := [] }
  else
    let pcm1 := proxy.2.InitLocalAddrs env.isContentProcess
    match NrIceCtx.Create env.createCtx ("PC:" ++ pcm1.mParentName)
        (toNrIcePolicy env.ice_no_host aConfiguration.mIceTransportPolicy) with
    | none => some { rv := NS_ERROR_FAILURE, pcm := { pcm1 with mIceCtx := none }, calls := [] }
    | some ctx =>
      let pcm2 : PeerConnectionMedia := { pcm1 with mIceCtx := some ctx }
      let added :=
        match aConfiguration.mIceServers with
        | some servers => addIceServers env.ice servers [] [] []
        | none => some (none, [], [], [])
      match added with
      | none => none
      | some (some rv, _, _, calls) => some { rv := rv, pcm := pcm2, calls := calls }
      | some (none, stunServers, turnServers, calls) =>
        let stun := ctx.SetStunServers (env.setStunServers stunServers) stunServers
        if NS_FAILED stun.1 then
          some { rv := stun.1, pcm := { pcm2 with mIceCtx := some stun.2 }, calls := calls }
        else
          let turn :=
            if !env.turn_disable then
              stun.2.SetTurnServers (env.setTurnServers turnServers) turnServers
            else (stun.1, stun.2)
          if !env.turn_disable && NS_FAILED turn.1 then
            some { rv := turn.1, pcm := { pcm2 with mIceCtx := some turn.2 }, calls := calls }
          else if NS_FAILED env.dnsResolverInit then
            some { rv := env.dnsResolverInit, pcm := { pcm2 with mIceCtx := some turn.2 },
                   calls := calls }
          else
            let resolver := turn.2.SetResolver env.setResolver
            if NS_FAILED resolver.1 then
              some { rv := resolver.1, pcm := { pcm2 with mIceCtx := some resolver.2 },
                     calls := calls }
            else
              some { rv := NS_OK,
                     pcm := { pcm2 with mIceCtx := some (ConnectSignals resolver.2 none).1 },
                     calls := calls }

/-! ## Starting checks and trickle candidates -/

/-- Modelled from the spec: `NrIceMediaStream::ParseTrickleCandidate`
(media/mtransport/nricemediastream.cpp is not among the sources). `parse` is
the verdict of the ICE engine on the candidate line; a line it rejects leaves
the stream as it was. -/
def NrIceMediaStream.ParseTrickleCandidate (stream : NrIceMediaStream)
    (parse : String → nsresult) (candidate : String) : nsresult × NrIceMediaStream :=
  let rv := parse candidate
  if NS_FAILED rv then (rv, stream)
  else (rv, { stream with trickleCandidates := stream.trickleCandidates ++ [candidate] })

/-- Embeds `PeerConnectionMedia::AddIceCandidate_s`; `parse` is the verdict of the
ICE engine on the candidate line. After `ParseTrickleCandidate` the function
only logs a failure and returns on either path. -/
def AddIceCandidate_s (parse : String → nsresult) (mIceCtx : NrIceCtx)
    (aCandidate aTransportId : String) : NrIceCtx :=
  match mIceCtx.GetStream aTransportId with
  | none => mIceCtx
  | some stream =>
    let r := stream.ParseTrickleCandidate parse aCandidate
    mIceCtx.store r.2

/-- Modelled from the spec: `NrIceCtx::ParseGlobalAttributes`
(media/mtransport/nricectx.cpp is not among the sources). `parse` is the
verdict of the ICE engine on the attributes; attributes it rejects leave the
context as it was. -/
def NrIceCtx.ParseGlobalAttributes (ctx : NrIceCtx) (parse : List String → nsresult)
    (attrs : List String) : nsresult × NrIceCtx :=
  let rv := parse attrs
  if NS_FAILED rv then (rv, ctx)
  else (rv, { ctx with globalAttributes := some attrs })

/-- Modelled from the spec: `NrIceCtx::SetControlling`. -/
def NrIceCtx.SetControlling (ctx : NrIceCtx) (controlling : NrIceCtx.Controlling) : NrIceCtx :=
  { ctx with controlling := some controlling }

/-- Modelled from the spec: `NrIceCtx::StartChecks`; the argument is recorded. -/
def NrIceCtx.StartChecks (ctx : NrIceCtx) (offerer : Bool) : NrIceCtx :=
  { ctx with checksStarted := some offerer }

/-- The attribute list `StartIceChecks_s` builds for `ParseGlobalAttributes`. -/
def globalAttributes (aIsIceLite : Bool) (aIceOptionsList : List String) : List String :=
  let attributes := if aIsIceLite then ["ice-lite"] else []
  if !aIceOptionsList.isEmpty then
    attributes ++ [aIceOptionsList.foldl (fun back option => back ++ (option ++ " ")) "ice-options:"]
  else attributes

/-- Embeds `PeerConnectionMedia::StartIceChecks_s`; `parse` is the verdict of the ICE
engine on the attributes handed to `ParseGlobalAttributes`. -/
def StartIceChecks_s (parse : List String → nsresult) (mIceCtx : NrIceCtx)
    (aIsControlling aIsOfferer aIsIceLite : Bool) (aIceOptionsList : List String) :
    NrIceCtx :=
  let attributes := globalAttributes aIsIceLite aIceOptionsList
  let r := mIceCtx.ParseGlobalAttributes parse attributes
  let ctx1 := r.2.SetControlling
    (if aIsControlling then NrIceCtx.Controlling.ICE_CONTROLLING
     else NrIceCtx.Controlling.ICE_CONTROLLED)
  ctx1.StartChecks aIsOfferer

/-! ## Flow assembly on the network thread -/

/-- The four layers of a transport flow. -/
inductive FlowLayer where
  | ice
  | dtls
  | srtpDumper
  | srtp
  deriving DecidableEq, Repr

/-- A `TransportFlow` with the layers made for it, as `FinalizeTransportFlow_s`
works on them: the stream and component given to the ICE layer, the layers
initialised, each `Chain` call as (layer, the layer it was chained onto), and
the layers pushed onto the flow; all lists oldest first. -/
structure FlowAssembly where
  iceParameters : Option (Option NrIceMediaStream × Nat) := none
  inited : List FlowLayer := []
  chained : List (FlowLayer × FlowLayer) := []
  layers : List FlowLayer := []
  deriving DecidableEq, Repr

namespace FlowAssembly

/-- Modelled from the spec: `TransportLayerIce::SetParameters`. -/
def SetParameters (flow : FlowAssembly) (stream : Option NrIceMediaStream)
    (component : Nat) : FlowAssembly :=
  { flow with iceParameters := some (stream, component) }

/-- Modelled from the spec: `TransportLayer::Init`, its result ignored. -/
def Init (flow : FlowAssembly) (layer : FlowLayer) : FlowAssembly :=
  { flow with inited := flow.inited ++ [layer] }

/-- Modelled from the spec: `TransportLayer::Chain`: `layer` gets `downward`
as the layer below it. -/
def Chain (flow : FlowAssembly) (layer downward : FlowLayer) : FlowAssembly :=
  { flow with chained := flow.chained ++ [(layer, downward)] }

/-- Modelled from the spec: `TransportFlow::PushLayer`. -/
def PushLayer (flow : FlowAssembly) (layer : FlowLayer) : FlowAssembly :=
  { flow with layers := flow.layers ++ [layer] }

/-- The layer a layer was last chained onto, if it was chained. -/
def downward (flow : FlowAssembly) (layer : FlowLayer) : Option FlowLayer :=
  (flow.chained.reverse.find? (fun link => link.1 == layer)).map (fun link => link.2)

/-- The layers reached from `layer` by following `downward`, `layer` first;
`fuel` bounds the number of steps. -/
def path (flow : FlowAssembly) : Nat → FlowLayer → List FlowLayer
  | 0, layer => [layer]
  | fuel + 1, layer =>
    match flow.downward layer with
    | some below => layer :: path flow fuel below
    | none => [layer]

end FlowAssembly

/-- Embeds `FinalizeTransportFlow_s`. The flow and its four layers are `aFlow`;
the packet dumper is the layer `srtpDumper` constructed in the function. -/
def FinalizeTransportFlow_s (aIceCtx : NrIceCtx) (aFlow : FlowAssembly) (aId : String)
    (aIsRtcp : Bool) : FlowAssembly :=
  let f1 := aFlow.SetParameters (aIceCtx.GetStream aId) (if aIsRtcp then 2 else 1)
  let f2 := f1.Init FlowLayer.ice
  let f3 := f2.Init FlowLayer.dtls
  let f4 := f3.Init FlowLayer.srtpDumper
  let f5 := f4.Init FlowLayer.srtp
  let f6 := f5.Chain FlowLayer.dtls FlowLayer.ice
  let f7 := f6.Chain FlowLayer.srtpDumper FlowLayer.ice
  let f8 := f7.Chain FlowLayer.srtp FlowLayer.srtpDumper
  let f9 := f8.PushLayer FlowLayer.ice
  let f10 := f9.PushLayer FlowLayer.dtls
  let f11 := f10.PushLayer FlowLayer.srtpDumper
  f11.PushLayer FlowLayer.srtp

/-! ## DTLS listener -/

/-- Modelled from the spec: `TransportLayer::State` (media/mtransport/transportlayer.h
is not among the sources). `DtlsConnected_s` does not read the state it is
given. -/
inductive TransportLayer.State where
  | TS_NONE
  | TS_INIT
  | TS_CONNECTING
  | TS_OPEN
  | TS_CLOSED
  | TS_ERROR
  deriving DecidableEq, Repr

/-- The DTLS layer of one flow as the network thread sees it: the flow it
belongs to, whether `PeerConnectionMedia` is connected to its
`SignalStateChange`, and what `GetNegotiatedAlpn` returns. -/
structure DtlsLayer where
  flow : Nat
  signalStateChangeConnected : Bool := false
  negotiatedAlpn : String := ""
  deriving DecidableEq, Repr

/-- Embeds `PeerConnectionMedia::ConnectDtlsListener_s`; `dtls` is what
`aFlow->GetLayer(TransportLayerDtls::ID())` returns. -/
def ConnectDtlsListener_s (dtls : Option DtlsLayer) : Option DtlsLayer :=
  match dtls with
  | some layer => some { layer with signalStateChangeConnected := true }
  | none => none

/-- Embeds `PeerConnectionMedia::DtlsConnected_s`: the layer as it is left and the
runnables posted to the main thread. -/
def DtlsConnected_s (mParentHandle : String) (layer : DtlsLayer)
    (_state : TransportLayer.State) : DtlsLayer × List MainRunnable :=
  let dtlsLayer := { layer with signalStateChangeConnected := false }
  let privacyRequested := dtlsLayer.negotiatedAlpn == "c-webrtc"
  (dtlsLayer, [MainRunnable.DtlsConnected_m mParentHandle privacyRequested])

/-- The layer emits `SignalStateChange(layer, state)`: the slot
`DtlsConnected_s` runs while `PeerConnectionMedia` is connected to the signal. -/
def signalStateChange (mParentHandle : String) (layer : DtlsLayer)
    (state : TransportLayer.State) : DtlsLayer × List MainRunnable :=
  if layer.signalStateChangeConnected then DtlsConnected_s mParentHandle layer state
  else (layer, [])

/-- A sequence of state changes of one layer, in order: the layer as it is left
and the runnables posted to the main thread, oldest first. -/
def signalStateChanges (mParentHandle : String) :
    DtlsLayer → List TransportLayer.State → DtlsLayer × List MainRunnable
  | layer, [] => (layer, [])
  | layer, state :: rest =>
    let r := signalStateChange mParentHandle layer state
    let r2 := signalStateChanges mParentHandle r.1 rest
    (r2.1, r.2 ++ r2.2)

/-! ## Shutdown -/

/-- Modelled from the spec: `sigslot::has_slots::disconnect_all` as far as the
signals of an ICE context and of its streams go: `PeerConnectionMedia` is
connected to none of them afterwards. -/
def NrIceCtx.disconnect_all (ctx : NrIceCtx) : NrIceCtx :=
  { ctx with
    gatheringSignalConnected := false, connectionSignalConnected := false,
    streams := ctx.streams.map (fun stream =>
      { stream with signalReadyConnected := false, signalCandidateConnected := false }) }

/-- Modelled from the spec: `NrIceCtx::Destroy`; the statistics it returns are
only logged. -/
def NrIceCtx.Destroy (ctx : NrIceCtx) : NrIceCtx :=
  { ctx with destroyed := true }

/-- What `ShutdownMediaTransport_s` leaves: the object, the DTLS layers of the
flows, the context that `mIceCtx` referred to, and the runnables posted to the
main thread. -/
structure ShutdownResult where
  pcm : PeerConnectionMedia
  layers : List DtlsLayer
  released : Option NrIceCtx
  mainThread : List MainRunnable
  deriving DecidableEq, Repr

/-- Embeds `PeerConnectionMedia::ShutdownMediaTransport_s`. `layers` are the DTLS
layers of the flows made so far, which `disconnect_all` reaches like the
signals of the context. -/
def ShutdownMediaTransport_s (pcm : PeerConnectionMedia) (layers : List DtlsLayer) :
    ShutdownResult :=
  let layers1 := layers.map (fun layer => { layer with signalStateChangeConnected := false })
  let ctx1 := pcm.mIceCtx.map NrIceCtx.disconnect_all
  let pcm1 := { pcm with mTransportFlows := [] }
  let ctx2 := ctx1.map NrIceCtx.Destroy
  let pcm2 := { pcm1 with mIceCtx := none }
  { pcm := pcm2, layers := layers1, released := ctx2,
    mainThread := [MainRunnable.SelfDestruct_m] }

/-! ## Gathering as an event system -/

/-- What can happen to one ICE context on the network thread as far as
gathering goes: the three operations of `PeerConnectionMedia` that touch its
streams or start gathering, and the engine moving its gathering state on its
own (all candidates gathered). -/
inductive GatheringEvent where
  | ensureTransport (aTransportId aUfrag aPwd : String) (aComponentCount : Nat)
  | removeTransportsExcept (aIds : List String)
  | ensureIceGathering (aDefaultRouteOnly aProxyOnly : Bool)
  | engineSetsState (state : NrIceCtx.GatheringState)

/-- One ICE context with the `PeerConnectionMedia` members the operations read
and the runnables posted to the main thread so far, oldest first. -/
structure GatheringRun where
  isContentProcess : Bool
  pcm : PeerConnectionMedia
  mIceCtx : NrIceCtx
  mainThread : List MainRunnable

/-- One event applied. -/
def GatheringRun.step (s : GatheringRun) : GatheringEvent → GatheringRun
  | .ensureTransport aTransportId aUfrag aPwd aComponentCount =>
      { s with mIceCtx :=
          EnsureTransport_s s.pcm.mParentName s.mIceCtx aTransportId aUfrag aPwd aComponentCount }
  | .removeTransportsExcept aIds =>
      { s with mIceCtx := RemoveTransportsExcept_s s.mIceCtx aIds }
  | .ensureIceGathering aDefaultRouteOnly aProxyOnly =>
      let r := EnsureIceGathering_s s.isContentProcess s.pcm s.mIceCtx aDefaultRouteOnly aProxyOnly
      { s with mIceCtx := r.1, mainThread := s.mainThread ++ r.2 }
  | .engineSetsState state =>
      let r := s.mIceCtx.SetGatheringState state
      { s with mIceCtx := r.1, mainThread := s.mainThread ++ deliverGatheringStates r.1 r.2 }

/-- A sequence of events applied in order. -/
def GatheringRun.run (s : GatheringRun) (events : List GatheringEvent) : GatheringRun :=
  events.foldl GatheringRun.step s

/-! ## The operation gate as an event system -/

/-- What can happen to the gate: an operation is submitted, or one of the two
resolvers calls back. -/
inductive GateEvent where
  | perform (runnable : STSRunnable)
  | proxyAvailable (proxyinfo : Option nsIProxyInfo) (result : nsresult)
  | stunAddrsAvailable (addrs : List NrIceStunAddr)

/-- A `PeerConnectionMedia` together with the `StunAddrsHandler` created for it
by `InitLocalAddrs`. -/
structure GateState where
  pcm_ : Bool
  pcm : PeerConnectionMedia

/-- One event applied to the gate. -/
def GateState.step (s : GateState) : GateEvent → GateState
  | .perform runnable => { s with pcm := s.pcm.PerformOrEnqueueIceCtxOperation runnable }
  | .proxyAvailable proxyinfo result =>
      { s with pcm := s.pcm.OnProxyAvailable proxyinfo result }
  | .stunAddrsAvailable addrs =>
      let r := PeerConnectionMedia.OnStunAddrsAvailable s.pcm_ s.pcm addrs
      { pcm_ := r.1, pcm := r.2 }

/-- A sequence of events applied in order. -/
def GateState.run (s : GateState) (events : List GateEvent) : GateState :=
  events.foldl GateState.step s

/-- The operations submitted by a sequence of events, in submission order. -/
def submitted : List GateEvent → List STSRunnable
  | [] => []
  | .perform runnable :: rest => runnable :: submitted rest
  | _ :: rest => submitted rest

open PeerConnectionMedia

/-- What the gate maintains along a run that started with the network-thread
log `sts0`: an open gate has an empty queue, a closed gate has dispatched
nothing, and log followed by queue is `sts0` followed by `pending`. -/
def GateInv (sts0 pending : List STSRunnable) (pcm : PeerConnectionMedia) : Prop :=
  (pcm.IsIceCtxReady = true → pcm.mQueuedIceCtxOperations = []) ∧
  (pcm.IsIceCtxReady = false → pcm.stsThread = sts0) ∧
  pcm.stsThread ++ pcm.mQueuedIceCtxOperations = sts0 ++ pending

/-- The component requirement of a flow is not met: an RTCP flow needs two
components, an RTP flow one. -/
def componentUnmet (aIsRtcp : Bool) (aTransport : JsepTransport) : Prop :=
  (aIsRtcp = true ∧ aTransport.mComponents < 2) ∨
  (aIsRtcp = false ∧ aTransport.mComponents = 0)

/-- The part of the URL that `addNrIceServer` hands to `ParseAuthority`: the
path up to the first question mark. -/
def authorityOf (url : nsIURI) : List Char :=
  let path := url.GetPathQueryRef.2.data
  let questionmark := FindChar path '?'
  if 0 ≤ questionmark then path.take questionmark.toNat else path

/-- The authority contains a user-info part: some text, possibly empty,
followed by `@`. -/
def authorityHasUserInfo (auth : List Char) : Prop :=
  ∃ userinfo rest : List Char, auth = userinfo ++ '@' :: rest

/-- The authority contains a user-info part that is not empty. -/
def authorityHasUserName (auth : List Char) : Prop :=
  ∃ userinfo rest : List Char, userinfo ≠ [] ∧ auth = userinfo ++ '@' :: rest

/-- The authority has no host: after the user-info part, if any, there is
nothing, or only a colon and a port. -/
def authorityHasNoHost (auth : List Char) : Prop :=
  ∃ userinfoAt portPart : List Char,
    auth = userinfoAt ++ portPart ∧
    (userinfoAt = [] ∨ ∃ userinfo, userinfoAt = userinfo ++ ['@']) ∧
    '@' ∉ portPart ∧
    (portPart = [] ∨ ∃ portText, portPart = ':' :: portText ∧ ':' ∉ portText)

/-- The gathering states among the runnables posted to the main thread, in
order. -/
def gatheringStatesOf : List MainRunnable → List NrIceCtx.GatheringState
  | [] => []
  | .IceGatheringStateChange_m _ state :: rest => state :: gatheringStatesOf rest
  | _ :: rest => gatheringStatesOf rest

/-- The connection states among the runnables posted to the main thread, in
order. -/
def connectionStatesOf : List MainRunnable → List NrIceCtx.ConnectionState
  | [] => []
  | .IceConnectionStateChange_m _ state :: rest => state :: connectionStatesOf rest
  | _ :: rest => connectionStatesOf rest

/-- The end-of-candidates runnable for a stream, with the default candidates
that `GetDefaultCandidates` computes for it. -/
def endOfCandidatesFor (stream : NrIceMediaStream) : MainRunnable :=
  MainRunnable.EndOfLocalCandidates_m
    (GetDefaultCandidates stream {} {}).1.cand_addr.host
    (GetDefaultCandidates stream {} {}).1.cand_addr.port
    (GetDefaultCandidates stream {} {}).2.cand_addr.host
    (GetDefaultCandidates stream {} {}).2.cand_addr.port stream.id

/-- An ICE context holding streams for the transport-ids A, B and C. -/
def ctxABC : NrIceCtx :=
  { streams := [ { object := 0, id := "A", name := "pc transport-id=A", components := 2 },
                 { object := 1, id := "B", name := "pc transport-id=B", components := 1 },
                 { object := 2, id := "C", name := "pc transport-id=C", components := 2 } ],
    nextObject := 3 }


/-- A gate with a proxy request pending, a live address handler and nothing
queued or dispatched. -/
def gateStart : GateState :=
  { pcm_ := true, pcm := { mProxyRequest := true } }

/-- Three submissions interleaved with the two resolver completions. -/
def gateEvents : List GateEvent :=
  [ .perform (.EnsureIceGathering_s false false),
    .proxyAvailable none NS_OK,
    .perform (.StartIceChecks_s true true false []),
    .stunAddrsAvailable [{ addr := "192.0.2.1" }],
    .perform (.UpdateNetworkState_s true) ]

/-- Every call into the DTLS layer and every dispatch succeeds. -/
def envOk : FlowEnv :=
  { SetVerificationDigest := fun _ _ => NS_OK,
    SetSrtpCiphers := fun _ => NS_OK,
    SetAlpn := fun _ _ => NS_OK,
    Dispatch := fun _ => NS_OK }

/-- A `PeerConnectionMedia` whose parent has a DTLS identity and no flows yet. -/
def pcmWithIdentity : PeerConnectionMedia :=
  { mParentHandle := "pc", mParentName := "pc", identity := some 7 }

/-- A transceiver whose transport has two components (RTP and RTCP). -/
def transceiverTwo : JsepTransceiver :=
  { mTransport :=
      { mTransportId := "T2", mComponents := 2, mLocalUfrag := "lu", mLocalPwd := "lp",
        mIce := { ufrag := "ru", pwd := "rp", candidates := [] },
        mDtls := { role := JsepDtlsRole.kJsepDtlsServer,
                   fingerprints := [{ hashFunc := "sha-256", fingerprint := [1, 2] }] } },
    level := 0, hasOwnTransport := true }

/-- A transceiver whose transport has one component (RTP, RTCP muxed). -/
def transceiverOne : JsepTransceiver :=
  { mTransport :=
      { mTransportId := "T1", mComponents := 1, mLocalUfrag := "lu", mLocalPwd := "lp",
        mIce := { ufrag := "ru", pwd := "rp", candidates := [] },
        mDtls := { role := JsepDtlsRole.kJsepDtlsClient, fingerprints := [] } },
    level := 1, hasOwnTransport := true }

/-- Modelled from the spec: `NS_NewURI` for a scheme without a protocol handler
(a simple URI): the scheme is the text before the first colon, in lower case,
and everything after the colon is path, query and ref. A string without a
colon, or with nothing before it, is not a URI. -/
def simpleNewURI (aIceUrl : String) : nsresult × nsIURI :=
  let colon := FindChar aIceUrl.data ':'
  if colon ≤ 0 then
    (NS_ERROR_MALFORMED_URI,
      { scheme := "", GetSpec := (NS_ERROR_FAILURE, ""), GetPathQueryRef := (NS_ERROR_FAILURE, "") })
  else
    (NS_OK,
      { scheme := String.mk (ToLowerCase (aIceUrl.data.take colon.toNat)),
        GetSpec := (NS_OK, aIceUrl),
        GetPathQueryRef := (NS_OK, String.mk (aIceUrl.data.drop (colon.toNat + 1))) })

/-- URLs are parsed as simple URIs and every server can be created. -/
def envSimple : IceServerEnv :=
  { NS_NewURI := simpleNewURI, createOk := fun _ _ _ => true }

/-- A context connected to `PeerConnectionMedia`, without streams. -/
def ctxConnected : NrIceCtx :=
  { ctxId := 1, name := "PC:pc", gatheringSignalConnected := true,
    connectionSignalConnected := true }

/-- A stream whose engine has a default candidate for RTP only. -/
def streamRtpDefault : NrIceMediaStream :=
  { object := 0, id := "A", name := "pc transport-id=A", components := 1,
    defaultCandidates := [(1, { cand_addr := { host := "192.0.2.7", port := 5000 } })] }

/-- A stream whose engine has no default candidate yet. -/
def streamNoDefault : NrIceMediaStream :=
  { object := 1, id := "B", name := "pc transport-id=B", components := 2 }

/-- A `PeerConnectionMedia` in a content process that received no STUN
addresses and found no proxy. -/
def pcmNoAddrs : PeerConnectionMedia :=
  { mParentHandle := "pc", mParentName := "pc", mProxyResolveCompleted := true,
    mLocalAddrsCompleted := true, mStunAddrs := [] }

/-- A `PeerConnectionMedia` with two local addresses and no proxy. -/
def pcmTwoAddrs : PeerConnectionMedia :=
  { mParentHandle := "pc", mParentName := "pc", mProxyResolveCompleted := true,
    mLocalAddrsCompleted := true,
    mStunAddrs := [{ addr := "192.0.2.1" }, { addr := "198.51.100.1" }] }

/-- A connected context holding one stream with two components. -/
def ctxOneStream : NrIceCtx :=
  { ctxId := 1, name := "PC:pc", gatheringSignalConnected := true,
    connectionSignalConnected := true,
    streams := [{ object := 0, id := "A", name := "pc transport-id=A", components := 2 }],
    nextObject := 1 }

/-- A fresh connected context without streams, in the parent process, with two
local addresses and no proxy. -/
def gatheringStart : GatheringRun :=
  { isContentProcess := false, pcm := pcmTwoAddrs, mIceCtx := ctxConnected, mainThread := [] }

/-- Gathering is requested before any stream exists (as after a rollback), then
a transport is negotiated and gathering is requested again. -/
def gatheringAfterRollback : List GatheringEvent :=
  [ .ensureIceGathering false false,
    .ensureTransport "A" "uf" "pw" 1,
    .ensureIceGathering false false ]

/-- The same context after its engine has finished gathering. -/
def gatheringDone : GatheringRun :=
  { gatheringStart with
    mIceCtx := { ctxConnected with
      gatheringState := NrIceCtx.GatheringState.ICE_CTX_GATHER_COMPLETE } }

/-- Every call that leaves the file succeeds; URLs are parsed as simple
URIs. -/
def envInit : InitEnv :=
  { ice := envSimple }

/-- A configuration with one ICE server carrying a stun: URL followed by an
http: URL. -/
def configRejected : RTCConfiguration :=
  { mIceServers := some
      [{ mUrls := some (.stringSequence ["stun:stun.example.com", "http://example.com"]) }] }

/-- A configuration with one ICE server carrying two stun: URLs. -/
def configAccepted : RTCConfiguration :=
  { mIceServers := some
      [{ mUrls := some (.stringSequence ["stun:stun.example.com", "stun:192.0.2.1:3479"]) }] }

/-- A `PeerConnectionMedia` with a context, a proxy request pending, the local
addresses resolved and one operation queued. -/
def pcmProxyPending : PeerConnectionMedia :=
  { mParentHandle := "pc", mParentName := "pc", mIceCtx := some ctxConnected,
    mProxyRequest := true, mLocalAddrsCompleted := true,
    mQueuedIceCtxOperations := [STSRunnable.EnsureIceGathering_s false false] }

/-- Proxy info for host `proxy.example.com`, port 3128. -/
def proxyInfoExample : nsIProxyInfo :=
  { GetHost := .ok "proxy.example.com", GetPort := .ok 3128 }

/-- A connected DTLS layer of flow 1 that negotiated the confidential ALPN. -/
def dtlsLayerConnected : DtlsLayer :=
  { flow := 1, signalStateChangeConnected := true, negotiatedAlpn := "c-webrtc" }

/-- A `PeerConnectionMedia` with a context and, for transport `T2`, an RTP and an
RTCP flow registered. -/
def pcmTwoFlows : PeerConnectionMedia :=
  { (pcmWithIdentity.UpdateTransportFlows envOk transceiverTwo).2 with
    mIceCtx := some ctxOneStream }

/-- A new context that is already checking and has finished gathering. -/
def ctxRestarted : NrIceCtx :=
  { ctxId := 2, name := "PC:pc",
    gatheringState := NrIceCtx.GatheringState.ICE_CTX_GATHER_COMPLETE,
    connectionState := NrIceCtx.ConnectionState.ICE_CTX_CHECKING }

theorem foldl_DispatchSTS (ops : List STSRunnable) (pcm : PeerConnectionMedia) :
    ops.foldl DispatchSTS pcm = { pcm with stsThread := pcm.stsThread ++ ops } := by
  induction ops generalizing pcm with
  | nil => simp
  | cons op rest ih => simp [List.foldl, ih, DispatchSTS]

theorem Flush_eq (pcm : PeerConnectionMedia) :
    pcm.FlushIceCtxOperationQueueIfReady =
      if pcm.IsIceCtxReady then
        { pcm with stsThread := pcm.stsThread ++ pcm.mQueuedIceCtxOperations,
                   mQueuedIceCtxOperations := [] }
      else pcm := by
  unfold FlushIceCtxOperationQueueIfReady
  split <;> simp [foldl_DispatchSTS]

theorem SetProxyOnPcm_frame (pcm : PeerConnectionMedia) (info : nsIProxyInfo) :
    ∃ server, pcm.SetProxyOnPcm info = { pcm with mProxyServer := server } := by
  unfold SetProxyOnPcm
  split
  · exact ⟨pcm.mProxyServer, rfl⟩
  · split
    · exact ⟨pcm.mProxyServer, rfl⟩
    · split
      · exact ⟨_, rfl⟩
      · exact ⟨pcm.mProxyServer, rfl⟩

theorem GateInv_perform {sts0 pending : List STSRunnable} {pcm : PeerConnectionMedia}
    (h : GateInv sts0 pending pcm) (op : STSRunnable) :
    GateInv sts0 (pending ++ [op]) (pcm.PerformOrEnqueueIceCtxOperation op) := by
  obtain ⟨h1, h2, h3⟩ := h
  unfold PerformOrEnqueueIceCtxOperation
  cases hr : pcm.IsIceCtxReady with
  | true =>
    have hq := h1 hr
    rw [hq] at h3
    simp only [List.append_nil] at h3
    refine ⟨?_, ?_, ?_⟩
    · intro _; simpa [DispatchSTS] using hq
    · intro hc
      simp [DispatchSTS, IsIceCtxReady] at hc hr
      simp [hr] at hc
    · simp [DispatchSTS, hq, h3]
  | false =>
    refine ⟨?_, ?_, ?_⟩
    · intro hc
      simp [IsIceCtxReady] at hc hr
      simp [hc] at hr
    · intro _; simpa using h2 hr
    · simp only [Bool.false_eq_true, ↓reduceIte]
      rw [← List.append_assoc, h3, List.append_assoc]

theorem GateInv_flush {sts0 pending : List STSRunnable} {pcm : PeerConnectionMedia}
    (h3 : pcm.stsThread ++ pcm.mQueuedIceCtxOperations = sts0 ++ pending)
    (h2 : pcm.IsIceCtxReady = false → pcm.stsThread = sts0) :
    GateInv sts0 pending pcm.FlushIceCtxOperationQueueIfReady := by
  rw [Flush_eq]
  cases hr : pcm.IsIceCtxReady with
  | true =>
    refine ⟨?_, ?_, ?_⟩
    · intro _; rfl
    · intro hc
      simp [IsIceCtxReady] at hc hr
      simp [hr] at hc
    · simpa using h3
  | false =>
    refine ⟨?_, ?_, ?_⟩
    · intro hc; simp [hr] at hc
    · intro _; simpa using h2 hr
    · simpa using h3

theorem GateInv_proxy {sts0 pending : List STSRunnable} {pcm : PeerConnectionMedia}
    (h : GateInv sts0 pending pcm) (proxyinfo : Option nsIProxyInfo) (result : nsresult) :
    GateInv sts0 pending (pcm.OnProxyAvailable proxyinfo result) := by
  obtain ⟨h1, h2, h3⟩ := h
  unfold OnProxyAvailable
  cases hreq : pcm.mProxyRequest with
  | false => exact ⟨h1, h2, h3⟩
  | true =>
    simp only [Bool.not_true, Bool.false_eq_true, ↓reduceIte]
    have key : ∀ server : Option NrIceProxyServer,
        GateInv sts0 pending
          (FlushIceCtxOperationQueueIfReady
            { ({ pcm with mProxyServer := server } : PeerConnectionMedia) with
              mProxyResolveCompleted := true, mProxyRequest := false }) := by
      intro server
      apply GateInv_flush
      · simpa using h3
      · intro hc
        cases hp : pcm.mProxyResolveCompleted with
        | true =>
          have hr : pcm.IsIceCtxReady = false := by
            simp [IsIceCtxReady] at hc ⊢
            simp [hp, hc]
          simpa using h2 hr
        | false =>
          have hr : pcm.IsIceCtxReady = false := by simp [IsIceCtxReady, hp]
          simpa using h2 hr
    cases proxyinfo with
    | none => simpa using key pcm.mProxyServer
    | some info =>
      cases hs : NS_SUCCEEDED result with
      | false => simpa using key pcm.mProxyServer
      | true =>
        obtain ⟨server, hserver⟩ := SetProxyOnPcm_frame pcm info
        simp only [↓reduceIte, hserver]
        exact key server

theorem GateInv_signals {sts0 pending : List STSRunnable} {pcm : PeerConnectionMedia}
    (h : GateInv sts0 pending pcm) (signals : List PCMSignal) :
    GateInv sts0 pending { pcm with mainSignals := signals } := h

theorem GateInv_stun {sts0 pending : List STSRunnable} {pcm : PeerConnectionMedia}
    (h : GateInv sts0 pending pcm) (pcm_ : Bool) (addrs : List NrIceStunAddr) :
    GateInv sts0 pending (OnStunAddrsAvailable pcm_ pcm addrs).2 := by
  obtain ⟨h1, h2, h3⟩ := h
  unfold OnStunAddrsAvailable
  cases pcm_ with
  | false => exact ⟨h1, h2, h3⟩
  | true =>
    simp only [↓reduceIte]
    have key : GateInv sts0 pending
        (FlushIceCtxOperationQueueIfReady
          { pcm with mStunAddrs := addrs, mLocalAddrsCompleted := true,
                     mStunAddrsRequest := false }) := by
      apply GateInv_flush
      · simpa using h3
      · intro hc
        have hr : pcm.IsIceCtxReady = false := by
          simp [IsIceCtxReady] at hc ⊢
          simp [hc]
        simpa using h2 hr
    split
    · exact GateInv_signals key _
    · exact key

theorem GateInv_step {sts0 pending : List STSRunnable} {s : GateState}
    (h : GateInv sts0 pending s.pcm) (e : GateEvent) :
    GateInv sts0 (pending ++ submitted [e]) (s.step e).pcm := by
  cases e with
  | perform op => exact GateInv_perform h op
  | proxyAvailable proxyinfo result =>
    simpa [submitted, GateState.step] using GateInv_proxy h proxyinfo result
  | stunAddrsAvailable addrs =>
    simpa [submitted, GateState.step] using GateInv_stun h s.pcm_ addrs

theorem submitted_cons (e : GateEvent) (es : List GateEvent) :
    submitted (e :: es) = submitted [e] ++ submitted es := by
  cases e <;> simp [submitted]

theorem GateInv_run (sts0 : List STSRunnable) (events : List GateEvent) :
    ∀ (pending : List STSRunnable) (s : GateState), GateInv sts0 pending s.pcm →
      GateInv sts0 (pending ++ submitted events) (s.run events).pcm := by
  induction events with
  | nil => intro pending s h; simpa [submitted, GateState.run] using h
  | cons e es ih =>
    intro pending s h
    have h1 := ih _ _ (GateInv_step h e)
    rw [submitted_cons, ← List.append_assoc]
    simpa [GateState.run] using h1

/-! ## Operation gate: claims -/

/-- C1. Start with both resolver flags false and apply any sequence of
submissions and resolver completions. While the gate is not open
(`IsIceCtxReady` false) the network-thread log is what it was at the start, so
no queued operation has been dispatched; and the log followed by the queue is
the initial log, the initially queued operations and the submitted operations
in submission order, so operations reach the network thread in the order in
which they were submitted. -/
theorem gate_dispatches_only_when_ready_in_order (s0 : GateState)
    (events : List GateEvent)
    (hFlags : s0.pcm.mProxyResolveCompleted = false ∧ s0.pcm.mLocalAddrsCompleted = false) :
    (¬ ((s0.run events).pcm.mProxyResolveCompleted = true ∧
          (s0.run events).pcm.mLocalAddrsCompleted = true) →
        (s0.run events).pcm.stsThread = s0.pcm.stsThread) ∧
    ((s0.run events).pcm.stsThread ++ (s0.run events).pcm.mQueuedIceCtxOperations =
      s0.pcm.stsThread ++ s0.pcm.mQueuedIceCtxOperations ++ submitted events) := by
  have h0 : GateInv s0.pcm.stsThread s0.pcm.mQueuedIceCtxOperations s0.pcm := by
    refine ⟨?_, ?_, rfl⟩
    · intro hc; simp [IsIceCtxReady, hFlags.1] at hc
    · intro _; rfl
  obtain ⟨_, h2, h3⟩ := GateInv_run s0.pcm.stsThread events _ s0 h0
  refine ⟨?_, by simpa [List.append_assoc] using h3⟩
  intro hn
  apply h2
  cases hr : (s0.run events).pcm.IsIceCtxReady with
  | false => rfl
  | true =>
    exfalso; apply hn
    simpa [IsIceCtxReady] using hr

theorem gate_dispatches_only_when_ready_in_order_witness :
    (gateStart.pcm.mProxyResolveCompleted = false ∧
      gateStart.pcm.mLocalAddrsCompleted = false) ∧
    ((¬ ((gateStart.run gateEvents).pcm.mProxyResolveCompleted = true ∧
          (gateStart.run gateEvents).pcm.mLocalAddrsCompleted = true) →
        (gateStart.run gateEvents).pcm.stsThread = gateStart.pcm.stsThread) ∧
    ((gateStart.run gateEvents).pcm.stsThread ++
        (gateStart.run gateEvents).pcm.mQueuedIceCtxOperations =
      gateStart.pcm.stsThread ++ gateStart.pcm.mQueuedIceCtxOperations ++
        submitted gateEvents)) :=
  ⟨by decide, gate_dispatches_only_when_ready_in_order gateStart gateEvents (by decide)⟩

/-- C2. `PerformOrEnqueueIceCtxOperation(op)` with both resolvers resolved
appends `op` to the network-thread log and changes nothing else, the queue
included; otherwise it leaves the log alone and appends `op` at the end of the
queue, the earlier entries staying as they were. -/
theorem perform_or_enqueue_dispatches_or_appends (pcm : PeerConnectionMedia)
    (op : STSRunnable) :
    ((pcm.mProxyResolveCompleted = true ∧ pcm.mLocalAddrsCompleted = true) →
        pcm.PerformOrEnqueueIceCtxOperation op =
          { pcm with stsThread := pcm.stsThread ++ [op] }) ∧
    (¬ (pcm.mProxyResolveCompleted = true ∧ pcm.mLocalAddrsCompleted = true) →
        pcm.PerformOrEnqueueIceCtxOperation op =
          { pcm with mQueuedIceCtxOperations := pcm.mQueuedIceCtxOperations ++ [op] }) := by
  constructor
  · intro h
    simp [PerformOrEnqueueIceCtxOperation, IsIceCtxReady, h.1, h.2, DispatchSTS]
  · intro h
    have hr : pcm.IsIceCtxReady = false := by
      cases hr : pcm.IsIceCtxReady with
      | false => rfl
      | true => exact absurd (by simpa [IsIceCtxReady] using hr) h
    simp [PerformOrEnqueueIceCtxOperation, hr]

theorem Flush_mainSignals (pcm : PeerConnectionMedia) :
    pcm.FlushIceCtxOperationQueueIfReady.mainSignals = pcm.mainSignals := by
  rw [Flush_eq]; split <;> rfl

theorem Flush_mStunAddrs (pcm : PeerConnectionMedia) :
    pcm.FlushIceCtxOperationQueueIfReady.mStunAddrs = pcm.mStunAddrs := by
  rw [Flush_eq]; split <;> rfl

/-- C3. An address list delivered to a handler that still holds its
`PeerConnectionMedia` adds exactly one signal, connection-state Failed, to the
signals emitted when the list is empty, and adds no signal when the list is
non-empty. -/
theorem stun_addrs_empty_signals_failed_once (pcm : PeerConnectionMedia)
    (addrs : List NrIceStunAddr) :
    (addrs = [] →
      (OnStunAddrsAvailable true pcm addrs).2.mainSignals =
        pcm.mainSignals ++
          [PCMSignal.SignalIceConnectionStateChange PCImplIceConnectionState.Failed]) ∧
    (addrs ≠ [] →
      (OnStunAddrsAvailable true pcm addrs).2.mainSignals = pcm.mainSignals) := by
  constructor
  · intro h
    subst h
    simp [OnStunAddrsAvailable, Flush_mainSignals, Flush_mStunAddrs]
  · intro h
    simp [OnStunAddrsAvailable, Flush_mainSignals, Flush_mStunAddrs, h]

/-! ## Lemmas on the stream store -/

theorem RemoveTransportsExcept_s_fold (aIds : List String) (snapshot : List NrIceMediaStream) :
    ∀ ctx : NrIceCtx,
      (snapshot.foldl
        (fun ctx stream =>
          if !(aIds.contains stream.id) then ctx.DestroyStream stream.id else ctx) ctx).streams =
        ctx.streams.filter
          (fun s => !(snapshot.any (fun t => t.id == s.id && !(aIds.contains t.id)))) := by
  induction snapshot with
  | nil => intro ctx; simp
  | cons t rest ih =>
    intro ctx
    simp only [List.foldl_cons, ih]
    by_cases h : t.id ∈ aIds
    · simp [h]
    · have hc : aIds.contains t.id = false := by simpa using h
      simp only [hc, Bool.not_false, ↓reduceIte, NrIceCtx.DestroyStream, List.filter_filter]
      apply List.filter_congr
      intro s _
      by_cases hst : s.id = t.id
      · simp [hst, hc, h]
      · have e1 : (s.id == t.id) = false := by simpa using hst
        have e2 : (t.id == s.id) = false := by simpa using fun e : t.id = s.id => hst e.symm
        simp only [List.any_cons, e1, e2, Bool.false_and, Bool.false_or, Bool.not_false,
          Bool.and_true]

theorem RemoveTransportsExcept_s_streams (ctx : NrIceCtx) (aIds : List String) :
    (RemoveTransportsExcept_s ctx aIds).streams =
      ctx.streams.filter (fun s => aIds.contains s.id) := by
  unfold RemoveTransportsExcept_s NrIceCtx.GetStreams
  rw [RemoveTransportsExcept_s_fold]
  apply List.filter_congr
  intro s hs
  by_cases h : s.id ∈ aIds
  · have : (ctx.streams.any fun t => t.id == s.id && !(aIds.contains t.id)) = false := by
      rw [List.any_eq_false]
      intro t _
      by_cases hts : t.id = s.id
      · simp [hts, h]
      · simp [hts]
    rw [this]; simpa using h
  · have : (ctx.streams.any fun t => t.id == s.id && !(aIds.contains t.id)) = true := by
      rw [List.any_eq_true]
      exact ⟨s, hs, by simp [h]⟩
    rw [this]; simpa using h

/-- C4. After `RemoveTransportsExcept_s(keep)` the set of stream ids in the
context is the previous set of stream ids intersected with `keep`; with
streams A, B, C and `keep` = A, B exactly A and B remain. -/
theorem remove_transports_except_keeps_intersection (ctx : NrIceCtx)
    (keep : List String) :
    (RemoveTransportsExcept_s ctx keep).streamIds.toFinset =
        ctx.streamIds.toFinset ∩ keep.toFinset ∧
    (RemoveTransportsExcept_s ctxABC ["A", "B"]).streamIds = ["A", "B"] := by
  constructor
  · ext id
    simp only [NrIceCtx.streamIds, RemoveTransportsExcept_s_streams, List.mem_toFinset,
      List.mem_map, List.mem_filter, Finset.mem_inter]
    constructor
    · rintro ⟨s, ⟨hs, hk⟩, rfl⟩
      exact ⟨⟨s, hs, rfl⟩, by simpa using hk⟩
    · rintro ⟨⟨s, hs, rfl⟩, hk⟩
      exact ⟨s, ⟨hs, by simpa using hk⟩, rfl⟩
  · decide

theorem store_streamIds (ctx : NrIceCtx) (stream : NrIceMediaStream) :
    (ctx.store stream).streamIds = ctx.streamIds := by
  simp only [NrIceCtx.store, NrIceCtx.streamIds, List.map_map]
  apply List.map_congr_left
  intro s _
  by_cases h : s.id = stream.id
  · simp [h]
  · simp [h]

theorem store_nextObject (ctx : NrIceCtx) (stream : NrIceMediaStream) :
    (ctx.store stream).nextObject = ctx.nextObject := rfl

theorem GetStream_store (ctx : NrIceCtx) (stream : NrIceMediaStream) :
    (ctx.store stream).GetStream stream.id =
      (ctx.GetStream stream.id).map (fun _ => stream) := by
  unfold NrIceCtx.GetStream NrIceCtx.store
  simp only
  induction ctx.streams with
  | nil => rfl
  | cons s rest ih =>
    by_cases h : s.id = stream.id
    · simp [h]
    · have e : (s.id == stream.id) = false := by simpa using h
      simp only [List.map_cons, e, Bool.false_eq_true, ↓reduceIte, List.find?_cons, ih]

theorem GetStream_append_new (ctx : NrIceCtx) (stream : NrIceMediaStream)
    (h : ctx.GetStream stream.id = none) (n : Nat) :
    NrIceCtx.GetStream { ctx with streams := ctx.streams ++ [stream], nextObject := n }
        stream.id = some stream := by
  unfold NrIceCtx.GetStream at h ⊢
  simp only [List.find?_append, h, Option.none_or, List.find?_cons, beq_self_eq_true]

theorem GetStream_none_not_mem (ctx : NrIceCtx) (id : String)
    (h : ctx.GetStream id = none) : id ∉ ctx.streamIds := by
  unfold NrIceCtx.GetStream at h
  rw [List.find?_eq_none] at h
  simp only [NrIceCtx.streamIds, List.mem_map, not_exists, not_and]
  intro s hs e
  exact h s hs (by simpa using e)

theorem GetStream_some_mem (ctx : NrIceCtx) (id : String) (stream : NrIceMediaStream)
    (h : ctx.GetStream id = some stream) : stream.id = id ∧ id ∈ ctx.streamIds := by
  unfold NrIceCtx.GetStream at h
  have h1 := List.find?_some h
  have h2 := List.mem_of_find?_eq_some h
  have e : stream.id = id := by simpa using h1
  refine ⟨e, ?_⟩
  simp only [NrIceCtx.streamIds, List.mem_map]
  exact ⟨stream, h2, e⟩

/-- What one run of `EnsureTransport_s` leaves behind, by whether the context
already had a stream for the transport-id. -/
theorem EnsureTransport_s_spec (mParentName : String) (ctx : NrIceCtx)
    (aTransportId aUfrag aPwd : String) (aComponentCount : Nat) :
    ∃ s1, (EnsureTransport_s mParentName ctx aTransportId aUfrag aPwd aComponentCount).GetStream
            aTransportId = some s1 ∧
      s1.ufrag = aUfrag ∧ s1.pwd = aPwd ∧
      ((∃ s0, ctx.GetStream aTransportId = some s0 ∧ s1.object = s0.object ∧
          (EnsureTransport_s mParentName ctx aTransportId aUfrag aPwd aComponentCount).streamIds =
            ctx.streamIds ∧
          (EnsureTransport_s mParentName ctx aTransportId aUfrag aPwd aComponentCount).nextObject =
            ctx.nextObject) ∨
       (ctx.GetStream aTransportId = none ∧ s1.object = ctx.nextObject ∧
          (EnsureTransport_s mParentName ctx aTransportId aUfrag aPwd aComponentCount).streamIds =
            ctx.streamIds ++ [aTransportId])) := by
  cases hget : ctx.GetStream aTransportId with
  | some s0 =>
    obtain ⟨hid, _⟩ := GetStream_some_mem ctx aTransportId s0 hget
    have hid2 : (s0.SetIceCredentials aUfrag aPwd).id = aTransportId := hid
    refine ⟨s0.SetIceCredentials aUfrag aPwd, ?_, rfl, rfl, Or.inl ⟨s0, rfl, rfl, ?_, ?_⟩⟩
    · simp only [EnsureTransport_s, hget]
      have := GetStream_store ctx (s0.SetIceCredentials aUfrag aPwd)
      rw [hid2, hget] at this
      simpa using this
    · simp only [EnsureTransport_s, hget, store_streamIds]
    · simp only [EnsureTransport_s, hget, store_nextObject]
  | none =>
    have hany : ctx.streams.any (fun s => s.id == aTransportId) = false := by
      have := GetStream_none_not_mem ctx aTransportId hget
      rw [List.any_eq_false]
      intro s hs hc
      apply this
      simp only [NrIceCtx.streamIds, List.mem_map]
      exact ⟨s, hs, by simpa using hc⟩
    let stream : NrIceMediaStream :=
      { object := ctx.nextObject, id := aTransportId,
        name := mParentName ++ " transport-id=" ++ aTransportId,
        components := aComponentCount }
    let connected : NrIceMediaStream :=
      { stream with signalReadyConnected := true, signalCandidateConnected := true }
    let ctx1 : NrIceCtx :=
      { ctx with streams := ctx.streams ++ [stream], nextObject := ctx.nextObject + 1 }
    have hE : EnsureTransport_s mParentName ctx aTransportId aUfrag aPwd aComponentCount =
        (ctx1.store connected).store (connected.SetIceCredentials aUfrag aPwd) := by
      simp only [EnsureTransport_s, hget, NrIceCtx.CreateStream, hany, Bool.false_eq_true,
        ↓reduceIte]
    have h1 : ctx1.GetStream aTransportId = some stream :=
      GetStream_append_new ctx stream hget _
    have h2 : (ctx1.store connected).GetStream aTransportId = some connected := by
      have := GetStream_store ctx1 connected
      have e : connected.id = aTransportId := rfl
      rw [e, h1] at this
      simpa using this
    have h3 : ((ctx1.store connected).store (connected.SetIceCredentials aUfrag aPwd)).GetStream
        aTransportId = some (connected.SetIceCredentials aUfrag aPwd) := by
      have := GetStream_store (ctx1.store connected) (connected.SetIceCredentials aUfrag aPwd)
      have e : (connected.SetIceCredentials aUfrag aPwd).id = aTransportId := rfl
      rw [e, h2] at this
      simpa using this
    refine ⟨connected.SetIceCredentials aUfrag aPwd, ?_, rfl, rfl, Or.inr ⟨rfl, rfl, ?_⟩⟩
    · rw [hE]; exact h3
    · rw [hE, store_streamIds, store_streamIds]
      simp [NrIceCtx.streamIds, ctx1, stream]

theorem EnsureTransport_s_nodup (mParentName : String) (ctx : NrIceCtx)
    (aTransportId aUfrag aPwd : String) (aComponentCount : Nat)
    (h : ctx.streamIds.Nodup) :
    (EnsureTransport_s mParentName ctx aTransportId aUfrag aPwd aComponentCount).streamIds.Nodup := by
  obtain ⟨s1, _, _, _, hcase⟩ :=
    EnsureTransport_s_spec mParentName ctx aTransportId aUfrag aPwd aComponentCount
  rcases hcase with ⟨s0, _, _, hids, _⟩ | ⟨hnone, _, hids⟩
  · rw [hids]; exact h
  · rw [hids]
    have hnot := GetStream_none_not_mem ctx aTransportId hnone
    rw [List.nodup_append]
    refine ⟨h, List.nodup_singleton _, ?_⟩
    intro a ha hb
    have : a = aTransportId := by simpa using hb
    exact hnot (this ▸ ha)

/-- C5. In a context with at most one stream per transport-id, run
`EnsureTransport_s` for an id and then again with other credentials. After
the second run the id occurs exactly once among the stream ids, the stream
registered under it is the very object that was registered after the first
run (created by the first run when the id was new), no object was created by
the second run, and the stream holds the second credentials. -/
theorem ensure_transport_twice_keeps_one_stream (mParentName : String) (ctx : NrIceCtx)
    (tid ufrag1 pwd1 ufrag2 pwd2 : String) (c1 c2 : Nat)
    (hInv : ctx.streamIds.Nodup) :
    ∃ s1 s2,
      (EnsureTransport_s mParentName ctx tid ufrag1 pwd1 c1).GetStream tid = some s1 ∧
      (EnsureTransport_s mParentName (EnsureTransport_s mParentName ctx tid ufrag1 pwd1 c1)
          tid ufrag2 pwd2 c2).GetStream tid = some s2 ∧
      (EnsureTransport_s mParentName (EnsureTransport_s mParentName ctx tid ufrag1 pwd1 c1)
          tid ufrag2 pwd2 c2).streamIds.count tid = 1 ∧
      s2.object = s1.object ∧
      (EnsureTransport_s mParentName (EnsureTransport_s mParentName ctx tid ufrag1 pwd1 c1)
          tid ufrag2 pwd2 c2).nextObject =
        (EnsureTransport_s mParentName ctx tid ufrag1 pwd1 c1).nextObject ∧
      s2.ufrag = ufrag2 ∧ s2.pwd = pwd2 ∧
      (ctx.GetStream tid = none → s1.object = ctx.nextObject) := by
  obtain ⟨s1, hget1, _, _, hcase1⟩ := EnsureTransport_s_spec mParentName ctx tid ufrag1 pwd1 c1
  obtain ⟨s2, hget2, hu2, hp2, hcase2⟩ :=
    EnsureTransport_s_spec mParentName (EnsureTransport_s mParentName ctx tid ufrag1 pwd1 c1)
      tid ufrag2 pwd2 c2
  have hnd1 := EnsureTransport_s_nodup mParentName ctx tid ufrag1 pwd1 c1 hInv
  have hnd2 := EnsureTransport_s_nodup mParentName _ tid ufrag2 pwd2 c2 hnd1
  have hmem2 := (GetStream_some_mem _ tid s2 hget2).2
  refine ⟨s1, s2, hget1, hget2, List.count_eq_one_of_mem hnd2 hmem2, ?_, ?_, hu2, hp2, ?_⟩
  · rcases hcase2 with ⟨s0, h0, hobj, _, _⟩ | ⟨hnone, _, _⟩
    · rw [hget1] at h0
      cases h0
      exact hobj
    · rw [hget1] at hnone; cases hnone
  · rcases hcase2 with ⟨s0, _, _, _, hnext⟩ | ⟨hnone, _, _⟩
    · exact hnext
    · rw [hget1] at hnone; cases hnone
  · intro hnone
    rcases hcase1 with ⟨s0, h0, _, _, _⟩ | ⟨_, hobj, _⟩
    · rw [hnone] at h0; cases h0
    · exact hobj

theorem ensure_transport_twice_keeps_one_stream_witness :
    ctxABC.streamIds.Nodup ∧
    ∃ s1 s2,
      (EnsureTransport_s "pc" ctxABC "D" "uf1" "pw1" 2).GetStream "D" = some s1 ∧
      (EnsureTransport_s "pc" (EnsureTransport_s "pc" ctxABC "D" "uf1" "pw1" 2)
          "D" "uf2" "pw2" 2).GetStream "D" = some s2 ∧
      (EnsureTransport_s "pc" (EnsureTransport_s "pc" ctxABC "D" "uf1" "pw1" 2)
          "D" "uf2" "pw2" 2).streamIds.count "D" = 1 ∧
      s2.object = s1.object ∧
      (EnsureTransport_s "pc" (EnsureTransport_s "pc" ctxABC "D" "uf1" "pw1" 2)
          "D" "uf2" "pw2" 2).nextObject =
        (EnsureTransport_s "pc" ctxABC "D" "uf1" "pw1" 2).nextObject ∧
      s2.ufrag = "uf2" ∧ s2.pwd = "pw2" ∧
      (ctxABC.GetStream "D" = none → s1.object = ctxABC.nextObject) :=
  ⟨by decide,
   ensure_transport_twice_keeps_one_stream "pc" ctxABC "D" "uf1" "pw1" "uf2" "pw2" 2 2
     (by decide)⟩

/-! ## Lemmas on string search -/

theorem NS_FAILED_NS_OK : NS_FAILED NS_OK = false := by decide

theorem NS_FAILED_NS_ERROR_FAILURE : NS_FAILED NS_ERROR_FAILURE = true := by decide

theorem setVerificationDigests_error (env : FlowEnv) (fingerprints : List SdpFingerprint) :
    ∀ (set : List SdpFingerprint) (rv : nsresult),
      setVerificationDigests env set fingerprints = .error rv → NS_FAILED rv = true := by
  induction fingerprints with
  | nil => intro set rv h; simp [setVerificationDigests] at h
  | cons fingerprint rest ih =>
    intro set rv h
    unfold setVerificationDigests at h
    by_cases hf : NS_FAILED (env.SetVerificationDigest set fingerprint) = true
    · simp only [hf, ↓reduceIte, Except.error.injEq] at h
      rw [← h]; exact hf
    · simp only [hf, Bool.false_eq_true, ↓reduceIte] at h
      exact ih _ _ h

theorem componentUnmet_iff (aIsRtcp : Bool) (aTransport : JsepTransport) :
    componentUnmet aIsRtcp aTransport ↔
      ((aIsRtcp && decide (aTransport.mComponents < 2)) = true ∨
       (!aIsRtcp && decide (aTransport.mComponents = 0)) = true) := by
  unfold componentUnmet
  cases aIsRtcp <;> simp

theorem UpdateTransportFlow_unmet (env : FlowEnv) (pcm : PeerConnectionMedia) (aIsRtcp : Bool)
    (aTransport : JsepTransport) (h : componentUnmet aIsRtcp aTransport) :
    pcm.UpdateTransportFlow env aIsRtcp aTransport =
      (NS_OK, pcm.RemoveTransportFlow aTransport.mTransportId aIsRtcp) := by
  unfold UpdateTransportFlow
  rcases (componentUnmet_iff aIsRtcp aTransport).mp h with h1 | h2
  · simp only [h1, ↓reduceIte]
  · simp only [h2, ↓reduceIte, ite_self]

theorem UpdateTransportFlow_existing (env : FlowEnv) (pcm : PeerConnectionMedia)
    (aIsRtcp : Bool) (aTransport : JsepTransport) (flow : TransportFlow)
    (h : ¬ componentUnmet aIsRtcp aTransport)
    (hget : pcm.GetTransportFlow aTransport.mTransportId aIsRtcp = some flow) :
    pcm.UpdateTransportFlow env aIsRtcp aTransport = (NS_OK, pcm) := by
  rw [componentUnmet_iff, not_or] at h
  unfold UpdateTransportFlow
  simp only [h.1, h.2, Bool.false_eq_true, ↓reduceIte, hget]

theorem UpdateTransportFlow_new (env : FlowEnv) (pcm : PeerConnectionMedia)
    (aIsRtcp : Bool) (aTransport : JsepTransport)
    (h : ¬ componentUnmet aIsRtcp aTransport)
    (hget : pcm.GetTransportFlow aTransport.mTransportId aIsRtcp = none) :
    (NS_FAILED (pcm.UpdateTransportFlow env aIsRtcp aTransport).1 = true ∧
      (pcm.UpdateTransportFlow env aIsRtcp aTransport).2 =
        { pcm with nextFlowObject := pcm.nextFlowObject + 1 }) ∨
    (∃ dtls : TransportLayerDtls,
        dtls.alpn = (if pcm.privacyRequested then ["c-webrtc"] else ["c-webrtc", "webrtc"]) ∧
        dtls.alpnDefault = (if pcm.privacyRequested then "" else "webrtc") ∧
        pcm.UpdateTransportFlow env aIsRtcp aTransport =
          (NS_OK,
            (DispatchSTS { pcm with nextFlowObject := pcm.nextFlowObject + 1 }
              (STSRunnable.FinalizeTransportFlow_s (pcm.newTransportFlow aIsRtcp aTransport)
                aTransport.mTransportId aIsRtcp dtls)).AddTransportFlow
              aTransport.mTransportId aIsRtcp (pcm.newTransportFlow aIsRtcp aTransport))) := by
  rw [componentUnmet_iff, not_or] at h
  unfold UpdateTransportFlow
  simp only [h.1, h.2, Bool.false_eq_true, ↓reduceIte, hget]
  generalize (if aTransport.mDtls.role = JsepDtlsRole.kJsepDtlsClient then DtlsRole.CLIENT
    else DtlsRole.SERVER) = role
  rcases Option.eq_none_or_eq_some pcm.identity with hid | ⟨pcid, hid⟩
  · simp only [hid]
    exact Or.inl (by simp [NS_FAILED_NS_ERROR_FAILURE])
  simp only [hid]
  cases hdig : setVerificationDigests env [] aTransport.mDtls.fingerprints with
  | error rv =>
    have hrv := setVerificationDigests_error env _ _ _ hdig
    exact Or.inl (by simp [hrv])
  | ok digests =>
    simp only
    split
    · next hc1 => exact Or.inl (by simp [hc1])
    cases hp : pcm.privacyRequested with
    | true =>
      simp only [Bool.not_true, Bool.false_eq_true, ↓reduceIte]
      split
      · next hc2 => exact Or.inl (by simp [hc2])
      split
      · next hc3 => exact Or.inl (by simp [hc3])
      · exact Or.inr ⟨_, rfl, rfl, rfl⟩
    | false =>
      simp only [Bool.not_false, ↓reduceIte, List.singleton_append]
      split
      · next hc2 => exact Or.inl (by simp [hc2])
      split
      · next hc3 => exact Or.inl (by simp [hc3])
      · exact Or.inr ⟨_, rfl, rfl, rfl⟩

theorem flows_setFlows (pcm : PeerConnectionMedia) (aRtcp : Bool)
    (newFlows : List (String × TransportFlow)) (r : Bool) :
    (pcm.setFlows aRtcp newFlows).flows r = if r = aRtcp then newFlows else pcm.flows r := by
  cases aRtcp <;> cases r <;> simp [setFlows, flows]

theorem flows_DispatchSTS (pcm : PeerConnectionMedia) (runnable : STSRunnable) (r : Bool) :
    (pcm.DispatchSTS runnable).flows r = pcm.flows r := by
  cases r <;> rfl

theorem GetTransportFlow_none_iff (pcm : PeerConnectionMedia) (aId : String) (aIsRtcp : Bool) :
    pcm.GetTransportFlow aId aIsRtcp = none ↔ ∀ kv ∈ pcm.flows aIsRtcp, kv.1 ≠ aId := by
  unfold GetTransportFlow
  rw [Option.map_eq_none', List.find?_eq_none]
  simp

theorem GetTransportFlow_isSome_iff (pcm : PeerConnectionMedia) (aId : String) (aIsRtcp : Bool) :
    (pcm.GetTransportFlow aId aIsRtcp).isSome = true ↔ ∃ kv ∈ pcm.flows aIsRtcp, kv.1 = aId := by
  cases h : pcm.GetTransportFlow aId aIsRtcp with
  | none =>
    have := (GetTransportFlow_none_iff pcm aId aIsRtcp).mp h
    simp only [Option.isSome_none, Bool.false_eq_true, false_iff, not_exists, not_and]
    exact this
  | some flow =>
    simp only [Option.isSome_some, true_iff]
    by_contra hc
    have : pcm.GetTransportFlow aId aIsRtcp = none := by
      rw [GetTransportFlow_none_iff]
      intro kv hkv e
      exact hc ⟨kv, hkv, e⟩
    rw [h] at this; cases this

theorem flows_RemoveTransportFlow (pcm : PeerConnectionMedia) (aId : String) (aRtcp r : Bool) :
    (pcm.RemoveTransportFlow aId aRtcp).flows r =
      if r = aRtcp then (pcm.flows aRtcp).filter (fun kv => !(kv.1 == aId)) else pcm.flows r := by
  unfold RemoveTransportFlow
  cases h : (pcm.flows aRtcp).find? (fun kv => kv.1 == aId) with
  | some it => simp only [flows_setFlows, flows_DispatchSTS]
  | none =>
    simp only
    split
    · next e =>
      subst e
      rw [List.find?_eq_none] at h
      symm
      rw [List.filter_eq_self]
      intro kv hkv
      simpa using h kv hkv
    · rfl

theorem flows_AddTransportFlow_new (pcm : PeerConnectionMedia) (aId : String) (aRtcp r : Bool)
    (aFlow : TransportFlow) (h : pcm.GetTransportFlow aId aRtcp = none) :
    (pcm.AddTransportFlow aId aRtcp aFlow).flows r =
      if r = aRtcp then pcm.flows aRtcp ++ [(aId, aFlow)] else pcm.flows r := by
  have hany : (pcm.flows aRtcp).any (fun kv => kv.1 == aId) = false := by
    rw [List.any_eq_false]
    intro kv hkv
    simpa using (GetTransportFlow_none_iff pcm aId aRtcp).mp h kv hkv
  simp only [AddTransportFlow, hany, Bool.false_eq_true, ↓reduceIte, flows_DispatchSTS,
    flows_setFlows]

/-- The registries after a successful `UpdateTransportFlow`. -/
theorem UpdateTransportFlow_flows (env : FlowEnv) (pcm : PeerConnectionMedia) (aIsRtcp : Bool)
    (aTransport : JsepTransport)
    (hOk : NS_FAILED (pcm.UpdateTransportFlow env aIsRtcp aTransport).1 = false) :
    (pcm.UpdateTransportFlow env aIsRtcp aTransport).2.flows (!aIsRtcp) =
        pcm.flows (!aIsRtcp) ∧
    (componentUnmet aIsRtcp aTransport →
      (pcm.UpdateTransportFlow env aIsRtcp aTransport).2.flows aIsRtcp =
        (pcm.flows aIsRtcp).filter (fun kv => !(kv.1 == aTransport.mTransportId))) ∧
    (¬ componentUnmet aIsRtcp aTransport →
      (pcm.GetTransportFlow aTransport.mTransportId aIsRtcp).isSome = true →
      (pcm.UpdateTransportFlow env aIsRtcp aTransport).2.flows aIsRtcp = pcm.flows aIsRtcp) ∧
    (¬ componentUnmet aIsRtcp aTransport →
      pcm.GetTransportFlow aTransport.mTransportId aIsRtcp = none →
      (pcm.UpdateTransportFlow env aIsRtcp aTransport).2.flows aIsRtcp =
        pcm.flows aIsRtcp ++
          [(aTransport.mTransportId, pcm.newTransportFlow aIsRtcp aTransport)]) := by
  by_cases hun : componentUnmet aIsRtcp aTransport
  · have e := UpdateTransportFlow_unmet env pcm aIsRtcp aTransport hun
    refine ⟨?_, ?_, fun h => absurd hun h, fun h => absurd hun h⟩
    · rw [e]; simp only [flows_RemoveTransportFlow]
      cases aIsRtcp <;> simp
    · intro _; rw [e]; simp only [flows_RemoveTransportFlow, ↓reduceIte]
  · cases hget : pcm.GetTransportFlow aTransport.mTransportId aIsRtcp with
    | some flow =>
      have e := UpdateTransportFlow_existing env pcm aIsRtcp aTransport flow hun hget
      refine ⟨by rw [e], fun h => absurd h hun, fun _ _ => by rw [e], fun _ h => by cases h⟩
    | none =>
      rcases UpdateTransportFlow_new env pcm aIsRtcp aTransport hun hget with
        ⟨hf, _⟩ | ⟨dtls, _, _, e⟩
      · rw [hf] at hOk; cases hOk
      · have hget1 : (DispatchSTS { pcm with nextFlowObject := pcm.nextFlowObject + 1 }
            (STSRunnable.FinalizeTransportFlow_s (pcm.newTransportFlow aIsRtcp aTransport)
              aTransport.mTransportId aIsRtcp dtls)).GetTransportFlow
              aTransport.mTransportId aIsRtcp = none := by
          rw [← hget]; cases aIsRtcp <;> rfl
        refine ⟨?_, fun h => absurd h hun, fun _ h => by simp at h, fun _ _ => ?_⟩
        · rw [e]; simp only [flows_AddTransportFlow_new _ _ _ _ _ hget1]
          cases aIsRtcp <;> rfl
        · rw [e]; simp only [flows_AddTransportFlow_new _ _ _ _ _ hget1, ↓reduceIte]
          cases aIsRtcp <;> rfl

theorem GetTransportFlow_congr (pcm pcm1 : PeerConnectionMedia) (aId : String) (r : Bool)
    (h : pcm1.flows r = pcm.flows r) :
    pcm1.GetTransportFlow aId r = pcm.GetTransportFlow aId r := by
  unfold GetTransportFlow; rw [h]

theorem UpdateTransportFlow_has_flow_iff (env : FlowEnv) (pcm : PeerConnectionMedia)
    (aIsRtcp : Bool) (aTransport : JsepTransport)
    (hOk : NS_FAILED (pcm.UpdateTransportFlow env aIsRtcp aTransport).1 = false) :
    ((pcm.UpdateTransportFlow env aIsRtcp aTransport).2.GetTransportFlow
        aTransport.mTransportId aIsRtcp).isSome = true ↔
      ¬ componentUnmet aIsRtcp aTransport := by
  obtain ⟨_, h1, h2, h3⟩ := UpdateTransportFlow_flows env pcm aIsRtcp aTransport hOk
  rw [GetTransportFlow_isSome_iff]
  by_cases hun : componentUnmet aIsRtcp aTransport
  · rw [h1 hun]
    simp only [hun, not_true_eq_false, iff_false, not_exists, not_and]
    intro kv hkv e
    have := (List.mem_filter.mp hkv).2
    simp [e] at this
  · simp only [hun, not_false_eq_true, iff_true]
    cases hget : pcm.GetTransportFlow aTransport.mTransportId aIsRtcp with
    | some flow =>
      rw [h2 hun (by simp [hget]), ← GetTransportFlow_isSome_iff, hget]
      rfl
    | none =>
      rw [h3 hun hget]
      exact ⟨_, List.mem_append_right _ (List.mem_singleton.mpr rfl), rfl⟩

theorem UpdateTransportFlows_eq (env : FlowEnv) (pcm : PeerConnectionMedia)
    (aTransceiver : JsepTransceiver)
    (hOk : NS_FAILED (pcm.UpdateTransportFlows env aTransceiver).1 = false) :
    NS_FAILED (pcm.UpdateTransportFlow env false aTransceiver.mTransport).1 = false ∧
    pcm.UpdateTransportFlows env aTransceiver =
      (pcm.UpdateTransportFlow env false aTransceiver.mTransport).2.UpdateTransportFlow env true
        aTransceiver.mTransport := by
  unfold UpdateTransportFlows at hOk ⊢
  cases h : NS_FAILED (pcm.UpdateTransportFlow env false aTransceiver.mTransport).1 with
  | true => simp [h] at hOk
  | false => simp [h]

theorem componentUnmet_rtp (aTransport : JsepTransport) :
    ¬ componentUnmet false aTransport ↔ 1 ≤ aTransport.mComponents := by
  simp [componentUnmet]; omega

theorem componentUnmet_rtcp (aTransport : JsepTransport) :
    ¬ componentUnmet true aTransport ↔ 2 ≤ aTransport.mComponents := by
  simp [componentUnmet]

/-- The two registries after a successful `UpdateTransportFlows`. -/
theorem UpdateTransportFlows_flows (env : FlowEnv) (pcm : PeerConnectionMedia)
    (aTransceiver : JsepTransceiver)
    (hOk : NS_FAILED (pcm.UpdateTransportFlows env aTransceiver).1 = false) :
    (pcm.UpdateTransportFlows env aTransceiver).2.flows false =
      (if aTransceiver.mTransport.mComponents = 0 then
        (pcm.flows false).filter (fun kv => !(kv.1 == aTransceiver.mTransport.mTransportId))
      else if (pcm.GetTransportFlow aTransceiver.mTransport.mTransportId false).isSome then
        pcm.flows false
      else
        pcm.flows false ++ [(aTransceiver.mTransport.mTransportId,
          pcm.newTransportFlow false aTransceiver.mTransport)]) ∧
    (pcm.UpdateTransportFlows env aTransceiver).2.flows true =
      (if aTransceiver.mTransport.mComponents < 2 then
        (pcm.flows true).filter (fun kv => !(kv.1 == aTransceiver.mTransport.mTransportId))
      else if (pcm.GetTransportFlow aTransceiver.mTransport.mTransportId true).isSome then
        pcm.flows true
      else
        pcm.flows true ++ [(aTransceiver.mTransport.mTransportId,
          (pcm.UpdateTransportFlow env false aTransceiver.mTransport).2.newTransportFlow true
            aTransceiver.mTransport)]) := by
  obtain ⟨h1ok, e⟩ := UpdateTransportFlows_eq env pcm aTransceiver hOk
  rw [e] at hOk ⊢
  obtain ⟨a0, a1, a2, a3⟩ :=
    UpdateTransportFlow_flows env pcm false aTransceiver.mTransport h1ok
  obtain ⟨b0, b1, b2, b3⟩ :=
    UpdateTransportFlow_flows env (pcm.UpdateTransportFlow env false aTransceiver.mTransport).2
      true aTransceiver.mTransport hOk
  simp only [Bool.not_false, Bool.not_true] at a0 b0
  have hget : (pcm.UpdateTransportFlow env false aTransceiver.mTransport).2.GetTransportFlow
      aTransceiver.mTransport.mTransportId true =
      pcm.GetTransportFlow aTransceiver.mTransport.mTransportId true :=
    GetTransportFlow_congr _ _ _ _ a0
  constructor
  · rw [b0]
    by_cases hc : aTransceiver.mTransport.mComponents = 0
    · rw [if_pos hc]
      exact a1 (Or.inr ⟨rfl, hc⟩)
    · rw [if_neg hc]
      have hun : ¬ componentUnmet false aTransceiver.mTransport := by
        rw [componentUnmet_rtp]; omega
      cases hg : pcm.GetTransportFlow aTransceiver.mTransport.mTransportId false with
      | some flow => simpa using a2 hun (by simp [hg])
      | none => simpa using a3 hun hg
  · by_cases hc : aTransceiver.mTransport.mComponents < 2
    · rw [if_pos hc, b1 (Or.inl ⟨rfl, hc⟩), a0]
    · rw [if_neg hc]
      have hun : ¬ componentUnmet true aTransceiver.mTransport := by
        rw [componentUnmet_rtcp]; omega
      cases hg : pcm.GetTransportFlow aTransceiver.mTransport.mTransportId true with
      | some flow =>
        rw [hg] at hget
        simpa [a0] using b2 hun (by simp [hget])
      | none =>
        rw [hg] at hget
        simpa [a0] using b3 hun hget

/-! ## Transport flows: claims -/

/-- C7. After `UpdateTransportFlows` returns success the registry holds a flow
for (transport-id, RTP) exactly when the transport has at least one component
and a flow for (transport-id, RTCP) exactly when it has at least two, whatever
was registered before. So from an empty registry, a transport with two
components followed by another transport with one component leaves exactly
three flows. -/
theorem update_transport_flows_registers_needed_components (env : FlowEnv)
    (pcm : PeerConnectionMedia) (aTransceiver : JsepTransceiver)
    (hOk : NS_FAILED (pcm.UpdateTransportFlows env aTransceiver).1 = false) :
    (((pcm.UpdateTransportFlows env aTransceiver).2.GetTransportFlow
        aTransceiver.mTransport.mTransportId false).isSome = true ↔
      1 ≤ aTransceiver.mTransport.mComponents) ∧
    (((pcm.UpdateTransportFlows env aTransceiver).2.GetTransportFlow
        aTransceiver.mTransport.mTransportId true).isSome = true ↔
      2 ≤ aTransceiver.mTransport.mComponents) ∧
    (∀ other : JsepTransceiver,
      pcm.mTransportFlows = [] → pcm.mRtcpTransportFlows = [] →
      aTransceiver.mTransport.mComponents = 2 → other.mTransport.mComponents = 1 →
      other.mTransport.mTransportId ≠ aTransceiver.mTransport.mTransportId →
      NS_FAILED ((pcm.UpdateTransportFlows env aTransceiver).2.UpdateTransportFlows env other).1
        = false →
      ((pcm.UpdateTransportFlows env aTransceiver).2.UpdateTransportFlows env other).2.mTransportFlows.length +
        ((pcm.UpdateTransportFlows env aTransceiver).2.UpdateTransportFlows env
          other).2.mRtcpTransportFlows.length = 3) := by
  obtain ⟨h1ok, e⟩ := UpdateTransportFlows_eq env pcm aTransceiver hOk
  have h2ok := hOk
  rw [e] at h2ok
  refine ⟨?_, ?_, ?_⟩
  · rw [e, GetTransportFlow_congr _ _ _ false
      (UpdateTransportFlow_flows env _ true aTransceiver.mTransport h2ok).1,
      UpdateTransportFlow_has_flow_iff env pcm false aTransceiver.mTransport h1ok,
      componentUnmet_rtp]
  · rw [e, UpdateTransportFlow_has_flow_iff env _ true aTransceiver.mTransport h2ok,
      componentUnmet_rtcp]
  · intro other hrtp hrtcp hc2 hc1 hne hOk2
    obtain ⟨f1, f2⟩ := UpdateTransportFlows_flows env pcm aTransceiver hOk
    obtain ⟨g1, g2⟩ := UpdateTransportFlows_flows env _ other hOk2
    have hrtp0 : pcm.flows false = [] := hrtp
    have hrtcp0 : pcm.flows true = [] := hrtcp
    have hn1 : pcm.GetTransportFlow aTransceiver.mTransport.mTransportId false = none := by
      rw [GetTransportFlow_none_iff, hrtp0]; simp
    have hn2 : pcm.GetTransportFlow aTransceiver.mTransport.mTransportId true = none := by
      rw [GetTransportFlow_none_iff, hrtcp0]; simp
    simp only [hc2, hn1, hn2, hrtp0, hrtcp0, OfNat.ofNat_ne_zero, ↓reduceIte, lt_self_iff_false,
      Option.isSome_none, Bool.false_eq_true, List.nil_append] at f1 f2
    have hn3 : (pcm.UpdateTransportFlows env aTransceiver).2.GetTransportFlow
        other.mTransport.mTransportId false = none := by
      rw [GetTransportFlow_none_iff, f1]
      intro kv hkv
      rw [List.mem_singleton.mp hkv]
      exact fun h => hne h.symm
    simp only [hc1, hn3, f1, f2, one_ne_zero, ↓reduceIte, Option.isSome_none, Bool.false_eq_true,
      Nat.one_lt_ofNat, List.singleton_append, List.filter_cons, List.filter_nil] at g1 g2
    have hb : (aTransceiver.mTransport.mTransportId == other.mTransport.mTransportId) = false := by
      simpa using fun h : aTransceiver.mTransport.mTransportId = other.mTransport.mTransportId =>
        hne h.symm
    simp only [hb, Bool.not_false, ↓reduceIte] at g2
    have hlen :
        (((pcm.UpdateTransportFlows env aTransceiver).2.UpdateTransportFlows env other).2.flows
          false).length +
        (((pcm.UpdateTransportFlows env aTransceiver).2.UpdateTransportFlows env other).2.flows
          true).length = 3 := by
      rw [g1, g2]; rfl
    exact hlen

theorem update_transport_flows_registers_needed_components_witness :
    NS_FAILED (pcmWithIdentity.UpdateTransportFlows envOk transceiverTwo).1 = false ∧
    NS_FAILED ((pcmWithIdentity.UpdateTransportFlows envOk
        transceiverTwo).2.UpdateTransportFlows envOk transceiverOne).1 = false ∧
    (((pcmWithIdentity.UpdateTransportFlows envOk transceiverTwo).2.GetTransportFlow
        transceiverTwo.mTransport.mTransportId false).isSome = true ↔
      1 ≤ transceiverTwo.mTransport.mComponents) ∧
    (((pcmWithIdentity.UpdateTransportFlows envOk transceiverTwo).2.GetTransportFlow
        transceiverTwo.mTransport.mTransportId true).isSome = true ↔
      2 ≤ transceiverTwo.mTransport.mComponents) ∧
    ((pcmWithIdentity.UpdateTransportFlows envOk transceiverTwo).2.UpdateTransportFlows envOk
          transceiverOne).2.mTransportFlows.length +
        ((pcmWithIdentity.UpdateTransportFlows envOk transceiverTwo).2.UpdateTransportFlows envOk
          transceiverOne).2.mRtcpTransportFlows.length = 3 :=
  have h := update_transport_flows_registers_needed_components envOk pcmWithIdentity
    transceiverTwo (by decide)
  ⟨by decide, by decide, h.1, h.2.1,
   h.2.2 transceiverOne (by decide) (by decide) (by decide) (by decide) (by decide) (by decide)⟩

/-- C8. For a key whose component requirement is met and that already has a
flow registered, `UpdateTransportFlow` returns `NS_OK` and leaves the whole
state as it was: the same flow object stays registered under the key and
nothing is posted to the network thread. A second call does the same, so two
calls have the effect of one. -/
theorem update_transport_flow_existing_is_noop (env : FlowEnv) (pcm : PeerConnectionMedia)
    (aIsRtcp : Bool) (aTransport : JsepTransport) (flow : TransportFlow)
    (hMet : (aIsRtcp = true → 2 ≤ aTransport.mComponents) ∧
            (aIsRtcp = false → 1 ≤ aTransport.mComponents))
    (hReg : pcm.GetTransportFlow aTransport.mTransportId aIsRtcp = some flow) :
    pcm.UpdateTransportFlow env aIsRtcp aTransport = (NS_OK, pcm) ∧
    NS_SUCCEEDED (pcm.UpdateTransportFlow env aIsRtcp aTransport).1 = true ∧
    (pcm.UpdateTransportFlow env aIsRtcp aTransport).2.GetTransportFlow
        aTransport.mTransportId aIsRtcp = some flow ∧
    (pcm.UpdateTransportFlow env aIsRtcp aTransport).2.mTransportFlows = pcm.mTransportFlows ∧
    (pcm.UpdateTransportFlow env aIsRtcp aTransport).2.mRtcpTransportFlows =
        pcm.mRtcpTransportFlows ∧
    (pcm.UpdateTransportFlow env aIsRtcp aTransport).2.stsThread = pcm.stsThread ∧
    (pcm.UpdateTransportFlow env aIsRtcp aTransport).2.UpdateTransportFlow env aIsRtcp aTransport =
        pcm.UpdateTransportFlow env aIsRtcp aTransport := by
  have hun : ¬ componentUnmet aIsRtcp aTransport := by
    rintro (⟨ha, hb⟩ | ⟨ha, hb⟩)
    · have := hMet.1 ha; omega
    · have := hMet.2 ha; omega
  have e := UpdateTransportFlow_existing env pcm aIsRtcp aTransport flow hun hReg
  rw [e]
  exact ⟨rfl, by simp [NS_SUCCEEDED, NS_FAILED_NS_OK], hReg, rfl, rfl, rfl, e⟩

theorem update_transport_flow_existing_is_noop_witness :
    ((true = true → 2 ≤ transceiverTwo.mTransport.mComponents) ∧
      (true = false → 1 ≤ transceiverTwo.mTransport.mComponents)) ∧
    (pcmWithIdentity.UpdateTransportFlows envOk transceiverTwo).2.GetTransportFlow
        transceiverTwo.mTransport.mTransportId true =
      some { object := 1, id := "pc:T2,rtcp" } ∧
    (pcmWithIdentity.UpdateTransportFlows envOk transceiverTwo).2.UpdateTransportFlow envOk true
        transceiverTwo.mTransport =
      (NS_OK, (pcmWithIdentity.UpdateTransportFlows envOk transceiverTwo).2) :=
  ⟨by decide, by decide,
   (update_transport_flow_existing_is_noop envOk
      (pcmWithIdentity.UpdateTransportFlows envOk transceiverTwo).2 true
      transceiverTwo.mTransport { object := 1, id := "pc:T2,rtcp" } (by decide) (by decide)).1⟩

/-! ## Lemmas on ICE server URLs -/

theorem NS_FAILED_NS_ERROR_MALFORMED_URI : NS_FAILED NS_ERROR_MALFORMED_URI = true := by decide

theorem findCharFrom_range (p : Char → Bool) :
    ∀ (s : List Char) (pos : Nat),
      findCharFrom p s pos = -1 ∨
        ((pos : Int) ≤ findCharFrom p s pos ∧ findCharFrom p s pos < (pos + s.length : Nat)) := by
  intro s
  induction s with
  | nil => intro pos; left; rfl
  | cons c s ih =>
    intro pos
    unfold findCharFrom
    by_cases h : p c = true
    · right
      simp only [h, ↓reduceIte, le_refl, List.length_cons, Nat.cast_add, Nat.cast_one, true_and]
      omega
    · simp only [h, Bool.false_eq_true, ↓reduceIte]
      rcases ih (pos + 1) with h1 | ⟨h1, h2⟩
      · left; exact h1
      · right
        simp only [List.length_cons, Nat.cast_add, Nat.cast_one] at h1 h2 ⊢
        constructor <;> omega

theorem FindChar_range (s : List Char) (c : Char) :
    FindChar s c = -1 ∨ (0 ≤ FindChar s c ∧ FindChar s c < s.length) := by
  unfold FindChar
  rcases findCharFrom_range (fun d => d == c) s 0 with h | ⟨h1, h2⟩
  · left; exact h
  · right
    simp only [Nat.cast_zero, zero_add] at h1 h2
    exact ⟨h1, h2⟩

theorem FindCharInSet_range (s set : List Char) (offset : Nat) :
    FindCharInSet s set offset = -1 ∨
      ((offset : Int) ≤ FindCharInSet s set offset ∧ FindCharInSet s set offset < s.length) := by
  unfold FindCharInSet
  by_cases h : offset > s.length
  · left; simp [h]
  · simp only [h, ↓reduceIte]
    rcases findCharFrom_range (fun d => set.contains d) (s.drop offset) offset with h1 | ⟨h1, h2⟩
    · left; exact h1
    · right
      refine ⟨h1, ?_⟩
      have : offset + (s.drop offset).length = s.length := by
        rw [List.length_drop]; omega
      rw [this] at h2
      exact h2

/-- The query-string loop finishes within its bound: from a position inside
the path, `path.length + 1 - i` further iterations are enough. -/
theorem queryTransportLoop_terminates (path : List Char) :
    ∀ (fuel : Nat) (i : Int) (transport : List Char),
      (i < 0 ∨ (i ≤ path.length ∧ (path.length : Int) + 1 ≤ fuel + i)) →
      ∃ result, queryTransportLoop path fuel i transport = some result := by
  intro fuel
  induction fuel with
  | zero =>
    intro i transport h
    rcases h with h | ⟨h1, h2⟩
    · exact ⟨transport, by simp [queryTransportLoop, not_le.mpr h]⟩
    · exfalso; simp only [Nat.cast_zero, zero_add] at h2; omega
  | succ fuel ih =>
    intro i transport h
    unfold queryTransportLoop
    by_cases hi : 0 ≤ i
    · simp only [hi, ↓reduceIte]
      apply ih
      rcases h with h | ⟨h1, h2⟩
      · omega
      · rcases FindCharInSet_range path ['&'] (i + 1).toNat with e | ⟨e1, e2⟩
        · left; rw [e]; decide
        · right
          have : ((i + 1).toNat : Int) = i + 1 := Int.toNat_of_nonneg (by omega)
          rw [this] at e1
          constructor
          · omega
          · push_cast at h2 ⊢; omega
    · exact ⟨transport, by simp [hi]⟩

theorem queryTransportLoop_from_questionmark (path : List Char) (h : 0 ≤ FindChar path '?') :
    ∃ result, queryTransportLoop path (path.length + 1) (FindChar path '?') [] = some result := by
  apply queryTransportLoop_terminates
  right
  rcases FindChar_range path '?' with e | ⟨_, e2⟩
  · rw [e] at h; exact absurd h (by decide)
  · constructor
    · omega
    · push_cast; omega

theorem rfindChar_not_mem (c : Char) :
    ∀ s : List Char, c ∉ s → rfindChar c s = none := by
  intro s
  induction s with
  | nil => intro _; rfl
  | cons d s ih =>
    intro h
    simp only [List.mem_cons, not_or] at h
    have hd : (d == c) = false := by simpa using fun e : d = c => h.1 e.symm
    simp [rfindChar, ih h.2, hd]

theorem rfindChar_append_exact (c : Char) (rest : List Char) (h : c ∉ rest) :
    ∀ u : List Char, rfindChar c (u ++ c :: rest) = some u.length := by
  intro u
  induction u with
  | nil => simp [rfindChar, rfindChar_not_mem c rest h]
  | cons d u ih => simp [rfindChar, ih]

theorem rfindChar_append_ge (c : Char) (rest : List Char) :
    ∀ u : List Char, ∃ k, rfindChar c (u ++ c :: rest) = some k ∧ u.length ≤ k := by
  intro u
  induction u with
  | nil =>
    simp only [List.nil_append, rfindChar, List.length_nil]
    cases rfindChar c rest with
    | none => exact ⟨0, by simp, le_refl _⟩
    | some k => exact ⟨k + 1, rfl, by omega⟩
  | cons d u ih =>
    obtain ⟨k, hk, hle⟩ := ih
    exact ⟨k + 1, by simp [rfindChar, hk], by simp; omega⟩

theorem ParseAuthority_hostPos (auth : List Char) :
    (ParseAuthority auth).2.hostPos =
      (match rfindChar '@' auth with
        | some k => k + 1
        | none => 0) := by
  unfold ParseAuthority
  simp only
  split
  · rfl
  · split
    · rfl
    · split
      · rfl
      · split <;> rfl

theorem ParseAuthority_hostLen_of_colon (auth : List Char) (serverPos : Nat)
    (hPos : (match rfindChar '@' auth with
              | some k => k + 1
              | none => 0) = serverPos)
    (hColon : rfindChar ':' (auth.drop serverPos) = some 0) :
    (ParseAuthority auth).2.hostLen = 0 := by
  unfold ParseAuthority
  simp only [hPos, hColon]
  split
  · rfl
  · split
    · rfl
    · split <;> rfl

theorem ParseAuthority_hostLen_of_empty (auth : List Char) (serverPos : Nat)
    (hPos : (match rfindChar '@' auth with
              | some k => k + 1
              | none => 0) = serverPos)
    (hEmpty : auth.drop serverPos = []) :
    (ParseAuthority auth).2.hostLen = 0 := by
  unfold ParseAuthority
  simp only [hPos, hEmpty, rfindChar, List.length_nil, Nat.cast_zero]

/-- An authority with a non-empty user-info part puts the host at position 2
or later. -/
theorem ParseAuthority_userName (auth : List Char) (h : authorityHasUserName auth) :
    1 < (ParseAuthority auth).2.hostPos := by
  obtain ⟨userinfo, rest, hne, rfl⟩ := h
  obtain ⟨k, hk, hle⟩ := rfindChar_append_ge '@' rest userinfo
  rw [ParseAuthority_hostPos, hk]
  have : 0 < userinfo.length := List.length_pos.mpr hne
  show 1 < k + 1
  omega

/-- An authority without a host is parsed with host length 0. -/
theorem ParseAuthority_noHost (auth : List Char) (h : authorityHasNoHost auth) :
    (ParseAuthority auth).2.hostLen = 0 := by
  obtain ⟨userinfoAt, portPart, rfl, hu, hat, hp⟩ := h
  have hPos : (match rfindChar '@' (userinfoAt ++ portPart) with
                | some k => k + 1
                | none => 0) = userinfoAt.length := by
    rcases hu with rfl | ⟨userinfo, rfl⟩
    · simp [rfindChar_not_mem '@' portPart hat]
    · have := rfindChar_append_exact '@' portPart hat userinfo
      simp only [List.append_assoc, List.singleton_append, this, List.length_append,
        List.length_singleton]
  have hDrop : (userinfoAt ++ portPart).drop userinfoAt.length = portPart := by simp
  rcases hp with rfl | ⟨portText, rfl, hcolon⟩
  · exact ParseAuthority_hostLen_of_empty _ _ hPos (by simp)
  · apply ParseAuthority_hostLen_of_colon _ _ hPos
    rw [hDrop]
    simpa using rfindChar_append_exact ':' portText hcolon []

/-! ## ICE server URLs: claims -/

/-- C9. For an ICE server URL whose scheme is none of stun, stuns, turn and
turns, `addNrIceServer` returns a failure code and hands back both server
lists as it received them. -/
theorem add_ice_server_rejects_other_schemes (env : IceServerEnv) (aIceUrl : String)
    (aIceServer : RTCIceServer) (aStunServersOut : List NrIceStunServer)
    (aTurnServersOut : List NrIceTurnServer)
    (hScheme : (env.NS_NewURI aIceUrl).2.scheme ∉ ["stun", "stuns", "turn", "turns"]) :
    ∃ rv, NS_FAILED rv = true ∧
      addNrIceServer env aIceUrl aIceServer aStunServersOut aTurnServersOut =
        some (rv, aStunServersOut, aTurnServersOut) := by
  simp only [List.mem_cons, List.mem_singleton, List.not_mem_nil, or_false, not_or] at hScheme
  obtain ⟨h1, h2, h3, h4⟩ := hScheme
  unfold addNrIceServer
  by_cases h0 : NS_FAILED (env.NS_NewURI aIceUrl).1 = true
  · exact ⟨_, h0, by simp [h0]⟩
  · refine ⟨NS_ERROR_FAILURE, NS_FAILED_NS_ERROR_FAILURE, ?_⟩
    simp [h0, nsIURI.SchemeIs, h1, h2, h3, h4]

theorem add_ice_server_rejects_other_schemes_witness :
    (envSimple.NS_NewURI "http://example.com").2.scheme ∉ ["stun", "stuns", "turn", "turns"] ∧
    ∃ rv, NS_FAILED rv = true ∧
      addNrIceServer envSimple "http://example.com" {} [] [] = some (rv, [], []) :=
  ⟨by decide, add_ice_server_rejects_other_schemes envSimple "http://example.com" {} [] []
    (by decide)⟩

/-- C10 as stated fails: `stun:@h` has a user-info part (the empty text before
`@`), yet `addNrIceServer` returns `NS_OK` and adds a STUN server for host `h`. -/
theorem add_ice_server_accepts_empty_userinfo :
    (envSimple.NS_NewURI "stun:@h").2.scheme = "stun" ∧
    authorityHasUserInfo (authorityOf (envSimple.NS_NewURI "stun:@h").2) ∧
    addNrIceServer envSimple "stun:@h" {} [] [] =
      some (NS_OK, [{ host := "h", port := 3478, transport := "udp" }], []) ∧
    NS_FAILED NS_OK = false :=
  ⟨by decide, ⟨[], "h".data, by decide⟩, by decide, by decide⟩

/-- C10, amended. For a stun:, turn: or turns: URL whose authority has no
host, or has a non-empty user-info part before `@`, `addNrIceServer` returns a
failure code and hands back both server lists as it received them. -/
theorem add_ice_server_rejects_missing_host_or_username (env : IceServerEnv)
    (aIceUrl : String) (aIceServer : RTCIceServer) (aStunServersOut : List NrIceStunServer)
    (aTurnServersOut : List NrIceTurnServer)
    (hScheme : (env.NS_NewURI aIceUrl).2.scheme ∈ ["stun", "turn", "turns"])
    (hAuth : authorityHasNoHost (authorityOf (env.NS_NewURI aIceUrl).2) ∨
             authorityHasUserName (authorityOf (env.NS_NewURI aIceUrl).2)) :
    ∃ rv, NS_FAILED rv = true ∧
      addNrIceServer env aIceUrl aIceServer aStunServersOut aTurnServersOut =
        some (rv, aStunServersOut, aTurnServersOut) := by
  have hparse : (ParseAuthority (authorityOf (env.NS_NewURI aIceUrl).2)).2.hostLen = 0 ∨
      1 < (ParseAuthority (authorityOf (env.NS_NewURI aIceUrl).2)).2.hostPos := by
    rcases hAuth with h | h
    · exact Or.inl (ParseAuthority_noHost _ h)
    · exact Or.inr (ParseAuthority_userName _ h)
  have hstuns : (env.NS_NewURI aIceUrl).2.SchemeIs "stuns" = false := by
    simp only [List.mem_cons, List.mem_singleton, List.not_mem_nil, or_false] at hScheme
    rcases hScheme with h | h | h <;> simp [nsIURI.SchemeIs, h]
  have hany : ((env.NS_NewURI aIceUrl).2.SchemeIs "stun" ||
      (env.NS_NewURI aIceUrl).2.SchemeIs "stuns" || (env.NS_NewURI aIceUrl).2.SchemeIs "turn" ||
      (env.NS_NewURI aIceUrl).2.SchemeIs "turns") = true := by
    simp only [List.mem_cons, List.mem_singleton, List.not_mem_nil, or_false] at hScheme
    rcases hScheme with h | h | h <;> simp [nsIURI.SchemeIs, h]
  unfold addNrIceServer
  by_cases h0 : NS_FAILED (env.NS_NewURI aIceUrl).1 = true
  · exact ⟨_, h0, by simp [h0]⟩
  simp only [h0, Bool.false_eq_true, ↓reduceIte, hany, Bool.not_true]
  simp only [hstuns, Bool.false_eq_true, ↓reduceIte]
  by_cases h1 : NS_FAILED (env.NS_NewURI aIceUrl).2.GetSpec.1 = true
  · exact ⟨_, h1, by simp [h1]⟩
  simp only [h1, Bool.false_eq_true, ↓reduceIte]
  by_cases h2 : NS_FAILED (env.NS_NewURI aIceUrl).2.GetPathQueryRef.1 = true
  · exact ⟨_, h2, by simp [h2]⟩
  simp only [h2, Bool.false_eq_true, ↓reduceIte]
  unfold authorityOf at hparse
  simp only at hparse
  by_cases hq : 0 ≤ FindChar (env.NS_NewURI aIceUrl).2.GetPathQueryRef.2.data '?'
  · obtain ⟨t0, ht0⟩ := queryTransportLoop_from_questionmark _ hq
    simp only [hq, ↓reduceIte, ht0, Option.map_some'] at hparse ⊢
    by_cases h3 : NS_FAILED (ParseAuthority (List.take
        (FindChar (env.NS_NewURI aIceUrl).2.GetPathQueryRef.2.data '?').toNat
        (env.NS_NewURI aIceUrl).2.GetPathQueryRef.2.data)).1 = true
    · exact ⟨_, h3, by simp [h3]⟩
    simp only [h3, Bool.false_eq_true, ↓reduceIte]
    refine ⟨NS_ERROR_FAILURE, NS_FAILED_NS_ERROR_FAILURE, ?_⟩
    rcases hparse with h | h
    · simp [h]
    · simp [h]
  · simp only [hq, ↓reduceIte] at hparse ⊢
    by_cases h3 : NS_FAILED (ParseAuthority
        (env.NS_NewURI aIceUrl).2.GetPathQueryRef.2.data).1 = true
    · exact ⟨_, h3, by simp [h3]⟩
    simp only [h3, Bool.false_eq_true, ↓reduceIte]
    refine ⟨NS_ERROR_FAILURE, NS_FAILED_NS_ERROR_FAILURE, ?_⟩
    rcases hparse with h | h
    · simp [h]
    · simp [h]

theorem add_ice_server_rejects_missing_host_or_username_witness :
    ((envSimple.NS_NewURI "turn:user@turn.example.org").2.scheme ∈ ["stun", "turn", "turns"] ∧
      (authorityHasNoHost (authorityOf (envSimple.NS_NewURI "turn:user@turn.example.org").2) ∨
       authorityHasUserName (authorityOf (envSimple.NS_NewURI "turn:user@turn.example.org").2))) ∧
    ∃ rv, NS_FAILED rv = true ∧
      addNrIceServer envSimple "turn:user@turn.example.org" {} [] [] = some (rv, [], []) :=
  ⟨⟨by decide, Or.inr ⟨"user".data, "turn.example.org".data, by decide, by decide⟩⟩,
   add_ice_server_rejects_missing_host_or_username envSimple "turn:user@turn.example.org" {} [] []
     (by decide) (Or.inr ⟨"user".data, "turn.example.org".data, by decide, by decide⟩)⟩

/-! ## Lemmas on accepted ICE server URLs -/

theorem ParseAuthority_port_range (auth : List Char) :
    (ParseAuthority auth).2.port = -1 ∨
      (0 ≤ (ParseAuthority auth).2.port ∧ (ParseAuthority auth).2.port ≤ 65535) := by
  unfold ParseAuthority
  simp only
  split
  · left; rfl
  · split
    · left; rfl
    · split
      · left; rfl
      · next p hp =>
        split
        · left; rfl
        · next hle =>
          right
          simp only [gt_iff_lt, not_lt] at hle
          constructor
          · exact Int.ofNat_nonneg p
          · show (p : Int) ≤ 65535
            exact_mod_cast hle

theorem NrIceStunServer_Create_some (env : IceServerEnv) (host : String) (port : Nat)
    (transport : String) (server : NrIceStunServer)
    (h : NrIceStunServer.Create env host port transport = some server) :
    server = { host := host, port := port, transport := transport } := by
  unfold NrIceStunServer.Create at h
  split at h
  · simp only [Option.some.injEq] at h; exact h.symm
  · cases h

theorem NrIceTurnServer_Create_some (env : IceServerEnv) (host : String) (port : Nat)
    (username password transport : String) (server : NrIceTurnServer)
    (h : NrIceTurnServer.Create env host port username password transport = some server) :
    server = { host := host, port := port, username := username, password := password,
               transport := transport } := by
  unfold NrIceTurnServer.Create at h
  split at h
  · simp only [Option.some.injEq] at h; exact h.symm
  · cases h

theorem addNrIceServer_scanned (url : nsIURI) :
    ∃ transport0,
      (if 0 ≤ FindChar url.GetPathQueryRef.2.data '?' then
        Option.map
          (fun transport =>
            (transport, List.take (FindChar url.GetPathQueryRef.2.data '?').toNat
              url.GetPathQueryRef.2.data))
          (queryTransportLoop url.GetPathQueryRef.2.data
            (url.GetPathQueryRef.2.data.length + 1)
            (FindChar url.GetPathQueryRef.2.data '?') [])
      else some ([], url.GetPathQueryRef.2.data)) = some (transport0, authorityOf url) := by
  unfold authorityOf
  simp only
  by_cases hq : 0 ≤ FindChar url.GetPathQueryRef.2.data '?'
  · obtain ⟨t0, ht0⟩ := queryTransportLoop_from_questionmark _ hq
    exact ⟨t0, by simp only [hq, ↓reduceIte, ht0, Option.map_some']⟩
  · exact ⟨[], by simp only [hq, ↓reduceIte]⟩

/-- What an accepted stun:, turn: or turns: URL leaves behind: the authority
parsed, and exactly one server appended to the list of its kind, built from
the host text, the port and the transport. -/
theorem addNrIceServer_accepted (env : IceServerEnv) (aIceUrl : String)
    (aIceServer : RTCIceServer) (aStunServersOut stun1 : List NrIceStunServer)
    (aTurnServersOut turn1 : List NrIceTurnServer) (rv : nsresult)
    (hScheme : (env.NS_NewURI aIceUrl).2.scheme ∈ ["stun", "turn", "turns"])
    (hRun : addNrIceServer env aIceUrl aIceServer aStunServersOut aTurnServersOut =
      some (rv, stun1, turn1))
    (hOk : NS_FAILED rv = false) :
    NS_FAILED (ParseAuthority (authorityOf (env.NS_NewURI aIceUrl).2)).1 = false ∧
    (ParseAuthority (authorityOf (env.NS_NewURI aIceUrl).2)).2.hostLen ≠ 0 ∧
    (ParseAuthority (authorityOf (env.NS_NewURI aIceUrl).2)).2.hostPos ≤ 1 ∧
    ∃ host transport : String,
      (((env.NS_NewURI aIceUrl).2.scheme = "stun" ∧ turn1 = aTurnServersOut ∧
          stun1 = aStunServersOut ++
            [{ host := host,
               port := ((if (ParseAuthority (authorityOf (env.NS_NewURI aIceUrl).2)).2.port = -1
                          then (3478 : Int)
                          else (ParseAuthority (authorityOf (env.NS_NewURI aIceUrl).2)).2.port)
                        % 65536).toNat,
               transport := transport }]) ∨
       ((env.NS_NewURI aIceUrl).2.scheme = "turn" ∧ stun1 = aStunServersOut ∧
          turn1 = aTurnServersOut ++
            [{ host := host,
               port := ((if (ParseAuthority (authorityOf (env.NS_NewURI aIceUrl).2)).2.port = -1
                          then (3478 : Int)
                          else (ParseAuthority (authorityOf (env.NS_NewURI aIceUrl).2)).2.port)
                        % 65536).toNat,
               username := aIceServer.mUsername, password := aIceServer.mCredential,
               transport := transport }]) ∨
       ((env.NS_NewURI aIceUrl).2.scheme = "turns" ∧ stun1 = aStunServersOut ∧
          turn1 = aTurnServersOut ++
            [{ host := host,
               port := ((if (ParseAuthority (authorityOf (env.NS_NewURI aIceUrl).2)).2.port = -1
                          then (5349 : Int)
                          else (ParseAuthority (authorityOf (env.NS_NewURI aIceUrl).2)).2.port)
                        % 65536).toNat,
               username := aIceServer.mUsername, password := aIceServer.mCredential,
               transport := transport }])) := by
  have hstuns : (env.NS_NewURI aIceUrl).2.SchemeIs "stuns" = false := by
    simp only [List.mem_cons, List.mem_singleton, List.not_mem_nil, or_false] at hScheme
    rcases hScheme with h | h | h <;> simp [nsIURI.SchemeIs, h]
  have hany : ((env.NS_NewURI aIceUrl).2.SchemeIs "stun" ||
      (env.NS_NewURI aIceUrl).2.SchemeIs "stuns" || (env.NS_NewURI aIceUrl).2.SchemeIs "turn" ||
      (env.NS_NewURI aIceUrl).2.SchemeIs "turns") = true := by
    simp only [List.mem_cons, List.mem_singleton, List.not_mem_nil, or_false] at hScheme
    rcases hScheme with h | h | h <;> simp [nsIURI.SchemeIs, h]
  unfold addNrIceServer at hRun
  by_cases h0 : NS_FAILED (env.NS_NewURI aIceUrl).1 = true
  · simp only [h0, ↓reduceIte, Option.some.injEq, Prod.mk.injEq] at hRun
    rw [← hRun.1, h0] at hOk; cases hOk
  simp only [h0, Bool.false_eq_true, ↓reduceIte, hany, Bool.not_true] at hRun
  simp only [hstuns, Bool.false_eq_true, ↓reduceIte] at hRun
  by_cases h1 : NS_FAILED (env.NS_NewURI aIceUrl).2.GetSpec.1 = true
  · simp only [h1, ↓reduceIte, Option.some.injEq, Prod.mk.injEq] at hRun
    rw [← hRun.1, h1] at hOk; cases hOk
  simp only [h1, Bool.false_eq_true, ↓reduceIte] at hRun
  by_cases h2 : NS_FAILED (env.NS_NewURI aIceUrl).2.GetPathQueryRef.1 = true
  · simp only [h2, ↓reduceIte, Option.some.injEq, Prod.mk.injEq] at hRun
    rw [← hRun.1, h2] at hOk; cases hOk
  simp only [h2, Bool.false_eq_true, ↓reduceIte] at hRun
  obtain ⟨t0, hscan⟩ := addNrIceServer_scanned (env.NS_NewURI aIceUrl).2
  simp only [hscan] at hRun
  by_cases h3 : NS_FAILED (ParseAuthority (authorityOf (env.NS_NewURI aIceUrl).2)).1 = true
  · simp only [h3, ↓reduceIte, Option.some.injEq, Prod.mk.injEq] at hRun
    rw [← hRun.1, h3] at hOk; cases hOk
  simp only [h3, Bool.false_eq_true, ↓reduceIte] at hRun
  by_cases h4 : (ParseAuthority (authorityOf (env.NS_NewURI aIceUrl).2)).2.hostLen = 0
  · simp only [h4, ↓reduceIte, Option.some.injEq, Prod.mk.injEq] at hRun
    rw [← hRun.1] at hOk; exact absurd hOk (by decide)
  simp only [h4, ↓reduceIte] at hRun
  by_cases h5 : (ParseAuthority (authorityOf (env.NS_NewURI aIceUrl).2)).2.hostPos > 1
  · simp only [h5, ↓reduceIte, Option.some.injEq, Prod.mk.injEq] at hRun
    rw [← hRun.1] at hOk; exact absurd hOk (by decide)
  simp only [h5, ↓reduceIte] at hRun
  refine ⟨by simpa using h3, h4, by omega, ?_⟩
  simp only [List.mem_cons, List.mem_singleton, List.not_mem_nil, or_false] at hScheme
  rcases hScheme with hs | hs | hs
  · have e1 : (env.NS_NewURI aIceUrl).2.SchemeIs "turn" = false := by simp [nsIURI.SchemeIs, hs]
    have e2 : (env.NS_NewURI aIceUrl).2.SchemeIs "turns" = false := by simp [nsIURI.SchemeIs, hs]
    simp only [e1, e2, Bool.or_self, Bool.false_eq_true, ↓reduceIte] at hRun
    split at hRun
    · simp only [Option.some.injEq, Prod.mk.injEq] at hRun
      rw [← hRun.1] at hOk; exact absurd hOk (by decide)
    · next server heq =>
      have hserver := NrIceStunServer_Create_some _ _ _ _ _ heq
      subst hserver
      simp only [Option.some.injEq, Prod.mk.injEq] at hRun
      exact ⟨_, _, Or.inl ⟨hs, hRun.2.2.symm, hRun.2.1.symm⟩⟩
  · have e1 : (env.NS_NewURI aIceUrl).2.SchemeIs "turn" = true := by simp [nsIURI.SchemeIs, hs]
    have e2 : (env.NS_NewURI aIceUrl).2.SchemeIs "turns" = false := by simp [nsIURI.SchemeIs, hs]
    simp only [e1, e2, Bool.or_false, Bool.or_self, Bool.false_eq_true, ↓reduceIte] at hRun
    split at hRun
    · simp only [Option.some.injEq, Prod.mk.injEq] at hRun
      rw [← hRun.1] at hOk; exact absurd hOk (by decide)
    · next server heq =>
      have hserver := NrIceTurnServer_Create_some _ _ _ _ _ _ _ heq
      subst hserver
      simp only [Option.some.injEq, Prod.mk.injEq] at hRun
      exact ⟨_, _, Or.inr (Or.inl ⟨hs, hRun.2.1.symm, hRun.2.2.symm⟩)⟩
  · have e1 : (env.NS_NewURI aIceUrl).2.SchemeIs "turn" = false := by simp [nsIURI.SchemeIs, hs]
    have e2 : (env.NS_NewURI aIceUrl).2.SchemeIs "turns" = true := by simp [nsIURI.SchemeIs, hs]
    simp only [e1, e2, Bool.or_true, Bool.or_self, ↓reduceIte] at hRun
    split at hRun
    · simp only [Option.some.injEq, Prod.mk.injEq] at hRun
      rw [← hRun.1] at hOk; exact absurd hOk (by decide)
    · next server heq =>
      have hserver := NrIceTurnServer_Create_some _ _ _ _ _ _ _ heq
      subst hserver
      simp only [Option.some.injEq, Prod.mk.injEq] at hRun
      exact ⟨_, _, Or.inr (Or.inr ⟨hs, hRun.2.1.symm, hRun.2.2.symm⟩)⟩

theorem rfindChar_lt_length (c : Char) :
    ∀ (s : List Char) (k : Nat), rfindChar c s = some k → k < s.length := by
  intro s
  induction s with
  | nil => intro k h; simp [rfindChar] at h
  | cons d s ih =>
    intro k h
    unfold rfindChar at h
    cases hr : rfindChar c s with
    | some j =>
      simp only [hr, Option.some.injEq] at h
      have := ih j hr
      simp only [List.length_cons]
      omega
    | none =>
      simp only [hr] at h
      split at h
      · simp only [Option.some.injEq] at h
        simp only [List.length_cons]
        omega
      · cases h

theorem rfindChar_append_not_mem (c : Char) (suffix : List Char) (h : c ∉ suffix) :
    ∀ s : List Char, rfindChar c (s ++ suffix) = rfindChar c s := by
  intro s
  induction s with
  | nil => simp [rfindChar, rfindChar_not_mem c suffix h]
  | cons d s ih => simp only [List.cons_append, rfindChar, List.append_eq, ih]

theorem ParseAuthority_no_colon (auth : List Char) (h : ':' ∉ auth) :
    (ParseAuthority auth).2.port = -1 := by
  unfold ParseAuthority
  simp only
  have hdrop : ∀ k, rfindChar ':' (auth.drop k) = none := by
    intro k
    apply rfindChar_not_mem
    intro hc
    exact h (List.mem_of_mem_drop hc)
  simp only [hdrop]

/-- An authority that ends in a colon and a port text without colon or `@` is
parsed with that port, or refused when the number does not fit 16 bits. -/
theorem ParseAuthority_explicit_port (hostText portText : List Char) (n : Nat)
    (hColon : ':' ∉ portText) (hAt : '@' ∉ portText) (hNonempty : portText ≠ [])
    (hPort : parsePort portText = some n) :
    (n ≤ 65535 → (ParseAuthority (hostText ++ ':' :: portText)).2.port = n) ∧
    (65535 < n → NS_FAILED (ParseAuthority (hostText ++ ':' :: portText)).1 = true) := by
  have hAt2 : '@' ∉ ':' :: portText := by
    simp only [List.mem_cons, not_or]
    exact ⟨by decide, hAt⟩
  have hPos : ∃ serverPos, serverPos ≤ hostText.length ∧
      (match rfindChar '@' (hostText ++ ':' :: portText) with
        | some k => k + 1
        | none => 0) = serverPos := by
    rw [rfindChar_append_not_mem '@' _ hAt2 hostText]
    cases hr : rfindChar '@' hostText with
    | none => exact ⟨0, Nat.zero_le _, rfl⟩
    | some k => exact ⟨k + 1, rfindChar_lt_length '@' hostText k hr, rfl⟩
  obtain ⟨serverPos, hle, hPosEq⟩ := hPos
  have hDrop : (hostText ++ ':' :: portText).drop serverPos =
      hostText.drop serverPos ++ ':' :: portText := List.drop_append_of_le_length hle
  have hFind : rfindChar ':' (hostText.drop serverPos ++ ':' :: portText) =
      some (hostText.drop serverPos).length :=
    rfindChar_append_exact ':' portText hColon _
  have hText : (hostText.drop serverPos ++ ':' :: portText).drop
      ((hostText.drop serverPos).length + 1) = portText := by
    rw [List.drop_append]
    rfl
  have hEmpty : portText.isEmpty = false := by
    cases portText with
    | nil => exact absurd rfl hNonempty
    | cons _ _ => rfl
  unfold ParseAuthority
  simp only [hPosEq, hDrop, hFind, hText, hEmpty, Bool.false_eq_true, ↓reduceIte, hPort]
  constructor
  · intro hn
    have : ¬ n > 65535 := by omega
    simp only [this, ↓reduceIte]
  · intro hn
    simp only [gt_iff_lt, hn, ↓reduceIte, NS_FAILED_NS_ERROR_MALFORMED_URI]

/-! ## Accepted ICE server URLs: claims -/

/-- C11. When `addNrIceServer` accepts a stun:, turn: or turns: URL it appends
one server to the list of its kind, and the port of that server is the port
written in the URL when there is one (the authority ends in a colon and a
number), and otherwise, when the parser reports no port, 3478 for stun and
turn and 5349 for turns; an authority without a colon has no port. -/
theorem add_ice_server_port_explicit_or_default (env : IceServerEnv) (aIceUrl : String)
    (aIceServer : RTCIceServer) (aStunServersOut stun1 : List NrIceStunServer)
    (aTurnServersOut turn1 : List NrIceTurnServer) (rv : nsresult)
    (hScheme : (env.NS_NewURI aIceUrl).2.scheme ∈ ["stun", "turn", "turns"])
    (hRun : addNrIceServer env aIceUrl aIceServer aStunServersOut aTurnServersOut =
      some (rv, stun1, turn1))
    (hOk : NS_FAILED rv = false) :
    ∃ port : Nat,
      (((env.NS_NewURI aIceUrl).2.scheme = "stun" ∧ turn1 = aTurnServersOut ∧
          ∃ server : NrIceStunServer, stun1 = aStunServersOut ++ [server] ∧ server.port = port) ∨
       (((env.NS_NewURI aIceUrl).2.scheme = "turn" ∨ (env.NS_NewURI aIceUrl).2.scheme = "turns") ∧
          stun1 = aStunServersOut ∧
          ∃ server : NrIceTurnServer, turn1 = aTurnServersOut ++ [server] ∧ server.port = port)) ∧
      (∀ (hostText portText : List Char) (n : Nat),
          authorityOf (env.NS_NewURI aIceUrl).2 = hostText ++ ':' :: portText →
          ':' ∉ portText → '@' ∉ portText → portText ≠ [] → parsePort portText = some n →
          port = n) ∧
      ((ParseAuthority (authorityOf (env.NS_NewURI aIceUrl).2)).2.port = -1 →
          port = if (env.NS_NewURI aIceUrl).2.scheme = "turns" then 5349 else 3478) ∧
      (':' ∉ authorityOf (env.NS_NewURI aIceUrl).2 →
          (ParseAuthority (authorityOf (env.NS_NewURI aIceUrl).2)).2.port = -1) := by
  obtain ⟨hparse, _, _, host, transport, hcase⟩ :=
    addNrIceServer_accepted env aIceUrl aIceServer aStunServersOut stun1 aTurnServersOut turn1 rv
      hScheme hRun hOk
  have hrange := ParseAuthority_port_range (authorityOf (env.NS_NewURI aIceUrl).2)
  have hexplicit : ∀ (dflt : Int) (hostText portText : List Char) (n : Nat),
      authorityOf (env.NS_NewURI aIceUrl).2 = hostText ++ ':' :: portText →
      ':' ∉ portText → '@' ∉ portText → portText ≠ [] → parsePort portText = some n →
      ((if (ParseAuthority (authorityOf (env.NS_NewURI aIceUrl).2)).2.port = -1 then dflt
        else (ParseAuthority (authorityOf (env.NS_NewURI aIceUrl).2)).2.port) % 65536).toNat = n := by
    intro dflt hostText portText n hform h1 h2 h3 h4
    obtain ⟨hsmall, hbig⟩ := ParseAuthority_explicit_port hostText portText n h1 h2 h3 h4
    rw [← hform] at hsmall hbig
    have hn : n ≤ 65535 := by
      by_contra hc
      rw [hbig (by omega)] at hparse
      cases hparse
    rw [hsmall hn]
    have hne : ¬ ((n : Int) = -1) := by omega
    simp only [hne, ↓reduceIte]
    omega
  have hdefault : ∀ dflt : Nat, dflt < 65536 →
      (ParseAuthority (authorityOf (env.NS_NewURI aIceUrl).2)).2.port = -1 →
      ((if (ParseAuthority (authorityOf (env.NS_NewURI aIceUrl).2)).2.port = -1 then (dflt : Int)
        else (ParseAuthority (authorityOf (env.NS_NewURI aIceUrl).2)).2.port) % 65536).toNat =
        dflt := by
    intro dflt hd h
    simp only [h, ↓reduceIte]
    omega
  rcases hcase with ⟨hs, ht, hst⟩ | ⟨hs, hst, ht⟩ | ⟨hs, hst, ht⟩
  · refine ⟨_, Or.inl ⟨hs, ht, _, hst, rfl⟩, hexplicit 3478, ?_, ParseAuthority_no_colon _⟩
    intro h
    have := hdefault 3478 (by decide) h
    simp only [hs, String.reduceEq, ↓reduceIte]
    exact this
  · refine ⟨_, Or.inr ⟨Or.inl hs, hst, _, ht, rfl⟩, hexplicit 3478, ?_, ParseAuthority_no_colon _⟩
    intro h
    have := hdefault 3478 (by decide) h
    simp only [hs, String.reduceEq, ↓reduceIte]
    exact this
  · refine ⟨_, Or.inr ⟨Or.inr hs, hst, _, ht, rfl⟩, hexplicit 5349, ?_, ParseAuthority_no_colon _⟩
    intro h
    have := hdefault 5349 (by decide) h
    simp only [hs, ↓reduceIte]
    exact this

theorem add_ice_server_port_explicit_or_default_witness :
    ((envSimple.NS_NewURI "stun:stun.example.com:3479").2.scheme ∈ ["stun", "turn", "turns"] ∧
      addNrIceServer envSimple "stun:stun.example.com:3479" {} [] [] =
        some (NS_OK, [{ host := "stun.example.com", port := 3479, transport := "udp" }], []) ∧
      NS_FAILED NS_OK = false) ∧
    (∃ port : Nat,
      (((envSimple.NS_NewURI "stun:stun.example.com:3479").2.scheme = "stun" ∧ ([] : List NrIceTurnServer) = ([] : List NrIceTurnServer) ∧
          ∃ server : NrIceStunServer, [({ host := "stun.example.com", port := 3479, transport := "udp" } : NrIceStunServer)] = ([] : List NrIceStunServer) ++ [server] ∧ server.port = port) ∨
       (((envSimple.NS_NewURI "stun:stun.example.com:3479").2.scheme = "turn" ∨ (envSimple.NS_NewURI "stun:stun.example.com:3479").2.scheme = "turns") ∧
          [({ host := "stun.example.com", port := 3479, transport := "udp" } : NrIceStunServer)] = ([] : List NrIceStunServer) ∧
          ∃ server : NrIceTurnServer, ([] : List NrIceTurnServer) = ([] : List NrIceTurnServer) ++ [server] ∧ server.port = port)) ∧
      (∀ (hostText portText : List Char) (n : Nat),
          authorityOf (envSimple.NS_NewURI "stun:stun.example.com:3479").2 = hostText ++ ':' :: portText →
          ':' ∉ portText → '@' ∉ portText → portText ≠ [] → parsePort portText = some n →
          port = n) ∧
      ((ParseAuthority (authorityOf (envSimple.NS_NewURI "stun:stun.example.com:3479").2)).2.port = -1 →
          port = if (envSimple.NS_NewURI "stun:stun.example.com:3479").2.scheme = "turns" then 5349 else 3478) ∧
      (':' ∉ authorityOf (envSimple.NS_NewURI "stun:stun.example.com:3479").2 →
          (ParseAuthority (authorityOf (envSimple.NS_NewURI "stun:stun.example.com:3479").2)).2.port = -1)) :=
  ⟨⟨by decide, by decide, by decide⟩,
   add_ice_server_port_explicit_or_default envSimple "stun:stun.example.com:3479" {} []
     [{ host := "stun.example.com", port := 3479, transport := "udp" }] [] [] NS_OK
     (by decide) (by decide) (by decide)⟩

/-- C12. For a URL that `NS_NewURI` accepts and whose scheme is stuns,
`addNrIceServer` returns `NS_OK` and hands back both server lists as it
received them. -/
theorem add_ice_server_stuns_adds_nothing (env : IceServerEnv) (aIceUrl : String)
    (aIceServer : RTCIceServer) (aStunServersOut : List NrIceStunServer)
    (aTurnServersOut : List NrIceTurnServer)
    (hUri : NS_FAILED (env.NS_NewURI aIceUrl).1 = false)
    (hScheme : (env.NS_NewURI aIceUrl).2.scheme = "stuns") :
    addNrIceServer env aIceUrl aIceServer aStunServersOut aTurnServersOut =
        some (NS_OK, aStunServersOut, aTurnServersOut) ∧
    NS_SUCCEEDED NS_OK = true := by
  refine ⟨?_, by decide⟩
  unfold addNrIceServer
  simp [hUri, nsIURI.SchemeIs, hScheme]

theorem add_ice_server_stuns_adds_nothing_witness :
    (NS_FAILED (envSimple.NS_NewURI "stuns:stun.example.org:5349").1 = false ∧
      (envSimple.NS_NewURI "stuns:stun.example.org:5349").2.scheme = "stuns") ∧
    addNrIceServer envSimple "stuns:stun.example.org:5349" {} [] [] = some (NS_OK, [], []) :=
  ⟨by decide,
   (add_ice_server_stuns_adds_nothing envSimple "stuns:stun.example.org:5349" {} [] []
     (by decide) (by decide)).1⟩

/-- C13 at a failing input: for `turn:turn.example.org?transport=tcp&foo=bar`
the TURN server is created with transport `tcp&foo=bar`, not `tcp`: the field
handed to the prefix test runs past the `&`. With the transport field last
the value is `tcp`. -/
theorem add_ice_server_transport_runs_past_ampersand :
    addNrIceServer envSimple "turn:turn.example.org?transport=tcp&foo=bar"
        { mUsername := "u", mCredential := "p" } [] [] =
      some (NS_OK, [],
        [{ host := "turn.example.org", port := 3478, username := "u", password := "p",
           transport := "tcp&foo=bar" }]) ∧
    addNrIceServer envSimple "turn:turn.example.org?foo=bar&transport=tcp"
        { mUsername := "u", mCredential := "p" } [] [] =
      some (NS_OK, [],
        [{ host := "turn.example.org", port := 3478, username := "u", password := "p",
           transport := "tcp" }]) := by
  constructor <;> decide

/-! ## Lemmas on the event relay -/

theorem foldl_append_singleton {α β : Type} (f : α → β) (items : List α) :
    ∀ acc : List β, items.foldl (fun posted x => posted ++ [f x]) acc = acc ++ items.map f := by
  induction items with
  | nil => intro acc; simp
  | cons x rest ih => intro acc; simp [ih]

theorem IceGatheringStateChange_s_complete (ctx : NrIceCtx) :
    IceGatheringStateChange_s ctx NrIceCtx.GatheringState.ICE_CTX_GATHER_COMPLETE =
      ctx.streams.map endOfCandidatesFor ++
        [MainRunnable.IceGatheringStateChange_m ctx.ctxId
          NrIceCtx.GatheringState.ICE_CTX_GATHER_COMPLETE] := by
  unfold IceGatheringStateChange_s
  simp only [↓reduceIte, NrIceCtx.GetStreams, EndOfLocalCandidates]
  congr 1
  exact foldl_append_singleton endOfCandidatesFor ctx.streams []

theorem IceGatheringStateChange_s_other (ctx : NrIceCtx) (state : NrIceCtx.GatheringState)
    (h : state ≠ NrIceCtx.GatheringState.ICE_CTX_GATHER_COMPLETE) :
    IceGatheringStateChange_s ctx state =
      [MainRunnable.IceGatheringStateChange_m ctx.ctxId state] := by
  unfold IceGatheringStateChange_s
  simp [h]

theorem gatheringStatesOf_append (a b : List MainRunnable) :
    gatheringStatesOf (a ++ b) = gatheringStatesOf a ++ gatheringStatesOf b := by
  induction a with
  | nil => rfl
  | cons r rest ih => cases r <;> simp [gatheringStatesOf, ih]

theorem gatheringStatesOf_endOfCandidates (streams : List NrIceMediaStream) :
    gatheringStatesOf (streams.map endOfCandidatesFor) = [] := by
  induction streams with
  | nil => rfl
  | cons s rest ih => simp [endOfCandidatesFor, gatheringStatesOf, ih]

theorem gatheringStatesOf_IceGatheringStateChange_s (ctx : NrIceCtx)
    (state : NrIceCtx.GatheringState) :
    gatheringStatesOf (IceGatheringStateChange_s ctx state) = [state] := by
  by_cases h : state = NrIceCtx.GatheringState.ICE_CTX_GATHER_COMPLETE
  · subst h
    rw [IceGatheringStateChange_s_complete, gatheringStatesOf_append,
      gatheringStatesOf_endOfCandidates]
    rfl
  · rw [IceGatheringStateChange_s_other ctx state h]
    rfl

/-! ## Event relay: claims -/

/-- C18. Given state Complete, `IceGatheringStateChange_s` posts one
end-of-candidates runnable per stream of the context, in stream order, each
with the stream's transport-id and the default candidates of components 1 and
2, and then the state change; given any other state it posts the state change
only. A component whose default lookup fails is reported with empty host and
port 0, one whose lookup succeeds with the candidate found. On the main thread
each end-of-candidates runnable ends in exactly one
`SignalEndOfLocalCandidates` for its transport-id. -/
theorem gathering_complete_posts_end_of_candidates_per_stream (ctx : NrIceCtx) :
    IceGatheringStateChange_s ctx NrIceCtx.GatheringState.ICE_CTX_GATHER_COMPLETE =
        ctx.GetStreams.map endOfCandidatesFor ++
          [MainRunnable.IceGatheringStateChange_m ctx.ctxId
            NrIceCtx.GatheringState.ICE_CTX_GATHER_COMPLETE] ∧
    (∀ state, state ≠ NrIceCtx.GatheringState.ICE_CTX_GATHER_COMPLETE →
        IceGatheringStateChange_s ctx state =
          [MainRunnable.IceGatheringStateChange_m ctx.ctxId state]) ∧
    (∀ stream : NrIceMediaStream,
        (NS_FAILED (stream.GetDefaultCandidate 1 {}).1 = true →
          (GetDefaultCandidates stream {} {}).1.cand_addr.host = "" ∧
          (GetDefaultCandidates stream {} {}).1.cand_addr.port = 0) ∧
        (NS_FAILED (stream.GetDefaultCandidate 1 {}).1 = false →
          (GetDefaultCandidates stream {} {}).1 = (stream.GetDefaultCandidate 1 {}).2) ∧
        (NS_FAILED (stream.GetDefaultCandidate 2 {}).1 = true →
          (GetDefaultCandidates stream {} {}).2.cand_addr.host = "" ∧
          (GetDefaultCandidates stream {} {}).2.cand_addr.port = 0) ∧
        (NS_FAILED (stream.GetDefaultCandidate 2 {}).1 = false →
          (GetDefaultCandidates stream {} {}).2 = (stream.GetDefaultCandidate 2 {}).2)) ∧
    (∀ (pcm : PeerConnectionMedia) (stream : NrIceMediaStream),
        ∃ before : List PCMSignal,
          (pcm.runMain (endOfCandidatesFor stream)).mainSignals =
            pcm.mainSignals ++ before ++ [PCMSignal.SignalEndOfLocalCandidates stream.id] ∧
          ∀ id, PCMSignal.SignalEndOfLocalCandidates id ∉ before) := by
  refine ⟨IceGatheringStateChange_s_complete ctx, IceGatheringStateChange_s_other ctx, ?_, ?_⟩
  · intro stream
    refine ⟨?_, ?_, ?_, ?_⟩ <;> intro h <;> simp [GetDefaultCandidates, h]
  · intro pcm stream
    unfold endOfCandidatesFor
    simp only [runMain, PeerConnectionMedia.EndOfLocalCandidates_m, emit]
    split
    · exact ⟨[PCMSignal.SignalUpdateDefaultCandidate
          (GetDefaultCandidates stream {} {}).1.cand_addr.host
          (GetDefaultCandidates stream {} {}).1.cand_addr.port
          (GetDefaultCandidates stream {} {}).2.cand_addr.host
          (GetDefaultCandidates stream {} {}).2.cand_addr.port stream.id], by simp, by simp⟩
    · exact ⟨[], by simp, by simp⟩

theorem deliverConnectionStates_eq (ctx : NrIceCtx) (events : List NrIceCtx.ConnectionState)
    (h : ctx.connectionSignalConnected = true) :
    deliverConnectionStates ctx events =
      events.map (MainRunnable.IceConnectionStateChange_m ctx.ctxId) := by
  unfold deliverConnectionStates
  simp only [h, ↓reduceIte, IceConnectionStateChange_s]
  exact foldl_append_singleton (MainRunnable.IceConnectionStateChange_m ctx.ctxId) events []

theorem foldl_append_lists {α β : Type} (f : α → List β) (items : List α) :
    ∀ acc : List β,
      items.foldl (fun posted x => posted ++ f x) acc = acc ++ (items.map f).flatten := by
  induction items with
  | nil => intro acc; simp
  | cons x rest ih => intro acc; simp [ih]

theorem gatheringStatesOf_flatten (ctx : NrIceCtx) (events : List NrIceCtx.GatheringState) :
    gatheringStatesOf ((events.map (IceGatheringStateChange_s ctx)).flatten) = events := by
  induction events with
  | nil => rfl
  | cons e rest ih =>
    simp only [List.map_cons, List.flatten_cons, gatheringStatesOf_append,
      gatheringStatesOf_IceGatheringStateChange_s, ih, List.singleton_append]

theorem gatheringStatesOf_deliver (ctx : NrIceCtx) (events : List NrIceCtx.GatheringState)
    (h : ctx.gatheringSignalConnected = true) :
    gatheringStatesOf (deliverGatheringStates ctx events) = events := by
  unfold deliverGatheringStates
  simp only [h, ↓reduceIte]
  rw [foldl_append_lists (IceGatheringStateChange_s ctx) events []]
  simpa using gatheringStatesOf_flatten ctx events

/-- C19 as stated fails: the relay keeps no previous state. The same
connection state delivered twice is forwarded twice and signalled twice, and
the initial states are forwarded like any other. -/
theorem relay_forwards_repeated_and_initial_states :
    deliverConnectionStates ctxConnected
        [NrIceCtx.ConnectionState.ICE_CTX_CHECKING, NrIceCtx.ConnectionState.ICE_CTX_CHECKING] =
      [MainRunnable.IceConnectionStateChange_m 1 NrIceCtx.ConnectionState.ICE_CTX_CHECKING,
       MainRunnable.IceConnectionStateChange_m 1 NrIceCtx.ConnectionState.ICE_CTX_CHECKING] ∧
    ((deliverConnectionStates ctxConnected
        [NrIceCtx.ConnectionState.ICE_CTX_CHECKING,
         NrIceCtx.ConnectionState.ICE_CTX_CHECKING]).foldl runMain pcmWithIdentity).mainSignals =
      [PCMSignal.SignalIceConnectionStateChange PCImplIceConnectionState.Checking,
       PCMSignal.SignalIceConnectionStateChange PCImplIceConnectionState.Checking] ∧
    deliverConnectionStates ctxConnected [NrIceCtx.ConnectionState.ICE_CTX_INIT] =
      [MainRunnable.IceConnectionStateChange_m 1 NrIceCtx.ConnectionState.ICE_CTX_INIT] ∧
    deliverGatheringStates ctxConnected [NrIceCtx.GatheringState.ICE_CTX_GATHER_INIT] =
      [MainRunnable.IceGatheringStateChange_m 1 NrIceCtx.GatheringState.ICE_CTX_GATHER_INIT] := by
  decide

/-- C19, amended. Every connection-state and gathering-state event delivered
to `IceConnectionStateChange_s` and `IceGatheringStateChange_s` is forwarded to
the main thread, once and in the order delivered, whatever the state before
it and whether or not it is an initial state; on the main thread each forwarded
state is signalled once as the corresponding DOM state. -/
theorem relay_forwards_every_delivered_state (ctx : NrIceCtx)
    (hConnected : ctx.connectionSignalConnected = true ∧ ctx.gatheringSignalConnected = true)
    (connectionEvents : List NrIceCtx.ConnectionState)
    (gatheringEvents : List NrIceCtx.GatheringState) :
    deliverConnectionStates ctx connectionEvents =
        connectionEvents.map (MainRunnable.IceConnectionStateChange_m ctx.ctxId) ∧
    gatheringStatesOf (deliverGatheringStates ctx gatheringEvents) = gatheringEvents ∧
    (∀ (pcm : PeerConnectionMedia) (id : Nat) (state : NrIceCtx.ConnectionState),
        (pcm.runMain (MainRunnable.IceConnectionStateChange_m id state)).mainSignals =
          pcm.mainSignals ++
            [PCMSignal.SignalIceConnectionStateChange (toDomIceConnectionState state)]) ∧
    (∀ (pcm : PeerConnectionMedia) (id : Nat) (state : NrIceCtx.GatheringState),
        (pcm.runMain (MainRunnable.IceGatheringStateChange_m id state)).mainSignals =
          pcm.mainSignals ++
            [PCMSignal.SignalIceGatheringStateChange (toDomIceGatheringState state)]) :=
  ⟨deliverConnectionStates_eq ctx connectionEvents hConnected.1,
   gatheringStatesOf_deliver ctx gatheringEvents hConnected.2,
   fun _ _ _ => rfl, fun _ _ _ => rfl⟩

theorem relay_forwards_every_delivered_state_witness :
    (ctxConnected.connectionSignalConnected = true ∧
      ctxConnected.gatheringSignalConnected = true) ∧
    deliverConnectionStates ctxConnected
        [NrIceCtx.ConnectionState.ICE_CTX_CHECKING, NrIceCtx.ConnectionState.ICE_CTX_CONNECTED] =
      [NrIceCtx.ConnectionState.ICE_CTX_CHECKING, NrIceCtx.ConnectionState.ICE_CTX_CONNECTED].map
        (MainRunnable.IceConnectionStateChange_m ctxConnected.ctxId) ∧
    gatheringStatesOf (deliverGatheringStates ctxConnected
        [NrIceCtx.GatheringState.ICE_CTX_GATHER_STARTED,
         NrIceCtx.GatheringState.ICE_CTX_GATHER_COMPLETE]) =
      [NrIceCtx.GatheringState.ICE_CTX_GATHER_STARTED,
       NrIceCtx.GatheringState.ICE_CTX_GATHER_COMPLETE] :=
  have h := relay_forwards_every_delivered_state ctxConnected ⟨by decide, by decide⟩
    [NrIceCtx.ConnectionState.ICE_CTX_CHECKING, NrIceCtx.ConnectionState.ICE_CTX_CONNECTED]
    [NrIceCtx.GatheringState.ICE_CTX_GATHER_STARTED,
     NrIceCtx.GatheringState.ICE_CTX_GATHER_COMPLETE]
  ⟨by decide, h.1, h.2.1⟩

/-- C20 as stated fails: for a stream without a default candidate for
component 1 the observers receive the candidate line and nothing else. -/
theorem candidate_found_without_default_sends_no_default_pair :
    OnCandidateFound_s true streamNoDefault "candidate:0 1 UDP 9 192.0.2.1 5000 typ host" =
      some [MainRunnable.OnCandidateFound_m "candidate:0 1 UDP 9 192.0.2.1 5000 typ host"
        "" 0 "" 0 "B"] ∧
    (pcmWithIdentity.runMain
        (MainRunnable.OnCandidateFound_m "candidate:0 1 UDP 9 192.0.2.1 5000 typ host"
          "" 0 "" 0 "B")).mainSignals =
      [PCMSignal.SignalCandidate "candidate:0 1 UDP 9 192.0.2.1 5000 typ host" "B"] := by
  decide

/-- C20, amended. For every candidate-found event handled by
`OnCandidateFound_s` and `OnCandidateFound_m` the observers receive the raw
candidate line with its transport-id, and before it, when the default address
computed for the stream is not empty, the current default-candidate pair for
that transport-id; nothing is compared with an earlier default pair. -/
theorem candidate_found_sends_line_and_nonempty_default (pcm : PeerConnectionMedia)
    (aStream : NrIceMediaStream) (aCandidateLine : String) :
    OnCandidateFound_s true aStream aCandidateLine =
      some [MainRunnable.OnCandidateFound_m aCandidateLine
        (GetDefaultCandidates aStream {} {}).1.cand_addr.host
        (GetDefaultCandidates aStream {} {}).1.cand_addr.port
        (GetDefaultCandidates aStream {} {}).2.cand_addr.host
        (GetDefaultCandidates aStream {} {}).2.cand_addr.port aStream.id] ∧
    ((GetDefaultCandidates aStream {} {}).1.cand_addr.host.isEmpty = false →
      (pcm.runMain (MainRunnable.OnCandidateFound_m aCandidateLine
          (GetDefaultCandidates aStream {} {}).1.cand_addr.host
          (GetDefaultCandidates aStream {} {}).1.cand_addr.port
          (GetDefaultCandidates aStream {} {}).2.cand_addr.host
          (GetDefaultCandidates aStream {} {}).2.cand_addr.port aStream.id)).mainSignals =
        pcm.mainSignals ++
          [PCMSignal.SignalUpdateDefaultCandidate
            (GetDefaultCandidates aStream {} {}).1.cand_addr.host
            (GetDefaultCandidates aStream {} {}).1.cand_addr.port
            (GetDefaultCandidates aStream {} {}).2.cand_addr.host
            (GetDefaultCandidates aStream {} {}).2.cand_addr.port aStream.id,
           PCMSignal.SignalCandidate aCandidateLine aStream.id]) ∧
    ((GetDefaultCandidates aStream {} {}).1.cand_addr.host.isEmpty = true →
      (pcm.runMain (MainRunnable.OnCandidateFound_m aCandidateLine
          (GetDefaultCandidates aStream {} {}).1.cand_addr.host
          (GetDefaultCandidates aStream {} {}).1.cand_addr.port
          (GetDefaultCandidates aStream {} {}).2.cand_addr.host
          (GetDefaultCandidates aStream {} {}).2.cand_addr.port aStream.id)).mainSignals =
        pcm.mainSignals ++ [PCMSignal.SignalCandidate aCandidateLine aStream.id]) := by
  refine ⟨rfl, ?_, ?_⟩
  · intro h
    simp [runMain, PeerConnectionMedia.OnCandidateFound_m, emit, h]
  · intro h
    simp [runMain, PeerConnectionMedia.OnCandidateFound_m, emit, h]

/-! ## Gathering: claims -/

/-- C15 as stated fails: in a content process that received no STUN addresses,
with gathering not restricted to a proxy, `EnsureIceGathering_s` on a context
without streams returns without reporting anything. -/
theorem ensure_gathering_no_streams_no_addrs_reports_nothing :
    ctxConnected.GetStreams = [] ∧
    EnsureIceGathering_s true pcmNoAddrs ctxConnected false false = (ctxConnected, []) := by
  decide

/-- C15, amended. `EnsureIceGathering_s` starts no gathering and reports
Complete at once when `aProxyOnly` is set and no proxy was discovered; it does
the same when the context has no streams, unless it is in a content process
that received no STUN addresses, in which case it returns earlier, starting no
gathering and reporting nothing. -/
theorem ensure_gathering_reports_complete_without_gathering (isContentProcess : Bool)
    (pcm : PeerConnectionMedia) (mIceCtx : NrIceCtx) (aDefaultRouteOnly aProxyOnly : Bool) :
    (pcm.mProxyServer = none → aProxyOnly = true →
      EnsureIceGathering_s isContentProcess pcm mIceCtx aDefaultRouteOnly aProxyOnly =
        (mIceCtx,
          IceGatheringStateChange_s mIceCtx NrIceCtx.GatheringState.ICE_CTX_GATHER_COMPLETE)) ∧
    (mIceCtx.streams = [] → ¬ (pcm.mStunAddrs = [] ∧ isContentProcess = true) →
      gatheringStatesOf
          (EnsureIceGathering_s isContentProcess pcm mIceCtx aDefaultRouteOnly aProxyOnly).2 =
        [NrIceCtx.GatheringState.ICE_CTX_GATHER_COMPLETE] ∧
      (EnsureIceGathering_s isContentProcess pcm mIceCtx aDefaultRouteOnly
          aProxyOnly).1.gatheringStarted = mIceCtx.gatheringStarted ∧
      (EnsureIceGathering_s isContentProcess pcm mIceCtx aDefaultRouteOnly
          aProxyOnly).1.gatheringState = mIceCtx.gatheringState) ∧
    (¬ (pcm.mProxyServer = none ∧ aProxyOnly = true) →
      pcm.mStunAddrs = [] → isContentProcess = true →
      (EnsureIceGathering_s isContentProcess pcm mIceCtx aDefaultRouteOnly aProxyOnly).2 = [] ∧
      (EnsureIceGathering_s isContentProcess pcm mIceCtx aDefaultRouteOnly
          aProxyOnly).1.gatheringStarted = mIceCtx.gatheringStarted ∧
      (EnsureIceGathering_s isContentProcess pcm mIceCtx aDefaultRouteOnly
          aProxyOnly).1.gatheringState = mIceCtx.gatheringState) := by
  refine ⟨?_, ?_, ?_⟩
  · intro hp ha
    simp [EnsureIceGathering_s, hp, ha]
  · intro hs hguard
    have hlen : ¬ (pcm.mStunAddrs.length = 0 ∧ isContentProcess = true) := by
      rintro ⟨h1, h2⟩
      exact hguard ⟨List.length_eq_zero.mp h1, h2⟩
    have hc : (decide (pcm.mStunAddrs.length = 0) && isContentProcess) = false := by
      cases isContentProcess <;> simp_all
    unfold EnsureIceGathering_s
    cases hp : pcm.mProxyServer with
    | none =>
      cases aProxyOnly with
      | true =>
        simp only [↓reduceIte, gatheringStatesOf_IceGatheringStateChange_s, and_self]
      | false =>
        simp only [Bool.false_eq_true, ↓reduceIte, hc, NrIceCtx.GetStreams]
        split <;>
          simp [NrIceCtx.SetCtxFlags, NrIceCtx.SetStunAddrs, hs,
            gatheringStatesOf_IceGatheringStateChange_s]
    | some proxy =>
      simp only [hc, Bool.false_eq_true, ↓reduceIte, NrIceCtx.GetStreams]
      split <;>
        simp [NrIceCtx.SetCtxFlags, NrIceCtx.SetStunAddrs, NrIceCtx.SetProxyServer, hs,
          gatheringStatesOf_IceGatheringStateChange_s]
  · intro hnot haddrs hcontent
    unfold EnsureIceGathering_s
    cases hp : pcm.mProxyServer with
    | none =>
      have ha : aProxyOnly = false := by
        cases aProxyOnly with
        | false => rfl
        | true => exact absurd ⟨hp, rfl⟩ hnot
      simp [ha, haddrs, hcontent]
    | some proxy =>
      simp [haddrs, hcontent, NrIceCtx.SetProxyServer]

/-! ## Component disabling: claims -/

theorem foldl_DisableComponent (components : List Nat) :
    ∀ stream : NrIceMediaStream,
      components.foldl (fun s c => s.DisableComponent (c + 1)) stream =
        { stream with disabledComponents :=
            stream.disabledComponents ++ components.map (fun c => c + 1) } := by
  induction components with
  | nil => intro stream; simp
  | cons c rest ih =>
    intro stream
    rw [List.foldl_cons, ih]
    simp [NrIceMediaStream.DisableComponent]

theorem map_succ_range' (count : Nat) :
    ∀ start : Nat, (List.range' start count).map (fun c => c + 1) = List.range' (start + 1) count := by
  induction count with
  | zero => intro start; rfl
  | succ n ih => intro start; simp [List.range'_succ, ih]

theorem ConnectToPeer_frame (stream : NrIceMediaStream) (parse : List String → nsresult)
    (ufrag pwd : String) (attrs : List String) :
    (stream.ConnectToPeer parse ufrag pwd attrs).2.id = stream.id ∧
    (stream.ConnectToPeer parse ufrag pwd attrs).2.components = stream.components ∧
    (stream.ConnectToPeer parse ufrag pwd attrs).2.disabledComponents =
      stream.disabledComponents := by
  cases h : NS_FAILED (parse attrs) <;> simp [NrIceMediaStream.ConnectToPeer, h]

/-- C16. For a stream with n components, `ActivateTransport_s` with component
count k disables the components k+1, ..., n, in that order, and no other: the
components recorded as disabled grow by exactly that list, which holds the
indices above k up to n. With k = 1 and n = 2 only component 2 is disabled. -/
theorem activate_transport_disables_components_beyond_count
    (parse : List String → nsresult) (mIceCtx : NrIceCtx)
    (aTransportId aLocalUfrag aLocalPwd : String) (aComponentCount : Nat)
    (aUfrag aPassword : String) (aCandidateList : List String) (stream : NrIceMediaStream)
    (hStream : mIceCtx.GetStream aTransportId = some stream) :
    (∃ stream1,
      (ActivateTransport_s parse mIceCtx aTransportId aLocalUfrag aLocalPwd aComponentCount
          aUfrag aPassword aCandidateList).GetStream aTransportId = some stream1 ∧
      stream1.disabledComponents =
        stream.disabledComponents ++
          List.range' (aComponentCount + 1) (stream.components - aComponentCount)) ∧
    (∀ c, c ∈ List.range' (aComponentCount + 1) (stream.components - aComponentCount) ↔
        aComponentCount + 1 ≤ c ∧ c ≤ stream.components) ∧
    (aComponentCount = 1 → stream.components = 2 →
      List.range' (aComponentCount + 1) (stream.components - aComponentCount) = [2]) := by
  obtain ⟨hid, _⟩ := GetStream_some_mem mIceCtx aTransportId stream hStream
  obtain ⟨f1, f2, f3⟩ := ConnectToPeer_frame stream parse aLocalUfrag aLocalPwd
    (peerAttributes aUfrag aPassword aCandidateList)
  refine ⟨?_, ?_, ?_⟩
  · have key : ∀ S : NrIceMediaStream, S.id = aTransportId →
        (mIceCtx.store S).GetStream aTransportId = some S := by
      intro S hS
      have h := GetStream_store mIceCtx S
      rw [hS, hStream] at h
      simpa using h
    unfold ActivateTransport_s
    simp only [hStream, foldl_DisableComponent, map_succ_range']
    refine ⟨_, key _ (f1.trans hid), ?_⟩
    simp only [f2, f3]
  · intro c
    simp only [List.mem_range'_1]
    omega
  · intro hk hn
    rw [hk, hn]
    rfl

theorem activate_transport_disables_components_beyond_count_witness :
    ctxOneStream.GetStream "A" =
      some { object := 0, id := "A", name := "pc transport-id=A", components := 2 } ∧
    (∃ stream1,
      (ActivateTransport_s (fun _ => NS_OK) ctxOneStream "A" "lu" "lp" 1 "ru" "rp"
          []).GetStream "A" = some stream1 ∧
      stream1.disabledComponents = [] ++ List.range' (1 + 1) (2 - 1)) :=
  ⟨by decide,
   (activate_transport_disables_components_beyond_count (fun _ => NS_OK) ctxOneStream "A" "lu"
      "lp" 1 "ru" "rp" [] { object := 0, id := "A", name := "pc transport-id=A", components := 2 }
      (by decide)).1⟩

/-! ## Gathering order: claims -/

theorem EnsureTransport_s_gatheringState (mParentName : String) (ctx : NrIceCtx)
    (aTransportId aUfrag aPwd : String) (aComponentCount : Nat) :
    (EnsureTransport_s mParentName ctx aTransportId aUfrag aPwd aComponentCount).gatheringState
      = ctx.gatheringState := by
  have hc : (ctx.CreateStream aTransportId
      (mParentName ++ " transport-id=" ++ aTransportId) aComponentCount).2.gatheringState
        = ctx.gatheringState := by
    unfold NrIceCtx.CreateStream
    split <;> rfl
  unfold EnsureTransport_s
  split
  · rfl
  · split
    · rfl
    · next stream ctx1 heq =>
      rw [heq] at hc
      exact hc

theorem foldl_DestroyStream_gatheringState (aIds : List String)
    (streams : List NrIceMediaStream) (ctx : NrIceCtx) :
    (streams.foldl
      (fun ctx stream => if !(aIds.contains stream.id) then ctx.DestroyStream stream.id else ctx)
      ctx).gatheringState = ctx.gatheringState := by
  induction streams generalizing ctx with
  | nil => rfl
  | cons s rest ih =>
    rw [List.foldl_cons, ih]
    split <;> rfl

theorem RemoveTransportsExcept_s_gatheringState (ctx : NrIceCtx) (aIds : List String) :
    (RemoveTransportsExcept_s ctx aIds).gatheringState = ctx.gatheringState :=
  foldl_DestroyStream_gatheringState aIds ctx.GetStreams ctx

theorem SetGatheringState_of_complete (ctx : NrIceCtx) (state : NrIceCtx.GatheringState)
    (h : ctx.gatheringState = NrIceCtx.GatheringState.ICE_CTX_GATHER_COMPLETE) :
    ctx.SetGatheringState state = (ctx, []) := by
  unfold NrIceCtx.SetGatheringState
  rw [h]
  cases state <;> simp [NrIceCtx.GatheringState.rank]

theorem StartGathering_of_complete (ctx : NrIceCtx) (a b : Bool)
    (h : ctx.gatheringState = NrIceCtx.GatheringState.ICE_CTX_GATHER_COMPLETE) :
    (ctx.StartGathering a b).1.gatheringState = NrIceCtx.GatheringState.ICE_CTX_GATHER_COMPLETE ∧
      (ctx.StartGathering a b).2 = [] := by
  unfold NrIceCtx.StartGathering
  simp only
  rw [SetGatheringState_of_complete _ _ (by exact h)]
  exact ⟨h, rfl⟩

theorem deliverGatheringStates_nil (ctx : NrIceCtx) :
    deliverGatheringStates ctx [] = [] := by
  unfold deliverGatheringStates
  split <;> rfl

theorem EnsureIceGathering_s_of_complete (isContentProcess : Bool) (pcm : PeerConnectionMedia)
    (ctx : NrIceCtx) (a b : Bool)
    (h : ctx.gatheringState = NrIceCtx.GatheringState.ICE_CTX_GATHER_COMPLETE) :
    (EnsureIceGathering_s isContentProcess pcm ctx a b).1.gatheringState
        = NrIceCtx.GatheringState.ICE_CTX_GATHER_COMPLETE ∧
      NrIceCtx.GatheringState.ICE_CTX_GATHER_STARTED ∉
        gatheringStatesOf (EnsureIceGathering_s isContentProcess pcm ctx a b).2 := by
  have after : ∀ ctx1 : NrIceCtx,
      ctx1.gatheringState = NrIceCtx.GatheringState.ICE_CTX_GATHER_COMPLETE →
      ∀ r : NrIceCtx × List MainRunnable,
      r = (if pcm.mStunAddrs.length = 0 && isContentProcess then (ctx1, [])
        else
          if !(if pcm.mStunAddrs.length ≠ 0 then (ctx1.SetCtxFlags a b).SetStunAddrs pcm.mStunAddrs
                else ctx1.SetCtxFlags a b).GetStreams.isEmpty then
            (((if pcm.mStunAddrs.length ≠ 0 then (ctx1.SetCtxFlags a b).SetStunAddrs pcm.mStunAddrs
                else ctx1.SetCtxFlags a b).StartGathering a b).1,
             deliverGatheringStates
              ((if pcm.mStunAddrs.length ≠ 0 then (ctx1.SetCtxFlags a b).SetStunAddrs pcm.mStunAddrs
                else ctx1.SetCtxFlags a b).StartGathering a b).1
              ((if pcm.mStunAddrs.length ≠ 0 then (ctx1.SetCtxFlags a b).SetStunAddrs pcm.mStunAddrs
                else ctx1.SetCtxFlags a b).StartGathering a b).2)
          else ((if pcm.mStunAddrs.length ≠ 0 then (ctx1.SetCtxFlags a b).SetStunAddrs pcm.mStunAddrs
                else ctx1.SetCtxFlags a b),
                IceGatheringStateChange_s
                  (if pcm.mStunAddrs.length ≠ 0 then
                    (ctx1.SetCtxFlags a b).SetStunAddrs pcm.mStunAddrs
                   else ctx1.SetCtxFlags a b)
                  NrIceCtx.GatheringState.ICE_CTX_GATHER_COMPLETE)) →
      r.1.gatheringState = NrIceCtx.GatheringState.ICE_CTX_GATHER_COMPLETE ∧
        NrIceCtx.GatheringState.ICE_CTX_GATHER_STARTED ∉ gatheringStatesOf r.2 := by
    intro ctx1 h1 r hr
    have h3 : (if pcm.mStunAddrs.length ≠ 0 then
          (ctx1.SetCtxFlags a b).SetStunAddrs pcm.mStunAddrs
        else ctx1.SetCtxFlags a b).gatheringState
          = NrIceCtx.GatheringState.ICE_CTX_GATHER_COMPLETE := by
      split <;> exact h1
    have hsg := StartGathering_of_complete _ a b h3
    subst hr
    by_cases hc : (pcm.mStunAddrs.length = 0 && isContentProcess) = true
    · rw [if_pos hc]
      exact ⟨h1, by simp [gatheringStatesOf]⟩
    · rw [if_neg hc]
      by_cases hs : (!(if pcm.mStunAddrs.length ≠ 0 then
          (ctx1.SetCtxFlags a b).SetStunAddrs pcm.mStunAddrs
        else ctx1.SetCtxFlags a b).GetStreams.isEmpty) = true
      · rw [if_pos hs]
        refine ⟨hsg.1, ?_⟩
        show _ ∉ gatheringStatesOf (deliverGatheringStates _ _)
        rw [hsg.2, deliverGatheringStates_nil]
        simp [gatheringStatesOf]
      · rw [if_neg hs]
        refine ⟨h3, ?_⟩
        show _ ∉ gatheringStatesOf (IceGatheringStateChange_s _ _)
        rw [gatheringStatesOf_IceGatheringStateChange_s]
        simp
  unfold EnsureIceGathering_s
  cases hp : pcm.mProxyServer with
  | some proxy =>
    exact after (ctx.SetProxyServer proxy) h _ rfl
  | none =>
    cases b with
    | true =>
      refine ⟨h, ?_⟩
      simp only [↓reduceIte]
      rw [gatheringStatesOf_IceGatheringStateChange_s]
      simp
    | false =>
      exact after ctx h _ rfl

theorem GatheringRun_step_of_complete (s : GatheringRun) (e : GatheringEvent)
    (h : s.mIceCtx.gatheringState = NrIceCtx.GatheringState.ICE_CTX_GATHER_COMPLETE) :
    (s.step e).mIceCtx.gatheringState = NrIceCtx.GatheringState.ICE_CTX_GATHER_COMPLETE ∧
      ∃ extra, (s.step e).mainThread = s.mainThread ++ extra ∧
        NrIceCtx.GatheringState.ICE_CTX_GATHER_STARTED ∉ gatheringStatesOf extra := by
  cases e with
  | ensureTransport aTransportId aUfrag aPwd aComponentCount =>
    refine ⟨?_, [], by simp [GatheringRun.step], by simp [gatheringStatesOf]⟩
    simp only [GatheringRun.step]
    rw [EnsureTransport_s_gatheringState]
    exact h
  | removeTransportsExcept aIds =>
    refine ⟨?_, [], by simp [GatheringRun.step], by simp [gatheringStatesOf]⟩
    simp only [GatheringRun.step]
    rw [RemoveTransportsExcept_s_gatheringState]
    exact h
  | ensureIceGathering a b =>
    have hE := EnsureIceGathering_s_of_complete s.isContentProcess s.pcm s.mIceCtx a b h
    exact ⟨hE.1, _, rfl, hE.2⟩
  | engineSetsState state =>
    simp only [GatheringRun.step]
    rw [SetGatheringState_of_complete _ state h]
    exact ⟨h, [], by simp [deliverGatheringStates_nil], by simp [gatheringStatesOf]⟩

theorem GatheringRun_run_of_complete (events : List GatheringEvent) (s : GatheringRun)
    (h : s.mIceCtx.gatheringState = NrIceCtx.GatheringState.ICE_CTX_GATHER_COMPLETE) :
    (s.run events).mIceCtx.gatheringState = NrIceCtx.GatheringState.ICE_CTX_GATHER_COMPLETE ∧
      ∃ extra, (s.run events).mainThread = s.mainThread ++ extra ∧
        NrIceCtx.GatheringState.ICE_CTX_GATHER_STARTED ∉ gatheringStatesOf extra := by
  induction events generalizing s with
  | nil => exact ⟨h, [], by simp [GatheringRun.run], by simp [gatheringStatesOf]⟩
  | cons e rest ih =>
    obtain ⟨h1, x1, hx1, hn1⟩ := GatheringRun_step_of_complete s e h
    obtain ⟨h2, x2, hx2, hn2⟩ := ih (s.step e) h1
    refine ⟨h2, x1 ++ x2, ?_, ?_⟩
    · show ((s.step e).run rest).mainThread = _
      rw [hx2, hx1, List.append_assoc]
    · rw [gatheringStatesOf_append]
      simp only [List.mem_append, not_or]
      exact ⟨hn1, hn2⟩

/-- C17 as stated fails: a Complete reported directly by `EnsureIceGathering_s`
on a context without streams is followed, once a stream exists and gathering
starts, by Gathering for the same context. -/
theorem gathering_reported_after_direct_complete :
    gatheringStatesOf (gatheringStart.run gatheringAfterRollback).mainThread =
      [NrIceCtx.GatheringState.ICE_CTX_GATHER_COMPLETE,
       NrIceCtx.GatheringState.ICE_CTX_GATHER_STARTED] := by
  decide

/-- C17, amended: once the engine of an ICE context has itself reached
Complete, no sequence of transport updates, gathering requests and engine
state moves makes `PeerConnectionMedia` report Gathering for that context
again; the runnables posted before stay as they were and the engine stays in
Complete. -/
theorem gathering_never_reported_after_engine_complete (s : GatheringRun)
    (events : List GatheringEvent)
    (h : s.mIceCtx.gatheringState = NrIceCtx.GatheringState.ICE_CTX_GATHER_COMPLETE) :
    (s.run events).mIceCtx.gatheringState = NrIceCtx.GatheringState.ICE_CTX_GATHER_COMPLETE ∧
      ∃ extra, (s.run events).mainThread = s.mainThread ++ extra ∧
        NrIceCtx.GatheringState.ICE_CTX_GATHER_STARTED ∉ gatheringStatesOf extra :=
  GatheringRun_run_of_complete events s h

/-- Witness for C17: the finished context taken through a gathering request
without streams, a new transport and a second gathering request. -/
theorem gathering_never_reported_after_engine_complete_witness :
    gatheringDone.mIceCtx.gatheringState = NrIceCtx.GatheringState.ICE_CTX_GATHER_COMPLETE ∧
    ((gatheringDone.run gatheringAfterRollback).mIceCtx.gatheringState
        = NrIceCtx.GatheringState.ICE_CTX_GATHER_COMPLETE ∧
      ∃ extra, (gatheringDone.run gatheringAfterRollback).mainThread
          = gatheringDone.mainThread ++ extra ∧
        NrIceCtx.GatheringState.ICE_CTX_GATHER_STARTED ∉ gatheringStatesOf extra) :=
  ⟨rfl, gathering_never_reported_after_engine_complete gatheringDone gatheringAfterRollback rfl⟩

/-! ## Initialisation: lemmas -/

/-- With every outside call succeeding, a stun: URL followed by an http: URL
makes `Init` return the failure of the second call, after two calls of
`addNrIceServer`, with a context that has no server list and no slot
connected. -/
theorem Init_configRejected :
    PeerConnectionMedia.Init envInit { mParentName := "pc" } configRejected =
      some { rv := NS_ERROR_FAILURE,
             pcm := { mParentName := "pc", mProxyRequest := true, mLocalAddrsCompleted := true,
                      mIceCtx := some { name := "PC:pc" } },
             calls := [("stun:stun.example.com", NS_OK), ("http://example.com", NS_ERROR_FAILURE)] } := by
  decide

/-- With every outside call succeeding and both URLs accepted, `Init` returns
`NS_OK` with both server lists installed and both slots connected. -/
theorem Init_configAccepted :
    PeerConnectionMedia.Init envInit { mParentName := "pc" } configAccepted =
      some { rv := NS_OK,
             pcm := { mParentName := "pc", mProxyRequest := true, mLocalAddrsCompleted := true,
                      mIceCtx := some
                        { name := "PC:pc",
                          stunServers := some
                            [{ host := "stun.example.com", port := 3478, transport := "udp" },
                             { host := "192.0.2.1", port := 3479, transport := "udp" }],
                          turnServers := some [], resolverSet := true,
                          gatheringSignalConnected := true,
                          connectionSignalConnected := true } },
             calls := [("stun:stun.example.com", NS_OK), ("stun:192.0.2.1:3479", NS_OK)] } := by
  decide

theorem OnProxyAvailable_pending (pcm : PeerConnectionMedia) (proxyinfo : Option nsIProxyInfo)
    (result : nsresult) (h : pcm.mProxyRequest = true) :
    ∃ server,
      (server = pcm.mProxyServer ∨
        (∃ info, proxyinfo = some info ∧ NS_FAILED result = false)) ∧
      pcm.OnProxyAvailable proxyinfo result =
        if pcm.mLocalAddrsCompleted then
          { pcm with mProxyServer := server, mProxyResolveCompleted := true,
                     mProxyRequest := false,
                     stsThread := pcm.stsThread ++ pcm.mQueuedIceCtxOperations,
                     mQueuedIceCtxOperations := [] }
        else
          { pcm with mProxyServer := server, mProxyResolveCompleted := true,
                     mProxyRequest := false } := by
  unfold OnProxyAvailable
  simp only [h, Bool.not_true, Bool.false_eq_true, ↓reduceIte]
  have hflush : ∀ server : Option NrIceProxyServer,
      FlushIceCtxOperationQueueIfReady
          { ({ pcm with mProxyServer := server } : PeerConnectionMedia) with
            mProxyResolveCompleted := true, mProxyRequest := false } =
        if pcm.mLocalAddrsCompleted then
          { pcm with mProxyServer := server, mProxyResolveCompleted := true,
                     mProxyRequest := false,
                     stsThread := pcm.stsThread ++ pcm.mQueuedIceCtxOperations,
                     mQueuedIceCtxOperations := [] }
        else
          { pcm with mProxyServer := server, mProxyResolveCompleted := true,
                     mProxyRequest := false } := by
    intro server
    rw [Flush_eq]
    cases hl : pcm.mLocalAddrsCompleted <;> simp [IsIceCtxReady, hl]
  cases proxyinfo with
  | none =>
    exact ⟨pcm.mProxyServer, Or.inl rfl, hflush pcm.mProxyServer⟩
  | some info =>
    cases hs : NS_FAILED result with
    | true =>
      refine ⟨pcm.mProxyServer, Or.inl rfl, ?_⟩
      simp only [NS_SUCCEEDED, hs, Bool.not_true, Bool.false_eq_true, ↓reduceIte]
      exact hflush pcm.mProxyServer
    | false =>
      obtain ⟨server, hserver⟩ := SetProxyOnPcm_frame pcm info
      refine ⟨server, Or.inr ⟨info, rfl, rfl⟩, ?_⟩
      simp only [NS_SUCCEEDED, hs, Bool.not_false, ↓reduceIte, hserver]
      exact hflush server

theorem OnProxyAvailable_mProxyRequest (pcm : PeerConnectionMedia)
    (proxyinfo : Option nsIProxyInfo) (result : nsresult) :
    (pcm.OnProxyAvailable proxyinfo result).mProxyRequest = false := by
  cases h : pcm.mProxyRequest with
  | false => simp [OnProxyAvailable, h]
  | true =>
    obtain ⟨server, _, hrun⟩ := OnProxyAvailable_pending pcm proxyinfo result h
    rw [hrun]
    split <;> rfl

/-- C22. A second `OnProxyAvailable` after one has run, and a second
`OnStunAddrsAvailable` on the same handler, leave the whole state as the first
call left it: flags, proxy server, address list, queue, the runnables
dispatched and the signals emitted; and any `OnProxyAvailable` that finds
`mProxyRequest` null changes nothing. -/
theorem resolver_completions_idempotent (pcm : PeerConnectionMedia)
    (proxyinfo proxyinfo2 : Option nsIProxyInfo) (result result2 : nsresult)
    (pcm_ : Bool) (addrs addrs2 : List NrIceStunAddr) :
    (pcm.OnProxyAvailable proxyinfo result).OnProxyAvailable proxyinfo2 result2 =
      pcm.OnProxyAvailable proxyinfo result ∧
    (pcm.mProxyRequest = false → pcm.OnProxyAvailable proxyinfo result = pcm) ∧
    (OnStunAddrsAvailable pcm_ pcm addrs).1 = false ∧
    OnStunAddrsAvailable (OnStunAddrsAvailable pcm_ pcm addrs).1
        (OnStunAddrsAvailable pcm_ pcm addrs).2 addrs2 =
      OnStunAddrsAvailable pcm_ pcm addrs := by
  have hnull : ∀ (p : PeerConnectionMedia) (i : Option nsIProxyInfo) (r : nsresult),
      p.mProxyRequest = false → p.OnProxyAvailable i r = p := by
    intro p i r h
    simp [OnProxyAvailable, h]
  refine ⟨hnull _ _ _ (OnProxyAvailable_mProxyRequest pcm proxyinfo result),
    hnull pcm proxyinfo result, ?_, ?_⟩
  · cases pcm_ <;> simp [OnStunAddrsAvailable]
  · cases pcm_ <;> simp [OnStunAddrsAvailable]

/-- C23. Whatever result `OnProxyAvailable` is given while a proxy request is
pending, the proxy resolver counts as completed afterwards and the request is
dropped; the queue is dispatched in order and emptied when the local addresses
are resolved and is left alone otherwise; and with a failing result or no
proxy info `mProxyServer` is what it was before. -/
theorem proxy_failure_still_resolves (pcm : PeerConnectionMedia)
    (proxyinfo : Option nsIProxyInfo) (result : nsresult)
    (h : pcm.mProxyRequest = true) :
    (pcm.OnProxyAvailable proxyinfo result).mProxyResolveCompleted = true ∧
    (pcm.OnProxyAvailable proxyinfo result).mProxyRequest = false ∧
    (pcm.mLocalAddrsCompleted = true →
      (pcm.OnProxyAvailable proxyinfo result).mQueuedIceCtxOperations = [] ∧
      (pcm.OnProxyAvailable proxyinfo result).stsThread =
        pcm.stsThread ++ pcm.mQueuedIceCtxOperations) ∧
    (pcm.mLocalAddrsCompleted = false →
      (pcm.OnProxyAvailable proxyinfo result).mQueuedIceCtxOperations =
        pcm.mQueuedIceCtxOperations ∧
      (pcm.OnProxyAvailable proxyinfo result).stsThread = pcm.stsThread) ∧
    ((NS_FAILED result = true ∨ proxyinfo = none) →
      (pcm.OnProxyAvailable proxyinfo result).mProxyServer = pcm.mProxyServer) := by
  obtain ⟨server, hserver, hrun⟩ := OnProxyAvailable_pending pcm proxyinfo result h
  rw [hrun]
  refine ⟨by split <;> rfl, by split <;> rfl, ?_, ?_, ?_⟩
  · intro hl
    simp [hl]
  · intro hl
    simp [hl]
  · intro hfail
    have hs : server = pcm.mProxyServer := by
      rcases hserver with hs | ⟨info, hinfo, hok⟩
      · exact hs
      · rcases hfail with hf | hn
        · rw [hok] at hf
          cases hf
        · rw [hn] at hinfo
          cases hinfo
    rw [hs]
    split <;> rfl

/-- Witness for C23: a failing result with proxy info, the local addresses
resolved and one operation queued. -/
theorem proxy_failure_still_resolves_witness :
    (pcmProxyPending.OnProxyAvailable (some proxyInfoExample) NS_ERROR_FAILURE).mProxyResolveCompleted
        = true ∧
    (pcmProxyPending.OnProxyAvailable (some proxyInfoExample) NS_ERROR_FAILURE).stsThread =
      [STSRunnable.EnsureIceGathering_s false false] ∧
    (pcmProxyPending.OnProxyAvailable (some proxyInfoExample) NS_ERROR_FAILURE).mProxyServer =
      none :=
  ⟨(proxy_failure_still_resolves pcmProxyPending (some proxyInfoExample) NS_ERROR_FAILURE
      rfl).1,
   ((proxy_failure_still_resolves pcmProxyPending (some proxyInfoExample) NS_ERROR_FAILURE
      rfl).2.2.1 rfl).2,
   (proxy_failure_still_resolves pcmProxyPending (some proxyInfoExample) NS_ERROR_FAILURE
      rfl).2.2.2.2 (Or.inl (by decide))⟩

/-! ## Transport flows, ALPN and failure: claims -/

/-- C29. When `UpdateTransportFlow` returns a failure, the object is as before
the call except for the counter that numbers flow objects: both registries
are unchanged, nothing was dispatched to the network thread (so no
`ConnectDtlsListener_s`), and no flow is registered under the key. -/
theorem update_transport_flow_failure_leaves_registry (env : FlowEnv)
    (pcm : PeerConnectionMedia) (aIsRtcp : Bool) (aTransport : JsepTransport)
    (hFail : NS_FAILED (pcm.UpdateTransportFlow env aIsRtcp aTransport).1 = true) :
    (pcm.UpdateTransportFlow env aIsRtcp aTransport).2 =
      { pcm with nextFlowObject := pcm.nextFlowObject + 1 } ∧
    (pcm.UpdateTransportFlow env aIsRtcp aTransport).2.mTransportFlows = pcm.mTransportFlows ∧
    (pcm.UpdateTransportFlow env aIsRtcp aTransport).2.mRtcpTransportFlows =
      pcm.mRtcpTransportFlows ∧
    (pcm.UpdateTransportFlow env aIsRtcp aTransport).2.stsThread = pcm.stsThread ∧
    (pcm.UpdateTransportFlow env aIsRtcp aTransport).2.GetTransportFlow
      aTransport.mTransportId aIsRtcp = none := by
  by_cases hun : componentUnmet aIsRtcp aTransport
  · rw [UpdateTransportFlow_unmet env pcm aIsRtcp aTransport hun] at hFail
    rw [NS_FAILED_NS_OK] at hFail
    cases hFail
  · cases hget : pcm.GetTransportFlow aTransport.mTransportId aIsRtcp with
    | some flow =>
      rw [UpdateTransportFlow_existing env pcm aIsRtcp aTransport flow hun hget] at hFail
      rw [NS_FAILED_NS_OK] at hFail
      cases hFail
    | none =>
      rcases UpdateTransportFlow_new env pcm aIsRtcp aTransport hun hget with
        ⟨_, hstate⟩ | ⟨dtls, _, _, hrun⟩
      · rw [hstate]
        refine ⟨rfl, rfl, rfl, rfl, ?_⟩
        rw [← hget]
        exact GetTransportFlow_congr pcm _ _ aIsRtcp (by cases aIsRtcp <;> rfl)
      · rw [hrun] at hFail
        rw [NS_FAILED_NS_OK] at hFail
        cases hFail

/-- Witness for C29: a parent without DTLS identity. -/
theorem update_transport_flow_failure_leaves_registry_witness :
    NS_FAILED (({ mParentHandle := "pc" } : PeerConnectionMedia).UpdateTransportFlow envOk false
        transceiverOne.mTransport).1 = true ∧
    (({ mParentHandle := "pc" } : PeerConnectionMedia).UpdateTransportFlow envOk false
        transceiverOne.mTransport).2.stsThread = [] :=
  ⟨by decide,
   (update_transport_flow_failure_leaves_registry envOk { mParentHandle := "pc" } false
      transceiverOne.mTransport (by decide)).2.2.2.1⟩

/-- Each cause of failure on a concrete call: no identity, a fingerprint
rejected, the SRTP ciphers rejected, the ALPN rejected, the dispatch failing. -/
theorem UpdateTransportFlow_failures :
    (({ mParentHandle := "pc" } : PeerConnectionMedia).UpdateTransportFlow envOk true
        transceiverTwo.mTransport).1 = NS_ERROR_FAILURE ∧
    (pcmWithIdentity.UpdateTransportFlow
        { envOk with SetVerificationDigest := fun _ _ => NS_ERROR_FAILURE } true
        transceiverTwo.mTransport) =
      (NS_ERROR_FAILURE, { pcmWithIdentity with nextFlowObject := 1 }) ∧
    (pcmWithIdentity.UpdateTransportFlow
        { envOk with SetSrtpCiphers := fun _ => NS_ERROR_FAILURE } true
        transceiverTwo.mTransport) =
      (NS_ERROR_FAILURE, { pcmWithIdentity with nextFlowObject := 1 }) ∧
    (pcmWithIdentity.UpdateTransportFlow
        { envOk with SetAlpn := fun _ _ => NS_ERROR_FAILURE } true
        transceiverTwo.mTransport) =
      (NS_ERROR_FAILURE, { pcmWithIdentity with nextFlowObject := 1 }) ∧
    (pcmWithIdentity.UpdateTransportFlow
        { envOk with Dispatch := fun _ => NS_ERROR_FAILURE } true
        transceiverTwo.mTransport) =
      (NS_ERROR_FAILURE, { pcmWithIdentity with nextFlowObject := 1 }) := by
  decide

theorem setVerificationDigests_congr (env env1 : FlowEnv)
    (h : env1.SetVerificationDigest = env.SetVerificationDigest)
    (fingerprints : List SdpFingerprint) :
    ∀ set : List SdpFingerprint,
      setVerificationDigests env1 set fingerprints = setVerificationDigests env set fingerprints := by
  induction fingerprints with
  | nil => intro set; rfl
  | cons fingerprint rest ih =>
    intro set
    unfold setVerificationDigests
    rw [h, ih]

/-- C25. On a call of `UpdateTransportFlow` that gets past the component test
and finds no flow under the key, `SetAlpn` is given no arguments other than
the set holding "c-webrtc", and "webrtc" exactly when privacy was not
requested, with default "webrtc" when privacy was not requested and the empty
string otherwise: an environment that refuses every other argument pair gives
the same outcome. When the call succeeds, the layer handed to the network
thread carries that set and that default. -/
theorem update_transport_flow_alpn (env : FlowEnv) (pcm : PeerConnectionMedia)
    (aIsRtcp : Bool) (aTransport : JsepTransport)
    (h : ¬ componentUnmet aIsRtcp aTransport)
    (hget : pcm.GetTransportFlow aTransport.mTransportId aIsRtcp = none) :
    pcm.UpdateTransportFlow
        { env with SetAlpn := fun alpn alpnDefault =>
            if alpn = (if pcm.privacyRequested then ["c-webrtc"] else ["c-webrtc", "webrtc"]) ∧
                alpnDefault = (if pcm.privacyRequested then "" else "webrtc")
            then env.SetAlpn alpn alpnDefault else NS_ERROR_FAILURE }
        aIsRtcp aTransport =
      pcm.UpdateTransportFlow env aIsRtcp aTransport ∧
    (NS_FAILED (pcm.UpdateTransportFlow env aIsRtcp aTransport).1 = false →
      ∃ dtls : TransportLayerDtls,
        (∀ token, token ∈ dtls.alpn ↔
          token = "c-webrtc" ∨ (token = "webrtc" ∧ pcm.privacyRequested = false)) ∧
        dtls.alpnDefault = (if pcm.privacyRequested then "" else "webrtc") ∧
        pcm.UpdateTransportFlow env aIsRtcp aTransport =
          (NS_OK,
            (DispatchSTS { pcm with nextFlowObject := pcm.nextFlowObject + 1 }
              (STSRunnable.FinalizeTransportFlow_s (pcm.newTransportFlow aIsRtcp aTransport)
                aTransport.mTransportId aIsRtcp dtls)).AddTransportFlow
              aTransport.mTransportId aIsRtcp (pcm.newTransportFlow aIsRtcp aTransport))) := by
  constructor
  · have hc := (not_or.mp ((componentUnmet_iff aIsRtcp aTransport).not.mp h))
    have hd : ∀ f : List String → String → nsresult,
        setVerificationDigests { env with SetAlpn := f } [] aTransport.mDtls.fingerprints =
          setVerificationDigests env [] aTransport.mDtls.fingerprints :=
      fun f => setVerificationDigests_congr env { env with SetAlpn := f } rfl _ []
    unfold UpdateTransportFlow
    simp only [hc.1, hc.2, Bool.false_eq_true, ↓reduceIte, hget, hd]
    cases hp : pcm.privacyRequested <;> simp
  · intro hOk
    rcases UpdateTransportFlow_new env pcm aIsRtcp aTransport h hget with
      ⟨hfail, _⟩ | ⟨dtls, halpn, hdef, hrun⟩
    · rw [hOk] at hfail
      cases hfail
    · refine ⟨dtls, ?_, hdef, hrun⟩
      intro token
      rw [halpn]
      cases hp : pcm.privacyRequested <;> simp

/-- Witness for C25: the RTP flow of a one-component transport, privacy not
requested. -/
theorem update_transport_flow_alpn_witness :
    ∃ dtls : TransportLayerDtls,
      (∀ token, token ∈ dtls.alpn ↔
        token = "c-webrtc" ∨ (token = "webrtc" ∧ pcmWithIdentity.privacyRequested = false)) ∧
      dtls.alpnDefault = (if pcmWithIdentity.privacyRequested then "" else "webrtc") ∧
      pcmWithIdentity.UpdateTransportFlow envOk false transceiverOne.mTransport =
        (NS_OK,
          (DispatchSTS { pcmWithIdentity with nextFlowObject := pcmWithIdentity.nextFlowObject + 1 }
            (STSRunnable.FinalizeTransportFlow_s
              (pcmWithIdentity.newTransportFlow false transceiverOne.mTransport)
              transceiverOne.mTransport.mTransportId false dtls)).AddTransportFlow
            transceiverOne.mTransport.mTransportId false
            (pcmWithIdentity.newTransportFlow false transceiverOne.mTransport)) :=
  (update_transport_flow_alpn envOk pcmWithIdentity false transceiverOne.mTransport
    (by simp [componentUnmet, transceiverOne]) (by decide)).2 (by decide)

/-! ## DTLS listener: claims -/

theorem signalStateChanges_disconnected (mParentHandle : String)
    (states : List TransportLayer.State) (layer : DtlsLayer)
    (h : layer.signalStateChangeConnected = false) :
    signalStateChanges mParentHandle layer states = (layer, []) := by
  induction states with
  | nil => rfl
  | cons state rest ih =>
    unfold signalStateChanges
    simp only [signalStateChange, h, Bool.false_eq_true, ↓reduceIte, ih, List.append_nil]

/-- C21. `DtlsConnected_s` leaves `PeerConnectionMedia` disconnected from the
state-change signal of the layer and posts one DTLS-connected runnable; after
it no sequence of state changes of that layer posts anything, so over any
sequence of state changes of a layer at most one runnable is posted, and
exactly one, at the first change, when the listener was connected. -/
theorem dtls_connected_dispatched_at_most_once (mParentHandle : String) (layer : DtlsLayer)
    (state : TransportLayer.State) (states : List TransportLayer.State) :
    (DtlsConnected_s mParentHandle layer state).1.signalStateChangeConnected = false ∧
    (DtlsConnected_s mParentHandle layer state).2 =
      [MainRunnable.DtlsConnected_m mParentHandle (layer.negotiatedAlpn == "c-webrtc")] ∧
    signalStateChanges mParentHandle (DtlsConnected_s mParentHandle layer state).1 states =
      ((DtlsConnected_s mParentHandle layer state).1, []) ∧
    (signalStateChanges mParentHandle layer states).2.length ≤ 1 ∧
    (layer.signalStateChangeConnected = true →
      (signalStateChanges mParentHandle layer (state :: states)).2 =
        [MainRunnable.DtlsConnected_m mParentHandle (layer.negotiatedAlpn == "c-webrtc")]) := by
  have hafter : ∀ rest : List TransportLayer.State,
      signalStateChanges mParentHandle (DtlsConnected_s mParentHandle layer state).1 rest =
        ((DtlsConnected_s mParentHandle layer state).1, []) :=
    fun rest => signalStateChanges_disconnected mParentHandle rest _ rfl
  refine ⟨rfl, rfl, hafter states, ?_, ?_⟩
  · cases hc : layer.signalStateChangeConnected with
    | false =>
      rw [signalStateChanges_disconnected mParentHandle states layer hc]
      simp
    | true =>
      cases states with
      | nil => simp [signalStateChanges]
      | cons first rest =>
        unfold signalStateChanges
        simp only [signalStateChange, hc, ↓reduceIte]
        rw [signalStateChanges_disconnected mParentHandle rest _ rfl]
        simp [DtlsConnected_s]
  · intro hc
    unfold signalStateChanges
    simp only [signalStateChange, hc, ↓reduceIte]
    rw [hafter states]
    simp [DtlsConnected_s]

/-- A connected layer that opens, closes and fails posts one runnable. -/
theorem signalStateChanges_example :
    signalStateChanges "pc" dtlsLayerConnected
        [TransportLayer.State.TS_OPEN, TransportLayer.State.TS_CLOSED,
         TransportLayer.State.TS_ERROR] =
      ({ dtlsLayerConnected with signalStateChangeConnected := false },
        [MainRunnable.DtlsConnected_m "pc" true]) := by
  decide

/-! ## Shutdown: claims -/

/-- C24 on the code: `ShutdownMediaTransport_s` empties the RTP registry, leaves
no DTLS listener and no context signal connected, destroys the context, drops
`mIceCtx` and posts `SelfDestruct_m`, but the RTCP registry is left as it was:
with an RTP and an RTCP flow registered for transport `T2`, the RTCP flow is
still registered afterwards. -/
theorem shutdown_keeps_rtcp_registry (pcm : PeerConnectionMedia) (layers : List DtlsLayer) :
    (ShutdownMediaTransport_s pcm layers).pcm.mTransportFlows = [] ∧
    (ShutdownMediaTransport_s pcm layers).pcm.mRtcpTransportFlows = pcm.mRtcpTransportFlows ∧
    (∀ aId, (ShutdownMediaTransport_s pcm layers).pcm.GetTransportFlow aId true =
      pcm.GetTransportFlow aId true) ∧
    (∀ aId, (ShutdownMediaTransport_s pcm layers).pcm.GetTransportFlow aId false = none) ∧
    (∀ layer ∈ (ShutdownMediaTransport_s pcm layers).layers,
      layer.signalStateChangeConnected = false) ∧
    (ShutdownMediaTransport_s pcm layers).pcm.mIceCtx = none ∧
    (∀ ctx, (ShutdownMediaTransport_s pcm layers).released = some ctx →
      ctx.destroyed = true ∧ ctx.gatheringSignalConnected = false ∧
      ctx.connectionSignalConnected = false) ∧
    (ShutdownMediaTransport_s pcm layers).mainThread = [MainRunnable.SelfDestruct_m] ∧
    (ShutdownMediaTransport_s pcmTwoFlows []).pcm.GetTransportFlow "T2" true =
      some { object := 1, id := "pc:T2,rtcp" } := by
  refine ⟨rfl, rfl, fun _ => rfl, fun _ => rfl, ?_, rfl, ?_, rfl, by decide⟩
  · intro layer hmem
    simp only [ShutdownMediaTransport_s, List.mem_map] at hmem
    obtain ⟨l0, _, hl⟩ := hmem
    rw [← hl]
  · intro ctx hctx
    simp only [ShutdownMediaTransport_s, Option.map_map, Option.map_eq_some'] at hctx
    obtain ⟨c0, _, hc⟩ := hctx
    rw [← hc]
    exact ⟨rfl, rfl, rfl⟩

/-! ## Flow assembly: claims -/

/-- C26 as stated fails: the packet dumper is chained onto the ICE layer, not
onto the DTLS layer pushed before it, so going down from SRTP the layers are
SRTP, dumper, ICE, and the DTLS layer is not among them. -/
theorem finalize_flow_chains_dumper_onto_ice :
    (FinalizeTransportFlow_s ctxOneStream {} "A" false).downward FlowLayer.srtpDumper =
      some FlowLayer.ice ∧
    (FinalizeTransportFlow_s ctxOneStream {} "A" false).path 4 FlowLayer.srtp =
      [FlowLayer.srtp, FlowLayer.srtpDumper, FlowLayer.ice] := by
  decide

/-- C26, amended. `FinalizeTransportFlow_s` on a new flow pushes exactly four
layers, in the order ICE, DTLS, packet dumper, SRTP; it chains DTLS onto ICE,
the packet dumper onto ICE and SRTP onto the packet dumper, and chains the ICE
layer onto nothing; the ICE layer is given the stream of the transport-id with
component 2 for an RTCP flow and component 1 otherwise. -/
theorem finalize_flow_layers_and_chain (aIceCtx : NrIceCtx) (aId : String) (aIsRtcp : Bool) :
    (FinalizeTransportFlow_s aIceCtx {} aId aIsRtcp).layers =
      [FlowLayer.ice, FlowLayer.dtls, FlowLayer.srtpDumper, FlowLayer.srtp] ∧
    (FinalizeTransportFlow_s aIceCtx {} aId aIsRtcp).chained =
      [(FlowLayer.dtls, FlowLayer.ice), (FlowLayer.srtpDumper, FlowLayer.ice),
       (FlowLayer.srtp, FlowLayer.srtpDumper)] ∧
    (FinalizeTransportFlow_s aIceCtx {} aId aIsRtcp).downward FlowLayer.ice = none ∧
    (FinalizeTransportFlow_s aIceCtx {} aId aIsRtcp).downward FlowLayer.dtls =
      some FlowLayer.ice ∧
    (FinalizeTransportFlow_s aIceCtx {} aId aIsRtcp).downward FlowLayer.srtpDumper =
      some FlowLayer.ice ∧
    (FinalizeTransportFlow_s aIceCtx {} aId aIsRtcp).downward FlowLayer.srtp =
      some FlowLayer.srtpDumper ∧
    (FinalizeTransportFlow_s aIceCtx {} aId aIsRtcp).iceParameters =
      some (aIceCtx.GetStream aId, if aIsRtcp then 2 else 1) ∧
    (aIsRtcp = true →
      (FinalizeTransportFlow_s aIceCtx {} aId aIsRtcp).iceParameters =
        some (aIceCtx.GetStream aId, 2)) ∧
    (aIsRtcp = false →
      (FinalizeTransportFlow_s aIceCtx {} aId aIsRtcp).iceParameters =
        some (aIceCtx.GetStream aId, 1)) := by
  refine ⟨rfl, rfl, rfl, rfl, rfl, rfl, rfl, ?_, ?_⟩
  · intro h
    subst h
    rfl
  · intro h
    subst h
    rfl

/-! ## Switching contexts: claims -/

theorem connectionStatesOf_append (a b : List MainRunnable) :
    connectionStatesOf (a ++ b) = connectionStatesOf a ++ connectionStatesOf b := by
  induction a with
  | nil => rfl
  | cons r rest ih => cases r <;> simp [connectionStatesOf, ih]

theorem connectionStatesOf_endOfCandidates (streams : List NrIceMediaStream) :
    connectionStatesOf (streams.map endOfCandidatesFor) = [] := by
  induction streams with
  | nil => rfl
  | cons s rest ih => simp [endOfCandidatesFor, connectionStatesOf, ih]

theorem connectionStatesOf_IceGatheringStateChange_s (ctx : NrIceCtx)
    (state : NrIceCtx.GatheringState) :
    connectionStatesOf (IceGatheringStateChange_s ctx state) = [] := by
  by_cases h : state = NrIceCtx.GatheringState.ICE_CTX_GATHER_COMPLETE
  · subst h
    rw [IceGatheringStateChange_s_complete, connectionStatesOf_append,
      connectionStatesOf_endOfCandidates]
    rfl
  · rw [IceGatheringStateChange_s_other ctx state h]
    rfl

/-- C27. `ConnectSignals` with an old context posts the connection state of the
new context once when it differs from the old one's and is not `ICE_CTX_INIT`,
and not at all otherwise; likewise the gathering state against
`ICE_CTX_GATHER_INIT`; it leaves `PeerConnectionMedia` connected to both signals
of the new context and to neither signal of the old one, and changes nothing
else on either. -/
theorem connect_signals_forwards_new_state_once (aCtx old : NrIceCtx) :
    connectionStatesOf (ConnectSignals aCtx (some old)).2.2 =
      (if old.connectionState ≠ aCtx.connectionState ∧
          aCtx.connectionState ≠ NrIceCtx.ConnectionState.ICE_CTX_INIT
        then [aCtx.connectionState] else []) ∧
    gatheringStatesOf (ConnectSignals aCtx (some old)).2.2 =
      (if old.gatheringState ≠ aCtx.gatheringState ∧
          aCtx.gatheringState ≠ NrIceCtx.GatheringState.ICE_CTX_GATHER_INIT
        then [aCtx.gatheringState] else []) ∧
    (ConnectSignals aCtx (some old)).1 =
      { aCtx with gatheringSignalConnected := true, connectionSignalConnected := true } ∧
    (ConnectSignals aCtx (some old)).2.1 =
      some { old with gatheringSignalConnected := false, connectionSignalConnected := false } := by
  have hc : ∀ ctx : NrIceCtx, ctx.connectionSignalConnected = true →
      ∀ state, deliverConnectionStates ctx [state] =
        [MainRunnable.IceConnectionStateChange_m ctx.ctxId state] := by
    intro ctx h state
    rw [deliverConnectionStates_eq ctx [state] h]
    rfl
  have hg : ∀ ctx : NrIceCtx, ctx.gatheringSignalConnected = true →
      ∀ state, deliverGatheringStates ctx [state] = IceGatheringStateChange_s ctx state := by
    intro ctx h state
    simp [deliverGatheringStates, h]
  have hc1 := hc
    { aCtx with gatheringSignalConnected := true, connectionSignalConnected := true } rfl
  have hg1 := hg
    { aCtx with gatheringSignalConnected := true, connectionSignalConnected := true } rfl
  refine ⟨?_, ?_, rfl, rfl⟩
  · unfold ConnectSignals
    simp only [hc1, hg1, connectionStatesOf_append]
    split <;> split <;>
      simp [connectionStatesOf, connectionStatesOf_IceGatheringStateChange_s]
  · unfold ConnectSignals
    simp only [hc1, hg1, gatheringStatesOf_append]
    split <;> split <;>
      simp [gatheringStatesOf, gatheringStatesOf_IceGatheringStateChange_s]

/-- A restart onto a context that is already checking and has finished
gathering: both states are posted once, the connection state first. -/
theorem ConnectSignals_example :
    (ConnectSignals ctxRestarted (some ctxConnected)).2.2 =
      [MainRunnable.IceConnectionStateChange_m 2 NrIceCtx.ConnectionState.ICE_CTX_CHECKING,
       MainRunnable.IceGatheringStateChange_m 2 NrIceCtx.GatheringState.ICE_CTX_GATHER_COMPLETE] ∧
    (ConnectSignals ctxConnected (some ctxConnected)).2.2 = [] := by
  decide

/-! ## Rejected ICE input: claims -/

theorem store_of_GetStream (ctx : NrIceCtx) (id : String) (stream : NrIceMediaStream)
    (hIds : ctx.streamIds.Nodup) (h : ctx.GetStream id = some stream) :
    ctx.store stream = ctx := by
  have hmem : stream ∈ ctx.streams := List.mem_of_find?_eq_some h
  have hinj := List.inj_on_of_nodup_map hIds
  have hmap : ctx.streams.map (fun s => if s.id == stream.id then stream else s) =
      ctx.streams := by
    conv_rhs => rw [← List.map_id ctx.streams]
    apply List.map_congr_left
    intro s hs
    by_cases e : s.id = stream.id
    · simp only [e, beq_self_eq_true, ↓reduceIte, id_eq]
      exact (hinj hs hmem e).symm
    · have e1 : (s.id == stream.id) = false := by simpa using e
      simp only [e1, Bool.false_eq_true, ↓reduceIte, id_eq]
  unfold NrIceCtx.store
  rw [hmap]

/-- C28 as stated fails: with an engine that rejects the attributes,
`ActivateTransport_s` still disables component 2 of a two-component stream
activated with one component, and `StartIceChecks_s` still sets the controlling
role and starts the checks. -/
theorem rejected_attributes_do_not_stop_the_operation :
    ((ActivateTransport_s (fun _ => NS_ERROR_FAILURE) ctxOneStream "A" "lu" "lp" 1 "ru" "rp"
        []).GetStream "A").map (fun stream => (stream.peer, stream.disabledComponents)) =
      some (none, [2]) ∧
    StartIceChecks_s (fun _ => NS_ERROR_FAILURE) ctxOneStream true true false ["trickle"] =
      { ctxOneStream with
        controlling := some NrIceCtx.Controlling.ICE_CONTROLLING,
        checksStarted := some true } := by
  decide

theorem GetStream_store_other (ctx : NrIceCtx) (stream : NrIceMediaStream) (id : String)
    (h : id ≠ stream.id) :
    (ctx.store stream).GetStream id = ctx.GetStream id := by
  unfold NrIceCtx.GetStream NrIceCtx.store
  simp only
  induction ctx.streams with
  | nil => rfl
  | cons s rest ih =>
    by_cases e : s.id = stream.id
    · have e1 : (stream.id == id) = false := by simpa using fun h1 => h h1.symm
      have e2 : (s.id == id) = false := by rw [e]; exact e1
      simp only [List.map_cons, e, beq_self_eq_true, ↓reduceIte, List.find?_cons, e1, e2, ih]
    · have e1 : (s.id == stream.id) = false := by simpa using e
      simp only [List.map_cons, e1, Bool.false_eq_true, ↓reduceIte, List.find?_cons, ih]

theorem GetStream_store_found (ctx : NrIceCtx) (stream : NrIceMediaStream) (aTransportId : String)
    (h : ctx.GetStream aTransportId = some stream) (id : String) :
    (ctx.store stream).GetStream id = ctx.GetStream id := by
  have hid := (GetStream_some_mem ctx aTransportId stream h).1
  by_cases e : id = stream.id
  · rw [e, GetStream_store, hid, h]
    rfl
  · exact GetStream_store_other ctx stream id e

/-- C28, amended. When the engine rejects its input, each function under the
condition of its own failure only: in `AddIceCandidate_s` every lookup in the
context gives what it gave before, and the context is left as it was when it
holds one stream per transport-id; in `ActivateTransport_s`, for the stream
found, the remote description is not taken over, yet the components above the
component count are disabled as on success; in `StartIceChecks_s`, on any
context, the global attributes are not taken over, yet the controlling role
is set and the checks are started as on success. -/
theorem rejected_ice_input_is_only_logged
    (parseCandidate : String → nsresult) (parsePeer parseGlobal : List String → nsresult)
    (mIceCtx : NrIceCtx) (aCandidate aTransportId aLocalUfrag aLocalPwd : String)
    (aComponentCount : Nat) (aUfrag aPassword : String) (aCandidateList : List String)
    (aIsControlling aIsOfferer aIsIceLite : Bool) (aIceOptionsList : List String) :
    (NS_FAILED (parseCandidate aCandidate) = true →
      (∀ id, (AddIceCandidate_s parseCandidate mIceCtx aCandidate aTransportId).GetStream id =
        mIceCtx.GetStream id) ∧
      (mIceCtx.streamIds.Nodup →
        AddIceCandidate_s parseCandidate mIceCtx aCandidate aTransportId = mIceCtx)) ∧
    (NS_FAILED (parsePeer (peerAttributes aUfrag aPassword aCandidateList)) = true →
      ∀ stream, mIceCtx.GetStream aTransportId = some stream →
        ActivateTransport_s parsePeer mIceCtx aTransportId aLocalUfrag aLocalPwd aComponentCount
            aUfrag aPassword aCandidateList =
          mIceCtx.store
            { stream with disabledComponents :=
                stream.disabledComponents ++
                  List.range' (aComponentCount + 1) (stream.components - aComponentCount) }) ∧
    (NS_FAILED (parseGlobal (globalAttributes aIsIceLite aIceOptionsList)) = true →
      StartIceChecks_s parseGlobal mIceCtx aIsControlling aIsOfferer aIsIceLite aIceOptionsList =
        { mIceCtx with
          controlling := some (if aIsControlling then NrIceCtx.Controlling.ICE_CONTROLLING
                               else NrIceCtx.Controlling.ICE_CONTROLLED),
          checksStarted := some aIsOfferer }) := by
  refine ⟨?_, ?_, ?_⟩
  · intro hCandidate
    cases hStream : mIceCtx.GetStream aTransportId with
    | none =>
      have e : AddIceCandidate_s parseCandidate mIceCtx aCandidate aTransportId = mIceCtx := by
        unfold AddIceCandidate_s
        simp only [hStream]
      rw [e]
      exact ⟨fun _ => rfl, fun _ => rfl⟩
    | some stream =>
      have e : AddIceCandidate_s parseCandidate mIceCtx aCandidate aTransportId =
          mIceCtx.store stream := by
        unfold AddIceCandidate_s
        simp only [hStream, NrIceMediaStream.ParseTrickleCandidate, hCandidate, ↓reduceIte]
      rw [e]
      exact ⟨GetStream_store_found mIceCtx stream aTransportId hStream,
        fun hIds => store_of_GetStream mIceCtx aTransportId stream hIds hStream⟩
  · intro hPeer stream hStream
    unfold ActivateTransport_s
    simp only [hStream, NrIceMediaStream.ConnectToPeer, hPeer, ↓reduceIte,
      foldl_DisableComponent, map_succ_range']
  · intro hGlobal
    unfold StartIceChecks_s
    simp only [NrIceCtx.ParseGlobalAttributes, hGlobal, ↓reduceIte, NrIceCtx.SetControlling,
      NrIceCtx.StartChecks]

/-- Witness for C28: an engine that rejects everything, on the context with
one two-component stream for the first two parts and on a context without
streams for `StartIceChecks_s`. -/
theorem rejected_ice_input_is_only_logged_witness :
    AddIceCandidate_s (fun _ => NS_ERROR_FAILURE) ctxOneStream "candidate:x" "A" = ctxOneStream ∧
    ActivateTransport_s (fun _ => NS_ERROR_FAILURE) ctxOneStream "A" "lu" "lp" 1 "ru" "rp" [] =
      ctxOneStream.store
        { ({ object := 0, id := "A", name := "pc transport-id=A", components := 2 } :
              NrIceMediaStream) with
          disabledComponents := [] ++ List.range' (1 + 1) (2 - 1) } ∧
    StartIceChecks_s (fun _ => NS_ERROR_FAILURE) ctxConnected true true false ["trickle"] =
      { ctxConnected with
        controlling := some (if true then NrIceCtx.Controlling.ICE_CONTROLLING
                             else NrIceCtx.Controlling.ICE_CONTROLLED),
        checksStarted := some true } :=
  ⟨((rejected_ice_input_is_only_logged (fun _ => NS_ERROR_FAILURE) (fun _ => NS_ERROR_FAILURE)
      (fun _ => NS_ERROR_FAILURE) ctxOneStream "candidate:x" "A" "lu" "lp" 1 "ru" "rp" []
      true true false ["trickle"]).1 (by decide)).2 (by decide),
   (rejected_ice_input_is_only_logged (fun _ => NS_ERROR_FAILURE) (fun _ => NS_ERROR_FAILURE)
      (fun _ => NS_ERROR_FAILURE) ctxOneStream "candidate:x" "A" "lu" "lp" 1 "ru" "rp" []
      true true false ["trickle"]).2.1 (by decide)
      { object := 0, id := "A", name := "pc transport-id=A", components := 2 } (by decide),
   (rejected_ice_input_is_only_logged (fun _ => NS_ERROR_FAILURE) (fun _ => NS_ERROR_FAILURE)
      (fun _ => NS_ERROR_FAILURE) ctxConnected "candidate:x" "A" "lu" "lp" 1 "ru" "rp" []
      true true false ["trickle"]).2.2 (by decide)⟩

/-! ## Termination of the query-string scan: claims -/

theorem findCharFrom_countP (p : Char → Bool) :
    ∀ (s : List Char) (pos : Nat),
      findCharFrom p s pos = -1 ∨
        ∃ k : Nat, findCharFrom p s pos = ((pos + k : Nat) : Int) ∧
          (s.drop (k + 1)).countP p + 1 ≤ s.countP p := by
  intro s
  induction s with
  | nil => intro pos; left; rfl
  | cons c s ih =>
    intro pos
    unfold findCharFrom
    by_cases h : p c = true
    · right
      refine ⟨0, by simp [h], ?_⟩
      simp [List.countP_cons, h]
    · simp only [h, Bool.false_eq_true, ↓reduceIte]
      rcases ih (pos + 1) with h1 | ⟨k, h1, h2⟩
      · left; exact h1
      · right
        refine ⟨k + 1, ?_, ?_⟩
        · rw [h1]; congr 1; omega
        · simpa [List.countP_cons, h] using h2

theorem FindCharInSet_amp_count (s : List Char) (offset : Nat) :
    FindCharInSet s ['&'] offset = -1 ∨
      ((offset : Int) ≤ FindCharInSet s ['&'] offset ∧
        (s.drop ((FindCharInSet s ['&'] offset) + 1).toNat).count '&' + 1 ≤
          (s.drop offset).count '&') := by
  have hp : ∀ l : List Char, l.countP (fun d => ['&'].contains d) = l.count '&' := by
    intro l
    unfold List.count
    congr 1
    funext d
    by_cases hd : d = '&' <;> simp [List.contains, hd]
  unfold FindCharInSet
  by_cases h : offset > s.length
  · left; simp [h]
  · simp only [h, ↓reduceIte]
    rcases findCharFrom_countP (fun d => ['&'].contains d) (s.drop offset) offset with
      h1 | ⟨k, h1, h2⟩
    · left; exact h1
    · right
      rw [h1]
      refine ⟨by push_cast; omega, ?_⟩
      have e : (((offset + k : Nat) : Int) + 1).toNat = offset + (k + 1) := by omega
      rw [e, ← List.drop_drop, ← hp, ← hp]
      exact h2

/-- A budget of one iteration more than the number of `&` after position `i` is
enough for the loop started at `i`. -/
theorem queryTransportLoop_within_amp_count (path : List Char) :
    ∀ (fuel : Nat) (i : Int) (transport : List Char),
      (i < 0 ∨ (path.drop (i + 1).toNat).count '&' + 1 ≤ fuel) →
      ∃ result, queryTransportLoop path fuel i transport = some result := by
  intro fuel
  induction fuel with
  | zero =>
    intro i transport h
    rcases h with h | h
    · exact ⟨transport, by simp [queryTransportLoop, not_le.mpr h]⟩
    · omega
  | succ fuel ih =>
    intro i transport h
    unfold queryTransportLoop
    by_cases hi : 0 ≤ i
    · simp only [hi, ↓reduceIte]
      apply ih
      rcases h with h | h
      · omega
      · rcases FindCharInSet_amp_count path (i + 1).toNat with e | ⟨_, e2⟩
        · left; rw [e]; decide
        · right; omega
    · exact ⟨transport, by simp [hi]⟩

theorem queryTransportLoop_more_fuel (path : List Char) :
    ∀ (fuel : Nat) (i : Int) (transport result : List Char),
      queryTransportLoop path fuel i transport = some result →
      ∀ more : Nat, queryTransportLoop path (fuel + more) i transport = some result := by
  intro fuel
  induction fuel with
  | zero =>
    intro i transport result h more
    unfold queryTransportLoop at h
    by_cases hi : 0 ≤ i
    · simp [hi] at h
    · simp only [hi, ↓reduceIte] at h
      cases more with
      | zero => simp [queryTransportLoop, hi, h]
      | succ m => simp [queryTransportLoop, hi, h]
  | succ fuel ih =>
    intro i transport result h more
    have e : fuel + 1 + more = (fuel + more) + 1 := by omega
    rw [e]
    unfold queryTransportLoop at h ⊢
    by_cases hi : 0 ≤ i
    · simp only [hi, ↓reduceIte] at h ⊢
      exact ih _ _ _ h more
    · simp only [hi, ↓reduceIte] at h ⊢
      exact h

/-- C30. The scan over the query string ends for every path and every start
position: each iteration moves to a strictly later position holding `&` or
finds none and ends the loop, and a budget of one iteration more than the
number of `&` after the start position is enough (the loop yields a result
within a budget exactly when it makes no more iterations than the budget).
Started at the `?`, the bound `path.length + 1` that `addNrIceServer` is run with
gives the same result. -/
theorem query_scan_ends_within_ampersand_count (path : List Char) (i : Int)
    (transport : List Char) :
    (∃ result,
      queryTransportLoop path ((path.drop (i + 1).toNat).count '&' + 1) i transport =
        some result ∧
      ∀ more : Nat,
        queryTransportLoop path ((path.drop (i + 1).toNat).count '&' + 1 + more) i transport =
          some result) ∧
    (0 ≤ i →
      FindCharInSet path ['&'] (i + 1).toNat = -1 ∨
        (i < FindCharInSet path ['&'] (i + 1).toNat ∧
          FindCharInSet path ['&'] (i + 1).toNat < path.length)) ∧
    (∃ result,
      queryTransportLoop path
          ((path.drop (FindChar path '?' + 1).toNat).count '&' + 1) (FindChar path '?') [] =
        some result ∧
      queryTransportLoop path (path.length + 1) (FindChar path '?') [] = some result) := by
  refine ⟨?_, ?_, ?_⟩
  · obtain ⟨result, h⟩ :=
      queryTransportLoop_within_amp_count path _ i transport (Or.inr (le_refl _))
    exact ⟨result, h, queryTransportLoop_more_fuel path _ i transport result h⟩
  · intro hi
    rcases FindCharInSet_range path ['&'] (i + 1).toNat with e | ⟨e1, e2⟩
    · left; exact e
    · right
      refine ⟨?_, e2⟩
      have : ((i + 1).toNat : Int) = i + 1 := Int.toNat_of_nonneg (by omega)
      omega
  · obtain ⟨result, h⟩ :=
      queryTransportLoop_within_amp_count path _ (FindChar path '?') [] (Or.inr (le_refl _))
    refine ⟨result, h, ?_⟩
    have hle : (path.drop (FindChar path '?' + 1).toNat).count '&' ≤ path.length :=
      le_trans (List.count_le_length _ _) (by rw [List.length_drop]; omega)
    have hm := queryTransportLoop_more_fuel path _ (FindChar path '?') [] result h
      (path.length - (path.drop (FindChar path '?' + 1).toNat).count '&')
    have e : (path.drop (FindChar path '?' + 1).toNat).count '&' + 1 +
        (path.length - (path.drop (FindChar path '?' + 1).toNat).count '&') =
        path.length + 1 := by omega
    rw [e] at hm
    exact hm

/-- The scan on `turn.example.org?a=1&transport=tcp&b=2`: two `&` after the
`?`, three iterations are enough and two are not. -/
theorem queryTransportLoop_example :
    queryTransportLoop "turn.example.org?a=1&transport=tcp&b=2".data 3 16 [] =
      some "tcp&b=2".data ∧
    queryTransportLoop "turn.example.org?a=1&transport=tcp&b=2".data 2 16 [] = none := by
  decide

end mozilla
